import Mathlib

/-!
Bakery simulation: shallow embedding of the coordination core

Embedding of `include/common.h`, `src/chef.c`, `src/seller.c`,
`src/management.c`, `src/baker.c`, `src/supply_chain.c`, `src/customer.c` and
the signal handler of `src/main.c`.

Conventions of the embedding:

* C `int` and `time_t` values are mathematical integers (`Int`).  Signed
  overflow is undefined behaviour in C, so no wrap-around is modelled; every
  statement below is about executions in which no signed overflow occurs.
* A C `float` or `double` value is the rational number it denotes.  Every
  floating-point operation (conversion from `int`, division, subtraction,
  product, sum, decimal literal) is the exact operation followed by rounding to
  the nearest value of the format, ties to even: `round_float` for the binary32
  arithmetic of `analyze_production_needs`, `round_double` for the binary64
  arithmetic on `total_profit` and `product_prices`, whose type `Double` holds
  only values that rounding produces.  A product and the sum that uses it are
  rounded one after the other (no fused multiply-add), as in code compiled for
  x86-64.  The exponent range is not bounded:
  infinities, NaN and subnormal values are not modelled.  They do not arise in
  `analyze_production_needs`, whose operands are `int` counts and ratios
  between 0 and 1; for `total_profit` this leaves out profits above the largest
  finite `double`.
* The comparison of `total_profit` with the `int` threshold converts the
  threshold to `double`, which is exact for every `int`.
* A `for` loop over an enum range is a left fold over the list of its values;
  the values returned by `rand()` are an input stream.
* `RawMaterialType` and `ProductType` index fixed-size arrays and are only ever
  used in range, so they are enumerations and the arrays are total functions.
* `ChefType` is kept as the unsigned integer underlying the C enum, because
  `check_dependencies`, `produce_item` and `reallocate_chefs` have explicit
  paths for values outside the six roles.
* Output (`printf`, `perror`), pacing (`sleep`, `usleep`) and the draws of
  `rand()` that only feed a pacing delay have no effect on the modelled state.
* The result of a `semop` call is an explicit boolean input of a loop
  iteration (`true` = the call succeeded).
* For the lock discipline each loop body is embedded a second time as the list
  of its successful `semop` calls and of its stores to the shared regions, in
  program order; interleavings of several actors are not modelled.
-/

set_option linter.unusedVariables false

namespace Bakery

/-! ## Floating-point arithmetic (`float`, `double`) -/

/-- Number of binary digits of `n`, by halving at most `fuel` times. -/
def bit_length_aux : Nat → Nat → Nat
  | 0, _ => 0
  | fuel + 1, n => if n = 0 then 0 else bit_length_aux fuel (n / 2) + 1

/-- Number of binary digits of `n`: `2 ^ (bit_length n - 1) ≤ n < 2 ^ bit_length n`
for `n > 0`, and 0 for `n = 0`. -/
def bit_length (n : Nat) : Nat :=
  bit_length_aux n n

/-- The power `2 ^ e` of an integer exponent. -/
def pow2 (e : Int) : ℚ :=
  if 0 ≤ e then (2 : ℚ) ^ e.toNat else 1 / (2 : ℚ) ^ (-e).toNat

/-- Binary exponent of a positive rational: the integer `k` with
`2 ^ k ≤ a < 2 ^ (k + 1)`. -/
def binary_exponent (a : ℚ) : Int :=
  let k : Int := (bit_length a.num.natAbs : Int) - (bit_length a.den : Int)
  if pow2 k ≤ a then k else k - 1

/-- Nearest integer of a rational, a tie going to the even neighbour. -/
def round_half_even (a : ℚ) : Int :=
  let f := a.floor
  let r := a - f
  if r < 1 / 2 then f
  else if 1 / 2 < r then f + 1
  else if f % 2 = 0 then f
  else f + 1

/-- Rounding of a real value to the nearest binary floating-point number with a
significand of `p` bits, ties to even (the default rounding of IEEE 754
arithmetic).  The exponent range is not bounded: overflow to infinity and
gradual underflow are not modelled. -/
def round_to_precision (p : Nat) (x : ℚ) : ℚ :=
  if x = 0 then 0
  else
    let a := |x|
    let e := binary_exponent a - ((p : Int) - 1)
    let m := round_half_even (a / pow2 e)
    (if x < 0 then -1 else 1) * (m : ℚ) * pow2 e

/-- Rounding of a positive value `a`: its rounded significand times the power
of two of its last significand bit. -/
def round_pos (p : Nat) (a : ℚ) : ℚ :=
  (round_half_even (a / pow2 (binary_exponent a - ((p : Int) - 1))) : ℚ) *
    pow2 (binary_exponent a - ((p : Int) - 1))

/-- A positive value that is an integer significand of at most `p` bits (or
`2 ^ p`) times a power of two. -/
def representable (p : Nat) (s : ℚ) : Prop :=
  ∃ (m e : Int), 0 < m ∧ m ≤ 2 ^ p ∧ s = (m : ℚ) * (2 : ℚ) ^ e

/-- Number of significand bits of a C `float` (IEEE 754 binary32),
`FLT_MANT_DIG` of `float.h`. -/
def FLT_MANT_DIG : Nat := 24

/-- Rounding to `float`: the value a C `float` holds after a conversion from
`int`, a division, a subtraction or the reading of a decimal literal with exact
result `x`. -/
def round_float (x : ℚ) : ℚ :=
  round_to_precision FLT_MANT_DIG x

/-- Number of significand bits of a C `double` (IEEE 754 binary64),
`DBL_MANT_DIG` of `float.h`. -/
def DBL_MANT_DIG : Nat := 53

/-- Rounding to `double`: the value a C `double` holds after a conversion, a
product or a sum with exact result `x`. -/
def round_double (x : ℚ) : ℚ :=
  round_to_precision DBL_MANT_DIG x

/-- A C `double`: the rational number denoted by a finite binary64 value, that
is, a value that rounding to `double` produces. -/
structure Double where
  val : ℚ
  is_double : ∃ x, round_double x = val

/-- The `double` nearest to a real value. -/
def Double.of_real (x : ℚ) : Double :=
  { val := round_double x, is_double := ⟨x, rfl⟩ }

/-- Conversion of an `int` to `double`. -/
def Double.of_int (n : Int) : Double :=
  Double.of_real (n : ℚ)

instance : Coe Double ℚ := ⟨Double.val⟩

instance (n : Nat) : OfNat Double n := ⟨Double.of_real (n : ℚ)⟩

/-- Sum of two `double`s: the exact sum, rounded. -/
instance : Add Double := ⟨fun a b => Double.of_real (a.val + b.val)⟩

/-- Product of two `double`s: the exact product, rounded. -/
instance : Mul Double := ⟨fun a b => Double.of_real (a.val * b.val)⟩

/-- Order of `double`s: the order of the values they denote. -/
instance : Preorder Double := Preorder.lift Double.val

instance (a b : Double) : Decidable (a ≤ b) :=
  inferInstanceAs (Decidable (a.val ≤ b.val))

/-! ## Data model (`include/common.h`, `include/chef.h`) -/

/-- Raw materials, `RawMaterialType` of `common.h`. -/
inductive RawMaterialType where
  | ITEM_WHEAT
  | ITEM_YEAST
  | ITEM_BUTTER
  | ITEM_MILK
  | ITEM_SUGAR_SALT
  | ITEM_SWEET_ITEMS
  | ITEM_CHEESE_SALAMI
  deriving DecidableEq, Repr, Fintype

/-- Product types, `ProductType` of `common.h`. -/
inductive ProductType where
  | PRODUCT_BREAD
  | PRODUCT_SANDWICH
  | PRODUCT_CAKE
  | PRODUCT_SWEET
  | PRODUCT_SWEET_PATISSERIE
  | PRODUCT_SAVORY_PATISSERIE
  | PRODUCT_PASTE
  deriving DecidableEq, Repr, Fintype

open RawMaterialType ProductType

/-- Chef roles: the unsigned value of the C enum `ChefType`. -/
abbrev ChefType := Nat

abbrev CHEF_PASTE : ChefType := 0
abbrev CHEF_CAKE : ChefType := 1
abbrev CHEF_SANDWICH : ChefType := 2
abbrev CHEF_SWEET : ChefType := 3
abbrev CHEF_SWEET_PATISSERIE : ChefType := 4
abbrev CHEF_SAVORY_PATISSERIE : ChefType := 5
abbrev CHEF_TYPE_COUNT : Nat := 6

/-- Shared inventory region, `Inventory` of `common.h`. -/
structure Inventory where
  quantities : RawMaterialType → Int
  min_thresholds : RawMaterialType → Int

/-- Shared ledger region, `ProductionStatus` of `common.h`. -/
structure ProductionStatus where
  produced_items : ProductType → Int
  sold_items : ProductType → Int
  frustrated_customers : Int
  complained_customers : Int
  missing_items_requests : Int
  total_profit : Double
  start_time : Int
  simulation_active : Bool

/-- Customer request / response message, `CustomerMsg` of `common.h`. -/
structure CustomerMsg where
  msg_type : Int
  customer_id : Int
  product_type : ProductType
  subtype : Int
  quantity : Int
  is_complaint : Bool
  fulfilled : Bool

/-- Management decision message, `ManagementMsg` of `common.h`. -/
structure ManagementMsg where
  msg_type : Int
  chef_type_from : ChefType
  chef_type_to : ChefType
  num_chefs_to_move : Int

/-- Run configuration, `BakeryConfig` of `common.h`. -/
structure BakeryConfig where
  num_categories : ProductType → Int
  num_chefs : Nat → Int
  num_bakers : Nat → Int
  num_sellers : Int
  num_supply_chain : Int
  min_purchases : RawMaterialType → Int
  max_purchases : RawMaterialType → Int
  product_prices : ProductType → Double
  production_times : ProductType → Int
  max_items_per_type : ProductType → Int
  thresholds : Nat → Int
  max_simulation_time : Int
  customer_params : Nat → Int
  complaint_probability : ℚ
  max_purchase_items : Int

/-- Chef team record, `ChefTeam` of `chef.h` (the member array `chefs` is not
read or written by any modelled function). -/
structure ChefTeam where
  type : ChefType
  team_size : Int
  active_chefs : Int

/-- Array store `a[i] = v`. -/
def setAt {α : Type} [DecidableEq α] (a : α → Int) (i : α) (v : Int) : α → Int :=
  fun j => if j = i then v else a j

/-! ## `src/chef.c` -/

/-- Ingredient check of a chef role, `check_dependencies` of `chef.c`. -/
def check_dependencies (type : ChefType) (inventory : Inventory) : Bool :=
  match type with
  | 0 =>
    if inventory.quantities ITEM_WHEAT < 2 ∨
       inventory.quantities ITEM_YEAST < 1 ∨
       inventory.quantities ITEM_BUTTER < 1 ∨
       inventory.quantities ITEM_MILK < 1 then false else true
  | 1 =>
    if inventory.quantities ITEM_WHEAT < 3 ∨
       inventory.quantities ITEM_BUTTER < 2 ∨
       inventory.quantities ITEM_MILK < 2 ∨
       inventory.quantities ITEM_SUGAR_SALT < 2 ∨
       inventory.quantities ITEM_SWEET_ITEMS < 2 then false else true
  | 2 =>
    if inventory.quantities ITEM_CHEESE_SALAMI < 2 then false else true
  | 3 =>
    if inventory.quantities ITEM_SUGAR_SALT < 2 ∨
       inventory.quantities ITEM_SWEET_ITEMS < 3 then false else true
  | 4 =>
    if inventory.quantities ITEM_SWEET_ITEMS < 2 ∨
       inventory.quantities ITEM_SUGAR_SALT < 1 then false else true
  | 5 =>
    if inventory.quantities ITEM_CHEESE_SALAMI < 1 ∨
       inventory.quantities ITEM_BUTTER < 1 then false else true
  | _ => false

/-- Decrement `inventory->quantities[m] -= k`. -/
def consume (inventory : Inventory) (m : RawMaterialType) (k : Int) : Inventory :=
  { inventory with quantities := setAt inventory.quantities m (inventory.quantities m - k) }

/-- Increment `status->sold_items[t]++`. -/
def incr_sold (status : ProductionStatus) (t : ProductType) : ProductionStatus :=
  { status with sold_items := setAt status.sold_items t (status.sold_items t + 1) }

/-- Increment `status->produced_items[t]++`. -/
def incr_produced (status : ProductionStatus) (t : ProductType) : ProductionStatus :=
  { status with produced_items := setAt status.produced_items t (status.produced_items t + 1) }

/-- Consume the recipe and count the product, `produce_item` of `chef.c`.  The
`config` argument of the C function is unused by it. -/
def produce_item (type : ChefType) (inventory : Inventory) (status : ProductionStatus) :
    Inventory × ProductionStatus :=
  match type with
  | 0 =>
    let inventory := consume inventory ITEM_WHEAT 2
    let inventory := consume inventory ITEM_YEAST 1
    let inventory := consume inventory ITEM_BUTTER 1
    let inventory := consume inventory ITEM_MILK 1
    (inventory, incr_produced status PRODUCT_PASTE)
  | 1 =>
    let inventory := consume inventory ITEM_WHEAT 3
    let inventory := consume inventory ITEM_BUTTER 2
    let inventory := consume inventory ITEM_MILK 2
    let inventory := consume inventory ITEM_SUGAR_SALT 2
    let inventory := consume inventory ITEM_SWEET_ITEMS 2
    (inventory, incr_produced status PRODUCT_CAKE)
  | 2 =>
    let inventory := consume inventory ITEM_CHEESE_SALAMI 2
    (inventory, incr_produced status PRODUCT_SANDWICH)
  | 3 =>
    let inventory := consume inventory ITEM_SUGAR_SALT 2
    let inventory := consume inventory ITEM_SWEET_ITEMS 3
    (inventory, incr_produced status PRODUCT_SWEET)
  | 4 =>
    let inventory := consume inventory ITEM_SWEET_ITEMS 2
    let inventory := consume inventory ITEM_SUGAR_SALT 1
    let status := incr_sold status PRODUCT_PASTE
    (inventory, incr_produced status PRODUCT_SWEET_PATISSERIE)
  | 5 =>
    let inventory := consume inventory ITEM_CHEESE_SALAMI 1
    let inventory := consume inventory ITEM_BUTTER 1
    let status := incr_sold status PRODUCT_PASTE
    (inventory, incr_produced status PRODUCT_SAVORY_PATISSERIE)
  | _ => (inventory, status)

/-- Product prepared by a chef role: the first `switch` of the loop body of
`chef_process`; `none` is its `default` branch (`continue`). -/
def chef_product_type (type : ChefType) : Option ProductType :=
  match type with
  | 0 => some PRODUCT_PASTE
  | 2 => some PRODUCT_SANDWICH
  | 1 => some PRODUCT_CAKE
  | 3 => some PRODUCT_SWEET
  | 4 => some PRODUCT_SWEET_PATISSERIE
  | 5 => some PRODUCT_SAVORY_PATISSERIE
  | _ => none

/-- One pass through the body of the `while` loop of `chef_process`, on the two
shared regions.  `inv_lock_ok` and `prod_lock_ok` are the outcomes of the two
locking `semop` calls; every `continue` leaves both regions as they are. -/
def chef_iteration (type : ChefType) (inventory : Inventory) (status : ProductionStatus)
    (inv_lock_ok prod_lock_ok : Bool) : Inventory × ProductionStatus :=
  match chef_product_type type with
  | none => (inventory, status)
  | some _ =>
    if !inv_lock_ok then (inventory, status)
    else
      let ingredients_available := check_dependencies type inventory
      if !ingredients_available then (inventory, status)
      else if (type = CHEF_SWEET_PATISSERIE ∨ type = CHEF_SAVORY_PATISSERIE) ∧
          prod_lock_ok = false then (inventory, status)
      else
        let can_proceed : Bool :=
          if type = CHEF_SWEET_PATISSERIE ∨ type = CHEF_SAVORY_PATISSERIE then
            if status.produced_items PRODUCT_PASTE - status.sold_items PRODUCT_PASTE ≤ 0
            then false else true
          else true
        if !can_proceed then (inventory, status)
        else produce_item type inventory status

/-- Store `teams[i].team_size = v`. -/
def set_team_size (teams : Nat → ChefTeam) (i : Nat) (v : Int) : Nat → ChefTeam :=
  fun j => if j = i then { teams j with team_size := v } else teams j

/-- Move workers between two teams, `reallocate_chefs` of `chef.c`.  The roster
is the array `teams[CHEF_TYPE_COUNT]`, indexed by role. -/
def reallocate_chefs (teams : Nat → ChefTeam) (from_team to_team : ChefType)
    (num_to_move : Int) : Nat → ChefTeam :=
  if from_team ≥ CHEF_TYPE_COUNT ∨ to_team ≥ CHEF_TYPE_COUNT ∨ from_team = to_team then teams
  else
    let capped : Option Int :=
      if (teams from_team).team_size < num_to_move + 1 then
        let num_to_move := (teams from_team).team_size - 1
        if num_to_move ≤ 0 then none else some num_to_move
      else some num_to_move
    match capped with
    | none => teams
    | some num_to_move =>
      let teams := set_team_size teams from_team ((teams from_team).team_size - num_to_move)
      set_team_size teams to_team ((teams to_team).team_size + num_to_move)

/-! ## `src/seller.c` -/

/-- Reservation policy of the seller, `check_product_availability` of
`seller.c`.  The reserve test nested under the test of the type is written as
one conjunction; `subtype` is not read by the C function. -/
def check_product_availability (type : ProductType) (subtype : Int) (quantity : Int)
    (status : ProductionStatus) : Bool :=
  let available := status.produced_items type - status.sold_items type
  if (type = PRODUCT_CAKE ∨ type = PRODUCT_SWEET_PATISSERIE) ∧ available - quantity < 3 then
    false
  else if type = PRODUCT_SANDWICH ∧ available < quantity * 2 then
    false
  else
    decide (available ≥ quantity)

/-- Serve one purchase request, `handle_customer_request` of `seller.c`.
Returns the request (with `fulfilled` set), the ledger and `*customers_served`. -/
def handle_customer_request (request : CustomerMsg) (status : ProductionStatus)
    (config : BakeryConfig) (customers_served : Int) : CustomerMsg × ProductionStatus × Int :=
  let available := check_product_availability request.product_type request.subtype
    request.quantity status
  if !available then
    let status := { status with missing_items_requests := status.missing_items_requests + 1 }
    let request := { request with fulfilled := false }
    (request, status, customers_served)
  else
    let request := { request with fulfilled := true }
    let status := { status with
      sold_items := setAt status.sold_items request.product_type
        (status.sold_items request.product_type + request.quantity) }
    let price := config.product_prices request.product_type
    let sale_profit := price * Double.of_int request.quantity
    let status := { status with total_profit := status.total_profit + sale_profit }
    (request, status, customers_served + 1)

/-- Count one complaint, `handle_customer_complaint` of `seller.c`. -/
def handle_customer_complaint (complaint : CustomerMsg) (status : ProductionStatus) :
    ProductionStatus :=
  { status with complained_customers := status.complained_customers + 1 }

/-! ## `src/management.c` -/

/-- Termination test, `check_end_conditions` of `management.c`; the result is
the value stored in `*should_end`, `now` is the value of `time(NULL)`. -/
def check_end_conditions (status : ProductionStatus) (config : BakeryConfig) (now : Int) :
    Bool :=
  if status.frustrated_customers ≥ config.thresholds 0 then true
  else if status.complained_customers ≥ config.thresholds 1 then true
  else if status.missing_items_requests ≥ config.thresholds 2 then true
  else if status.total_profit ≥ (config.thresholds 3 : ℚ) then true
  else if Int.tdiv (now - status.start_time) 60 ≥ config.max_simulation_time then true
  else false

/-- Apply a management decision, `reassign_chefs` of `management.c`. -/
def reassign_chefs (teams : Nat → ChefTeam) (decision : ManagementMsg) : Nat → ChefTeam :=
  reallocate_chefs teams decision.chef_type_from decision.chef_type_to
    decision.num_chefs_to_move

/-- All product types in the order of the C enum, the range of the loops
`for (int i = 0; i < PRODUCT_TYPE_COUNT; i++)`. -/
def all_products : List ProductType :=
  [PRODUCT_BREAD, PRODUCT_SANDWICH, PRODUCT_CAKE, PRODUCT_SWEET, PRODUCT_SWEET_PATISSERIE,
   PRODUCT_SAVORY_PATISSERIE, PRODUCT_PASTE]

/-- Integer value of a product type in the C enum. -/
def product_index (t : ProductType) : Nat :=
  match t with
  | PRODUCT_BREAD => 0
  | PRODUCT_SANDWICH => 1
  | PRODUCT_CAKE => 2
  | PRODUCT_SWEET => 3
  | PRODUCT_SWEET_PATISSERIE => 4
  | PRODUCT_SAVORY_PATISSERIE => 5
  | PRODUCT_PASTE => 6

/-- The sum `total += a[i]` over all product types. -/
def total_items (a : ProductType → Int) : Int :=
  all_products.foldl (fun total i => total + a i) 0

/-- Entry `i` of the array `production_ratios` of `analyze_production_needs`:
`(float)status->produced_items[i] / total_produced`, 0 when nothing was
produced.  Both operands are converted to `float` and the quotient is rounded
to `float`. -/
def production_ratios (status : ProductionStatus) (i : ProductType) : ℚ :=
  if total_items status.produced_items > 0 then
    round_float (round_float (status.produced_items i : ℚ) /
      round_float (total_items status.produced_items : ℚ))
  else 0

/-- Entry `i` of the array `sales_ratios` of `analyze_production_needs`. -/
def sales_ratios (status : ProductionStatus) (i : ProductType) : ℚ :=
  if total_items status.sold_items > 0 then
    round_float (round_float (status.sold_items i : ℚ) /
      round_float (total_items status.sold_items : ℚ))
  else 0

/-- Body of the first search loop of `analyze_production_needs`; the state is
`(max_imbalance, max_imbalance_type)`, with `none` for the C value `-1`.  The
local `imbalance` is a `float`: the difference of the two ratios, rounded. -/
def max_imbalance_step (status : ProductionStatus) (acc : ℚ × Option ProductType)
    (i : ProductType) : ℚ × Option ProductType :=
  let imbalance := round_float (sales_ratios status i - production_ratios status i)
  if imbalance > acc.1 then (imbalance, some i) else acc

/-- Body of the second search loop of `analyze_production_needs`; the state is
`(min_imbalance, min_imbalance_type)`.  The literal `0.05f` is the `float`
nearest to `1/20`. -/
def min_imbalance_step (status : ProductionStatus) (acc : ℚ × Option ProductType)
    (i : ProductType) : ℚ × Option ProductType :=
  if i = PRODUCT_PASTE then acc
  else
    let imbalance := round_float (production_ratios status i - sales_ratios status i)
    if imbalance > round_float (1 / 20) ∧ imbalance < acc.1 then (imbalance, some i) else acc

/-- The two `switch` statements of `analyze_production_needs` that map a
product type to its chef team; `none` stands for the branches that `return`
(bread, and the `default` branch taken by paste). -/
def team_of_product (t : ProductType) : Option ChefType :=
  match t with
  | PRODUCT_BREAD => none
  | PRODUCT_SANDWICH => some CHEF_SANDWICH
  | PRODUCT_CAKE => some CHEF_CAKE
  | PRODUCT_SWEET => some CHEF_SWEET
  | PRODUCT_SWEET_PATISSERIE => some CHEF_SWEET_PATISSERIE
  | PRODUCT_SAVORY_PATISSERIE => some CHEF_SAVORY_PATISSERIE
  | PRODUCT_PASTE => none

/-- Value of the constant `MSG_MANAGEMENT_DECISION` of `common.h`. -/
def MSG_MANAGEMENT_DECISION : Int := 2

/-- Staffing decision of the management, `analyze_production_needs` of
`management.c`.  The literal `0.1f` is the `float` nearest to `1/10`; `-1.0f`
and `1.0f` are exact; the `teams` argument is not read by the C function. -/
def analyze_production_needs (status : ProductionStatus) (teams : Nat → ChefTeam) :
    ManagementMsg :=
  let msg : ManagementMsg :=
    { msg_type := MSG_MANAGEMENT_DECISION, chef_type_from := 0, chef_type_to := 0,
      num_chefs_to_move := 0 }
  let found_max := all_products.foldl (max_imbalance_step status) (-1, none)
  match found_max.2 with
  | none => msg
  | some max_imbalance_type =>
    if found_max.1 > round_float (1 / 10) then
      match team_of_product max_imbalance_type with
      | none => msg
      | some team_to =>
        let found_min := all_products.foldl (min_imbalance_step status) (1, none)
        match found_min.2 with
        | none => msg
        | some min_imbalance_type =>
          match team_of_product min_imbalance_type with
          | none => msg
          | some team_from =>
            { msg with chef_type_from := team_from, chef_type_to := team_to,
                       num_chefs_to_move := 1 }
    else msg

/-- Local state of the management process, `ManagementData` of `management.h`. -/
structure ManagementData where
  last_decision_time : Int
  decision_count : Int

/-- State of the management process after one pass through its loop body. -/
structure ManagementStep where
  status : ProductionStatus
  teams : Nat → ChefTeam
  mgmt_data : ManagementData
  should_end : Bool
  loop_exit : Bool

/-- One pass through the body of the `while` loop of `management_process`.
`current_time` and `now` are the values of `time(NULL)` read by the loop body
and by `check_end_conditions`; `lock_ok` and `unlock_ok` are the outcomes of the
two `semop` calls; `loop_exit` records a `break`. -/
def management_iteration (status : ProductionStatus) (teams : Nat → ChefTeam)
    (mgmt_data : ManagementData) (config : BakeryConfig) (current_time now : Int)
    (lock_ok unlock_ok : Bool) : ManagementStep :=
  if current_time - mgmt_data.last_decision_time ≥ 60 then
    if !lock_ok then
      { status := status, teams := teams, mgmt_data := mgmt_data, should_end := false,
        loop_exit := true }
    else
      let decision := analyze_production_needs status teams
      let teams := if decision.num_chefs_to_move > 0 then reassign_chefs teams decision
        else teams
      let mgmt_data : ManagementData :=
        { last_decision_time := current_time, decision_count := mgmt_data.decision_count + 1 }
      let should_end := check_end_conditions status config now
      if !unlock_ok then
        { status := status, teams := teams, mgmt_data := mgmt_data, should_end := should_end,
          loop_exit := true }
      else if should_end then
        { status := { status with simulation_active := false }, teams := teams,
          mgmt_data := mgmt_data, should_end := true, loop_exit := true }
      else
        { status := status, teams := teams, mgmt_data := mgmt_data, should_end := false,
          loop_exit := false }
  else
    { status := status, teams := teams, mgmt_data := mgmt_data, should_end := false,
      loop_exit := false }

/-! ## `src/main.c` -/

/-- Effect of `signal_handler` of `main.c` on the ledger. -/
def signal_handler (status : ProductionStatus) : ProductionStatus :=
  { status with simulation_active := false }

/-! ## `src/baker.c` -/

/-- Baker roles: the unsigned value of the C enum `BakerType`. -/
abbrev BakerType := Nat

abbrev BAKER_CAKE_SWEET : BakerType := 0
abbrev BAKER_PATISSERIE : BakerType := 1
abbrev BAKER_BREAD : BakerType := 2

/-- One baking attempt, `bake_products` of `baker.c`: the returned flag
`baked_something` and the ledger. -/
def bake_products (type : BakerType) (status : ProductionStatus) (config : BakeryConfig) :
    Bool × ProductionStatus :=
  match type with
  | 0 =>
    if status.produced_items PRODUCT_CAKE < config.max_items_per_type PRODUCT_CAKE then
      (true, incr_produced status PRODUCT_CAKE)
    else if status.produced_items PRODUCT_SWEET < config.max_items_per_type PRODUCT_SWEET then
      (true, incr_produced status PRODUCT_SWEET)
    else (false, status)
  | 1 =>
    if status.produced_items PRODUCT_SWEET_PATISSERIE <
        config.max_items_per_type PRODUCT_SWEET_PATISSERIE then
      (true, incr_produced status PRODUCT_SWEET_PATISSERIE)
    else if status.produced_items PRODUCT_SAVORY_PATISSERIE <
        config.max_items_per_type PRODUCT_SAVORY_PATISSERIE then
      (true, incr_produced status PRODUCT_SAVORY_PATISSERIE)
    else (false, status)
  | 2 =>
    let after_bread : Bool × ProductionStatus :=
      if status.produced_items PRODUCT_BREAD < config.max_items_per_type PRODUCT_BREAD then
        (true, incr_produced status PRODUCT_BREAD)
      else (false, status)
    if after_bread.2.produced_items PRODUCT_SANDWICH <
        config.max_items_per_type PRODUCT_SANDWICH then
      (true, incr_produced after_bread.2 PRODUCT_SANDWICH)
    else after_bread
  | _ => (false, status)

/-! ## `src/supply_chain.c` -/

/-- All raw materials in the order of the C enum, the range of the loop
`for (int i = 0; i < ITEM_RAW_MATERIAL_COUNT; i++)`. -/
def all_materials : List RawMaterialType :=
  [ITEM_WHEAT, ITEM_YEAST, ITEM_BUTTER, ITEM_MILK, ITEM_SUGAR_SALT, ITEM_SWEET_ITEMS,
   ITEM_CHEESE_SALAMI]

/-- State of the restocking loop of `supply_chain_process`: the inventory, the
number of `rand()` calls made so far and the flag `reordered`. -/
structure SupplyScan where
  inventory : Inventory
  draws : Nat
  reordered : Bool

/-- Body of the restocking loop of `supply_chain_process` for material `i`.
`rand k` is the value of the `k`-th call of `rand()` of the scan; `%` is C's
truncating remainder. -/
def supply_scan_step (config : BakeryConfig) (rand : Nat → Int) (s : SupplyScan)
    (i : RawMaterialType) : SupplyScan :=
  if s.inventory.quantities i < s.inventory.min_thresholds i then
    let order_amount := config.min_purchases i +
      Int.tmod (rand s.draws) (config.max_purchases i - config.min_purchases i + 1)
    { inventory := { s.inventory with
        quantities := setAt s.inventory.quantities i (s.inventory.quantities i + order_amount) }
      draws := s.draws + 1
      reordered := true }
  else s

/-- One scan of the inventory by a supply employee: the `for` loop of
`supply_chain_process`, run under the inventory lock. -/
def supply_scan (inventory : Inventory) (config : BakeryConfig) (rand : Nat → Int) :
    SupplyScan :=
  all_materials.foldl (supply_scan_step config rand)
    { inventory := inventory, draws := 0, reordered := false }

/-- Value of the constant `MSG_CUSTOMER_REQUEST` of `common.h`. -/
def MSG_CUSTOMER_REQUEST : Int := 1

/-- Value of the constant `MSG_CUSTOMER_RESPONSE_BASE` of `common.h`. -/
def MSG_CUSTOMER_RESPONSE_BASE : Int := 100

/-- Product type with a given value in the C enum, the conversion of
`rand() % PRODUCT_TYPE_COUNT` to `ProductType`. -/
def product_of_index (n : Int) : ProductType :=
  if n = 0 then PRODUCT_BREAD
  else if n = 1 then PRODUCT_SANDWICH
  else if n = 2 then PRODUCT_CAKE
  else if n = 3 then PRODUCT_SWEET
  else if n = 4 then PRODUCT_SWEET_PATISSERIE
  else if n = 5 then PRODUCT_SAVORY_PATISSERIE
  else PRODUCT_PASTE

/-- What the environment decides for one item of a customer's purchase: the
three values of `rand()` behind product type, subtype and quantity, the outcome
of `msgsnd`, and the results of the successive `msgrcv` polls made before the
patience runs out (`none` = no message). -/
structure CustomerItem where
  type_draw : Int
  subtype_draw : Int
  quantity_draw : Int
  send_ok : Bool
  polls : List (Option CustomerMsg)

/-- The request built for one item in the `for` loop of `customer_process`. -/
def item_request (request_msg : CustomerMsg) (config : BakeryConfig) (item : CustomerItem) :
    CustomerMsg :=
  let product_type := product_of_index (Int.tmod item.type_draw 7)
  let subtype :=
    if config.num_categories product_type > 0 then
      Int.tmod item.subtype_draw (config.num_categories product_type)
    else 0
  { request_msg with product_type := product_type, subtype := subtype,
                     quantity := 1 + Int.tmod item.quantity_draw 3 }

/-- The polling loop of `customer_process`: `some fulfilled` when a response for
the requested product type and subtype arrives, `none` when the patience runs
out first (`got_response` stays false). -/
def wait_for_response (request_msg : CustomerMsg) :
    List (Option CustomerMsg) → Option Bool
  | [] => none
  | none :: polls => wait_for_response request_msg polls
  | some response_msg :: polls =>
    if response_msg.product_type = request_msg.product_type ∧
        response_msg.subtype = request_msg.subtype then
      some response_msg.fulfilled
    else wait_for_response request_msg polls

/-- The `for` loop over the items of `customer_process`; the state is the
request buffer and the flag `all_requests_fulfilled`.  A failed `msgsnd` clears
the flag and leaves the loop. -/
def customer_requests (config : BakeryConfig) :
    List CustomerItem → CustomerMsg × Bool → CustomerMsg × Bool
  | [], state => state
  | item :: items, state =>
    let request_msg := item_request state.1 config item
    if !item.send_ok then (request_msg, false)
    else
      let all_requests_fulfilled : Bool :=
        match wait_for_response request_msg item.polls with
        | some true => state.2
        | some false => false
        | none => false
      customer_requests config items (request_msg, all_requests_fulfilled)

/-- The request buffer `request_msg` of `customer_process` before the first
item: tag, customer id and `is_complaint` are set, the other fields are filled
in by the loop (they are shown here with zero values). -/
def customer_request_buffer (id : Int) : CustomerMsg :=
  { msg_type := MSG_CUSTOMER_REQUEST, customer_id := id, product_type := PRODUCT_BREAD,
    subtype := 0, quantity := 0, is_complaint := false, fulfilled := false }

/-- The ledger update made by `customer_process` under the ledger lock. -/
def customer_final_update (all_requests_fulfilled : Bool) (status : ProductionStatus) :
    ProductionStatus :=
  if !all_requests_fulfilled then
    { status with frustrated_customers := status.frustrated_customers + 1 }
  else status

/-- A customer from arrival to departure, `customer_process` of `customer.c`:
the ledger it leaves and the complaint it sends, if any.  `items` are the
`num_items` purchases, `lock_ok` is the outcome of the locking `semop` (on
failure the process exits without touching the ledger), `complaint_draw` is the
value of `(double)rand() / RAND_MAX` and `complaint_send_ok` the outcome of the
last `msgsnd`. -/
def customer_process (id : Int) (items : List CustomerItem) (status : ProductionStatus)
    (config : BakeryConfig) (lock_ok : Bool) (complaint_draw : ℚ)
    (complaint_send_ok : Bool) : ProductionStatus × Option CustomerMsg :=
  let served := customer_requests config items (customer_request_buffer id, true)
  if !lock_ok then (status, none)
  else
    let status := customer_final_update served.2 status
    if !served.2 ∧ complaint_draw < config.complaint_probability ∧ complaint_send_ok then
      (status, some { served.1 with is_complaint := true, msg_type := MSG_CUSTOMER_REQUEST })
    else (status, none)

/-! ## `src/seller.c`: the loop body -/

/-- The tag a customer polls for, the fourth argument of its `msgrcv` call in
`customer_process`. -/
def customer_poll_tag (id : Int) : Int :=
  id + MSG_CUSTOMER_RESPONSE_BASE

/-- State of a seller after one pass through its loop body; `sent` is the
message handed to `msgsnd`, if the pass reaches that call. -/
structure SellerStep where
  status : ProductionStatus
  customers_served : Int
  sent : Option CustomerMsg

/-- One pass through the body of the `while` loop of `seller_process`.
`received` is the result of the non-blocking `msgrcv` (`none` = no message),
`lock_ok` the outcome of the locking `semop`; on a failed lock the pass is
abandoned by `continue`. -/
def seller_iteration (received : Option CustomerMsg) (status : ProductionStatus)
    (config : BakeryConfig) (customers_served : Int) (lock_ok : Bool) : SellerStep :=
  match received with
  | none => { status := status, customers_served := customers_served, sent := none }
  | some customer_msg =>
    if !lock_ok then
      { status := status, customers_served := customers_served, sent := none }
    else if customer_msg.is_complaint then
      { status := handle_customer_complaint customer_msg status,
        customers_served := customers_served, sent := none }
    else
      let handled := handle_customer_request customer_msg status config customers_served
      let response_msg : CustomerMsg :=
        { handled.1 with msg_type := handled.1.customer_id + MSG_CUSTOMER_RESPONSE_BASE }
      { status := handled.2.1, customers_served := handled.2.2, sent := some response_msg }

/-! ## Lock discipline: semaphore operations and stores of one loop iteration -/

/-- The two shared regions, each guarded by its own semaphore. -/
inductive Region where
  | inventory
  | ledger
  deriving DecidableEq, Repr

/-- What an actor does to a shared region: a successful `semop` that takes the
region's semaphore, a successful `semop` that releases it, or a store to one of
the region's fields.  A failed `semop` changes nothing and leaves no event. -/
inductive Event where
  | lock (r : Region)
  | unlock (r : Region)
  | write (r : Region)
  deriving DecidableEq, Repr

/-- The event of an unlocking `semop` with outcome `ok`. -/
def unlock_events (r : Region) (ok : Bool) : List Event :=
  if ok then [Event.unlock r] else []

/-- Stores made by `produce_item`, in program order: one per recipe line, then
for the pastry roles `sold_items[PRODUCT_PASTE]++`, then
`produced_items[product_type]++`. -/
def produce_item_events (type : ChefType) : List Event :=
  match type with
  | 0 => [Event.write Region.inventory, Event.write Region.inventory,
          Event.write Region.inventory, Event.write Region.inventory,
          Event.write Region.ledger]
  | 1 => [Event.write Region.inventory, Event.write Region.inventory,
          Event.write Region.inventory, Event.write Region.inventory,
          Event.write Region.inventory, Event.write Region.ledger]
  | 2 => [Event.write Region.inventory, Event.write Region.ledger]
  | 3 => [Event.write Region.inventory, Event.write Region.inventory,
          Event.write Region.ledger]
  | 4 => [Event.write Region.inventory, Event.write Region.inventory,
          Event.write Region.ledger, Event.write Region.ledger]
  | 5 => [Event.write Region.inventory, Event.write Region.inventory,
          Event.write Region.ledger, Event.write Region.ledger]
  | _ => []

/-- Events of one pass through the loop body of `chef_process`; the control
flow is that of `chef_iteration`, `prod_unlock_ok` and `inv_unlock_ok` are the
outcomes of the unlocking `semop` calls. -/
def chef_events (type : ChefType) (inventory : Inventory) (status : ProductionStatus)
    (inv_lock_ok prod_lock_ok prod_unlock_ok inv_unlock_ok : Bool) : List Event :=
  match chef_product_type type with
  | none => []
  | some _ =>
    if !inv_lock_ok then []
    else
      Event.lock Region.inventory ::
        (if !check_dependencies type inventory then
          unlock_events Region.inventory inv_unlock_ok
        else if (type = CHEF_SWEET_PATISSERIE ∨ type = CHEF_SAVORY_PATISSERIE) ∧
            prod_lock_ok = false then
          unlock_events Region.inventory inv_unlock_ok
        else
          let can_proceed : Bool :=
            if type = CHEF_SWEET_PATISSERIE ∨ type = CHEF_SAVORY_PATISSERIE then
              if status.produced_items PRODUCT_PASTE - status.sold_items PRODUCT_PASTE ≤ 0
              then false else true
            else true
          (if type = CHEF_SWEET_PATISSERIE ∨ type = CHEF_SAVORY_PATISSERIE then
            Event.lock Region.ledger :: unlock_events Region.ledger prod_unlock_ok
          else []) ++
          (if !can_proceed then unlock_events Region.inventory inv_unlock_ok
          else produce_item_events type ++ unlock_events Region.inventory inv_unlock_ok))

/-- Stores made by `bake_products`: one per counter it increments. -/
def bake_products_events (type : BakerType) (status : ProductionStatus)
    (config : BakeryConfig) : List Event :=
  match type with
  | 0 =>
    if status.produced_items PRODUCT_CAKE < config.max_items_per_type PRODUCT_CAKE then
      [Event.write Region.ledger]
    else if status.produced_items PRODUCT_SWEET < config.max_items_per_type PRODUCT_SWEET then
      [Event.write Region.ledger]
    else []
  | 1 =>
    if status.produced_items PRODUCT_SWEET_PATISSERIE <
        config.max_items_per_type PRODUCT_SWEET_PATISSERIE then
      [Event.write Region.ledger]
    else if status.produced_items PRODUCT_SAVORY_PATISSERIE <
        config.max_items_per_type PRODUCT_SAVORY_PATISSERIE then
      [Event.write Region.ledger]
    else []
  | 2 =>
    (if status.produced_items PRODUCT_BREAD < config.max_items_per_type PRODUCT_BREAD then
      [Event.write Region.ledger] else []) ++
    (if status.produced_items PRODUCT_SANDWICH < config.max_items_per_type PRODUCT_SANDWICH
      then [Event.write Region.ledger] else [])
  | _ => []

/-- Events of one pass through the loop body of `baker_process`. -/
def baker_events (type : BakerType) (status : ProductionStatus) (config : BakeryConfig)
    (lock_ok unlock_ok : Bool) : List Event :=
  if !lock_ok then []
  else
    Event.lock Region.ledger ::
      (bake_products_events type status config ++ unlock_events Region.ledger unlock_ok)

/-- Events of one pass through the loop body of `seller_process`: the complaint
counter, or the missing-items counter, or the sold counter and the profit, are
stored between the locking and the unlocking `semop`. -/
def seller_events (received : Option CustomerMsg) (status : ProductionStatus)
    (lock_ok unlock_ok : Bool) : List Event :=
  match received with
  | none => []
  | some customer_msg =>
    if !lock_ok then []
    else if customer_msg.is_complaint then
      Event.lock Region.ledger :: Event.write Region.ledger ::
        unlock_events Region.ledger unlock_ok
    else
      Event.lock Region.ledger ::
        ((if !check_product_availability customer_msg.product_type customer_msg.subtype
            customer_msg.quantity status then
          [Event.write Region.ledger]
        else [Event.write Region.ledger, Event.write Region.ledger]) ++
        unlock_events Region.ledger unlock_ok)

/-- Events of a customer's run: the item loop touches no shared region, the
final update stores `frustrated_customers` under the ledger lock. -/
def customer_events (id : Int) (items : List CustomerItem) (config : BakeryConfig)
    (lock_ok unlock_ok : Bool) : List Event :=
  if !lock_ok then []
  else
    Event.lock Region.ledger ::
      ((if !(customer_requests config items (customer_request_buffer id, true)).2 then
        [Event.write Region.ledger] else []) ++
      unlock_events Region.ledger unlock_ok)

/-- Events of one pass through the loop body of `management_process`: the
analysis and `check_end_conditions` only read the ledger; `simulation_active`
is stored after the unlocking `semop`. -/
def management_events (status : ProductionStatus) (mgmt_data : ManagementData)
    (config : BakeryConfig) (current_time now : Int) (lock_ok unlock_ok : Bool) :
    List Event :=
  if current_time - mgmt_data.last_decision_time ≥ 60 then
    if !lock_ok then []
    else
      Event.lock Region.ledger ::
        (if !unlock_ok then []
        else
          Event.unlock Region.ledger ::
            (if check_end_conditions status config now then [Event.write Region.ledger]
            else []))
  else []

/-- Whether every store to region `target` in a list of events happens while
the semaphore of region `guard` is held; `held` tells whether it is held before
the first event. -/
def writes_guarded (guard target : Region) : Bool → List Event → Bool
  | _, [] => true
  | held, Event.lock r :: events =>
    writes_guarded guard target (if r = guard then true else held) events
  | held, Event.unlock r :: events =>
    writes_guarded guard target (if r = guard then false else held) events
  | held, Event.write r :: events =>
    (if r = target then held else true) && writes_guarded guard target held events

/-! ## Steps of the core operations on the shared state -/

/-- The two shared regions. -/
structure Shared where
  inventory : Inventory
  status : ProductionStatus

/-- One step of a core operation on the shared regions: a chef loop iteration,
a bare `produce_item`, `bake_products`, `handle_customer_request`,
`handle_customer_complaint`, a customer's run with its final ledger update, a
supply scan, one management loop iteration, or the signal handler.  Every input
that the environment decides (roles, messages, configuration, `semop` outcomes,
clock values, random draws) is an argument of the step. -/
inductive core_step : Shared → Shared → Prop
  | chef (w : Shared) (type : ChefType) (inv_lock_ok prod_lock_ok : Bool) :
      core_step w
        { inventory := (chef_iteration type w.inventory w.status inv_lock_ok prod_lock_ok).1
          status := (chef_iteration type w.inventory w.status inv_lock_ok prod_lock_ok).2 }
  | produce (w : Shared) (type : ChefType) :
      core_step w
        { inventory := (produce_item type w.inventory w.status).1
          status := (produce_item type w.inventory w.status).2 }
  | bake (w : Shared) (type : BakerType) (config : BakeryConfig) :
      core_step w
        { inventory := w.inventory, status := (bake_products type w.status config).2 }
  | sell (w : Shared) (request : CustomerMsg) (config : BakeryConfig)
      (customers_served : Int) :
      core_step w
        { inventory := w.inventory
          status := (handle_customer_request request w.status config customers_served).2.1 }
  | complain (w : Shared) (complaint : CustomerMsg) :
      core_step w
        { inventory := w.inventory, status := handle_customer_complaint complaint w.status }
  | customer (w : Shared) (id : Int) (items : List CustomerItem) (config : BakeryConfig)
      (lock_ok : Bool) (complaint_draw : ℚ) (complaint_send_ok : Bool) :
      core_step w
        { inventory := w.inventory
          status := (customer_process id items w.status config lock_ok complaint_draw
            complaint_send_ok).1 }
  | supply (w : Shared) (config : BakeryConfig) (rand : Nat → Int) :
      core_step w
        { inventory := (supply_scan w.inventory config rand).inventory, status := w.status }
  | manage (w : Shared) (teams : Nat → ChefTeam) (mgmt_data : ManagementData)
      (config : BakeryConfig) (current_time now : Int) (lock_ok unlock_ok : Bool) :
      core_step w
        { inventory := w.inventory
          status := (management_iteration w.status teams mgmt_data config current_time now
            lock_ok unlock_ok).status }
  | signal (w : Shared) :
      core_step w { inventory := w.inventory, status := signal_handler w.status }

/-! ## Invariants and specification-side predicates -/

/-- Every material quantity of the inventory is non-negative. -/
def inventory_nonneg (inventory : Inventory) : Prop :=
  ∀ m : RawMaterialType, 0 ≤ inventory.quantities m

instance (inventory : Inventory) : Decidable (inventory_nonneg inventory) := by
  unfold inventory_nonneg; infer_instance

/-- Ledger invariant: no product type has sold more than it produced. -/
def ledger_consistent (status : ProductionStatus) : Prop :=
  ∀ t : ProductType, status.sold_items t ≤ status.produced_items t

instance (status : ProductionStatus) : Decidable (ledger_consistent status) := by
  unfold ledger_consistent; infer_instance

/-- Roster invariant: each of the six chef teams has at least one member. -/
def teams_staffed (teams : Nat → ChefTeam) : Prop :=
  ∀ i, i < CHEF_TYPE_COUNT → 1 ≤ (teams i).team_size

instance (teams : Nat → ChefTeam) : Decidable (teams_staffed teams) := by
  unfold teams_staffed; infer_instance

/-- Reservation policy in the words of the specification: a standing reserve of
three for cake and sweet pastry, twice the requested quantity for sandwich, the
requested quantity for every other type. -/
def reservation_policy (type : ProductType) (available quantity : Int) : Prop :=
  match type with
  | PRODUCT_CAKE => available - quantity ≥ 3
  | PRODUCT_SWEET_PATISSERIE => available - quantity ≥ 3
  | PRODUCT_SANDWICH => available ≥ 2 * quantity
  | _ => available ≥ quantity

/-- Number of workers that `reallocate_chefs` moves out of a donor team of size
`s` when asked for `n`. -/
def moved_count (s n : Int) : Int :=
  if s < n + 1 then (if s - 1 ≤ 0 then 0 else s - 1) else n

/-- Recipes in the words of the specification: the amount of each material that
a chef role needs for one product (Paste: wheat 2, yeast 1, butter 1, milk 1;
Cake: wheat 3, butter 2, milk 2, sugar/salt 2, sweet items 2; Sandwich:
cheese/salami 2; Sweet: sugar/salt 2, sweet items 3; SweetPastry: sweet items 2,
sugar/salt 1; SavoryPastry: cheese/salami 1, butter 1). -/
def recipe (type : ChefType) (m : RawMaterialType) : Int :=
  match type, m with
  | 0, ITEM_WHEAT => 2
  | 0, ITEM_YEAST => 1
  | 0, ITEM_BUTTER => 1
  | 0, ITEM_MILK => 1
  | 1, ITEM_WHEAT => 3
  | 1, ITEM_BUTTER => 2
  | 1, ITEM_MILK => 2
  | 1, ITEM_SUGAR_SALT => 2
  | 1, ITEM_SWEET_ITEMS => 2
  | 2, ITEM_CHEESE_SALAMI => 2
  | 3, ITEM_SUGAR_SALT => 2
  | 3, ITEM_SWEET_ITEMS => 3
  | 4, ITEM_SWEET_ITEMS => 2
  | 4, ITEM_SUGAR_SALT => 1
  | 5, ITEM_CHEESE_SALAMI => 1
  | 5, ITEM_BUTTER => 1
  | _, _ => 0

/-- Product types owned by a baker role, in the words of the specification:
CakeSweet owns cake and sweet, Pastry owns sweet pastry and savory pastry, Bread
owns bread and sandwich. -/
def baker_owns (type : BakerType) (t : ProductType) : Bool :=
  match type, t with
  | 0, PRODUCT_CAKE => true
  | 0, PRODUCT_SWEET => true
  | 1, PRODUCT_SWEET_PATISSERIE => true
  | 1, PRODUCT_SAVORY_PATISSERIE => true
  | 2, PRODUCT_BREAD => true
  | 2, PRODUCT_SANDWICH => true
  | _, _ => false

/-- The four ways one item of a purchase can end for the customer. -/
inductive ItemOutcome where
  | fulfilled
  | unfulfilled
  | timed_out
  | send_failed
  deriving DecidableEq, Repr

/-- The product type a customer asks for in one item: the draw reduced to the
seven product types. -/
def requested_type (item : CustomerItem) : ProductType :=
  match Int.tmod item.type_draw 7 with
  | 0 => PRODUCT_BREAD
  | 1 => PRODUCT_SANDWICH
  | 2 => PRODUCT_CAKE
  | 3 => PRODUCT_SWEET
  | 4 => PRODUCT_SWEET_PATISSERIE
  | 5 => PRODUCT_SAVORY_PATISSERIE
  | _ => PRODUCT_PASTE

/-- The subtype a customer asks for in one item: the draw reduced to the number
of categories of the requested type, 0 for a type without categories. -/
def requested_subtype (config : BakeryConfig) (item : CustomerItem) : Int :=
  if 0 < config.num_categories (requested_type item) then
    Int.tmod item.subtype_draw (config.num_categories (requested_type item))
  else 0

/-- The messages a customer receives for one item while its patience lasts, in
the order of arrival. -/
def received_messages (item : CustomerItem) : List CustomerMsg :=
  item.polls.filterMap (fun poll => poll)

/-- Outcome of one item, in the words of the specification: the send fails; or
the first message received for the requested product type and subtype says
`fulfilled` or not; or no such message arrives within the patience.  Stated
without reference to the polling loop of the code. -/
def item_outcome (config : BakeryConfig) (item : CustomerItem) : ItemOutcome :=
  if item.send_ok = false then ItemOutcome.send_failed
  else
    match (received_messages item).find? (fun response =>
        decide (response.product_type = requested_type item ∧
          response.subtype = requested_subtype config item)) with
    | some response =>
      if response.fulfilled then ItemOutcome.fulfilled else ItemOutcome.unfulfilled
    | none => ItemOutcome.timed_out

/-- Share of type `t` in the counts `a` in single precision: the count and the
total are converted to `float` and their quotient is rounded to `float`; 0 when
the total is not positive. -/
def float_ratio (a : ProductType → Int) (t : ProductType) : ℚ :=
  if 0 < total_items a then
    round_float (round_float (a t : ℚ) / round_float (total_items a : ℚ))
  else 0

/-- Demand in excess of production in single precision: the `float` nearest to
the difference of the single-precision shares of `t` in the sales and in the
production. -/
def sales_imbalance (status : ProductionStatus) (t : ProductType) : ℚ :=
  round_float (float_ratio status.sold_items t - float_ratio status.produced_items t)

/-- Production in excess of demand in single precision: the `float` nearest to
the difference of the single-precision shares of `t` in the production and in
the sales. -/
def oversupply (status : ProductionStatus) (t : ProductType) : ℚ :=
  round_float (float_ratio status.produced_items t - float_ratio status.sold_items t)

/-- Share of type `t` in the counts `a`, in the words of the specification:
`a[t] / total`, and 0 when the total is 0.  No rounding. -/
def exact_ratio (a : ProductType → Int) (t : ProductType) : ℚ :=
  if total_items a = 0 then 0 else (a t : ℚ) / (total_items a : ℚ)

/-- Demand in excess of production in the words of the specification:
`sold/total_sold - produced/total_produced` as a real number. -/
def exact_sales_imbalance (status : ProductionStatus) (t : ProductType) : ℚ :=
  exact_ratio status.sold_items t - exact_ratio status.produced_items t

/-- Production in excess of demand in the words of the specification:
`produced/total_produced - sold/total_sold` as a real number. -/
def exact_oversupply (status : ProductionStatus) (t : ProductType) : ℚ :=
  exact_ratio status.produced_items t - exact_ratio status.sold_items t

/-- The four scalar counters of the ledger did not decrease from `s` to `s'`. -/
def counters_monotone (s s' : ProductionStatus) : Prop :=
  s.frustrated_customers ≤ s'.frustrated_customers ∧
  s.complained_customers ≤ s'.complained_customers ∧
  s.missing_items_requests ≤ s'.missing_items_requests ∧
  s.total_profit ≤ s'.total_profit

/-- Number of workers in the six chef teams of a roster. -/
def total_team_size (teams : Nat → ChefTeam) : Int :=
  ((List.range CHEF_TYPE_COUNT).map (fun i => (teams i).team_size)).sum

/-- Which counter one call of `bake_products` raises: a CakeSweet or Pastry
baker bakes its first type if that is below its cap and otherwise its second
type if that is below its cap; a Bread baker bakes each of bread and sandwich
that is below its cap. -/
def baker_bakes (type : BakerType) (status : ProductionStatus) (config : BakeryConfig)
    (t : ProductType) : Bool :=
  match type, t with
  | 0, PRODUCT_CAKE =>
    decide (status.produced_items PRODUCT_CAKE < config.max_items_per_type PRODUCT_CAKE)
  | 0, PRODUCT_SWEET =>
    decide (¬ status.produced_items PRODUCT_CAKE < config.max_items_per_type PRODUCT_CAKE ∧
      status.produced_items PRODUCT_SWEET < config.max_items_per_type PRODUCT_SWEET)
  | 1, PRODUCT_SWEET_PATISSERIE =>
    decide (status.produced_items PRODUCT_SWEET_PATISSERIE <
      config.max_items_per_type PRODUCT_SWEET_PATISSERIE)
  | 1, PRODUCT_SAVORY_PATISSERIE =>
    decide (¬ status.produced_items PRODUCT_SWEET_PATISSERIE <
        config.max_items_per_type PRODUCT_SWEET_PATISSERIE ∧
      status.produced_items PRODUCT_SAVORY_PATISSERIE <
        config.max_items_per_type PRODUCT_SAVORY_PATISSERIE)
  | 2, PRODUCT_BREAD =>
    decide (status.produced_items PRODUCT_BREAD < config.max_items_per_type PRODUCT_BREAD)
  | 2, PRODUCT_SANDWICH =>
    decide (status.produced_items PRODUCT_SANDWICH <
      config.max_items_per_type PRODUCT_SANDWICH)
  | _, _ => false

/-! ## Sample states -/

/-- An inventory holding five units of every raw material. -/
def inventory_stocked : Inventory :=
  { quantities := fun _ => 5, min_thresholds := fun _ => 0 }

/-- A ledger with `produced[Cake] = 10`, `sold[Cake] = 5` and nothing else. -/
def ledger_cake : ProductionStatus :=
  { produced_items := fun t => if t = PRODUCT_CAKE then 10 else 0
    sold_items := fun t => if t = PRODUCT_CAKE then 5 else 0
    frustrated_customers := 0
    complained_customers := 0
    missing_items_requests := 0
    total_profit := 0
    start_time := 0
    simulation_active := true }

/-- A ledger holding one unit of unsold paste. -/
def ledger_paste : ProductionStatus :=
  { ledger_cake with produced_items := fun t => if t = PRODUCT_PASTE then 1 else 0,
                     sold_items := fun _ => 0 }

/-- A purchase request of customer 1 for `quantity` cakes. -/
def request_cake (quantity : Int) : CustomerMsg :=
  { msg_type := 1, customer_id := 1, product_type := PRODUCT_CAKE, subtype := 0,
    quantity := quantity, is_complaint := false, fulfilled := false }

/-- A configuration with price 4 for every product, thresholds 10, 10, 10 and
100, and a time limit of 30 minutes. -/
def config_sample : BakeryConfig :=
  { num_categories := fun _ => 1
    num_chefs := fun _ => 2
    num_bakers := fun _ => 1
    num_sellers := 1
    num_supply_chain := 1
    min_purchases := fun _ => 10
    max_purchases := fun _ => 20
    product_prices := fun _ => 4
    production_times := fun _ => 100
    max_items_per_type := fun _ => 50
    thresholds := fun i => if i = 3 then 100 else 10
    max_simulation_time := 30
    customer_params := fun _ => 1
    complaint_probability := 0
    max_purchase_items := 3 }

/-- The sample configuration with a price of 0.1 (the nearest `double`) for
every product. -/
def config_dime : BakeryConfig :=
  { config_sample with product_prices := fun _ => Double.of_real (1 / 10) }

/-- The cake ledger with a profit of 0.2 (the nearest `double`). -/
def ledger_cake_profit : ProductionStatus :=
  { ledger_cake with total_profit := Double.of_real (2 / 10) }

/-- A roster whose team of role `i` has `sizes i` members. -/
def roster (sizes : Nat → Int) : Nat → ChefTeam :=
  fun i => { type := i, team_size := sizes i, active_chefs := sizes i }

/-- The inventory of scenario 1: one unit of wheat, five of everything else. -/
def inventory_low_wheat : Inventory :=
  { quantities := fun m => if m = ITEM_WHEAT then 1 else 5, min_thresholds := fun _ => 0 }

/-- A ledger in which nothing has been produced or sold yet. -/
def ledger_empty : ProductionStatus :=
  { ledger_cake with produced_items := fun _ => 0, sold_items := fun _ => 0 }

/-- An inventory with thresholds of 5 in which wheat (2 units) is the only
material below its threshold. -/
def inventory_wheat_short : Inventory :=
  { quantities := fun m => if m = ITEM_WHEAT then 2 else 8, min_thresholds := fun _ => 5 }

/-- An item whose request is sent and never answered: two empty polls. -/
def item_unanswered : CustomerItem :=
  { type_draw := 2, subtype_draw := 0, quantity_draw := 0, send_ok := true,
    polls := [none, none] }

/-- A response of a seller to customer 7 for cakes of subtype 0. -/
def response_cake (fulfilled : Bool) : CustomerMsg :=
  { msg_type := 107, customer_id := 7, product_type := PRODUCT_CAKE, subtype := 0,
    quantity := 1, is_complaint := false, fulfilled := fulfilled }

/-- An item asking for cakes that is answered on the second poll. -/
def item_answered (fulfilled : Bool) : CustomerItem :=
  { type_draw := 2, subtype_draw := 0, quantity_draw := 0, send_ok := true,
    polls := [none, some (response_cake fulfilled)] }

/-- An item asking for cakes whose first message is a stale answer about
sweets; the answer for cakes follows. -/
def item_answered_late (fulfilled : Bool) : CustomerItem :=
  { type_draw := 2, subtype_draw := 0, quantity_draw := 0, send_ok := true,
    polls := [some { response_cake (!fulfilled) with product_type := PRODUCT_SWEET }, none,
      some (response_cake fulfilled)] }

/-- An item whose request cannot be sent. -/
def item_unsent : CustomerItem :=
  { type_draw := 2, subtype_draw := 0, quantity_draw := 0, send_ok := false, polls := [] }

/-- A ledger with 58 cakes and 42 sweets produced and 5 of each sold: the
demand for sweets exceeds their share of production by 0.08 and cakes are
oversupplied by 0.08. -/
def ledger_mild_imbalance : ProductionStatus :=
  { ledger_cake with
    produced_items := fun t =>
      if t = PRODUCT_CAKE then 58 else if t = PRODUCT_SWEET then 42 else 0,
    sold_items := fun t =>
      if t = PRODUCT_CAKE then 5 else if t = PRODUCT_SWEET then 5 else 0 }

/-- The ledger of scenario 5: 30 cakes, 20 sweets and 50 sandwiches produced,
11 cakes, 20 sweets and 19 sandwiches sold.  Sweets are short by 0.2 (the
largest shortage), cakes are oversupplied by 0.08 (the smallest oversupply
above 0.05) and sandwiches by 0.12. -/
def ledger_scenario5 : ProductionStatus :=
  { ledger_cake with
    produced_items := fun t =>
      if t = PRODUCT_CAKE then 30 else if t = PRODUCT_SWEET then 20
      else if t = PRODUCT_SANDWICH then 50 else 0,
    sold_items := fun t =>
      if t = PRODUCT_CAKE then 11 else if t = PRODUCT_SWEET then 20
      else if t = PRODUCT_SANDWICH then 19 else 0 }

/-- A ledger in which bread and cake tie for the largest shortage (0.3 each):
10 breads, 10 cakes and 80 sweets produced, 4 breads, 4 cakes and 2 sweets
sold. -/
def ledger_bread_tie : ProductionStatus :=
  { ledger_cake with
    produced_items := fun t =>
      if t = PRODUCT_BREAD then 10 else if t = PRODUCT_CAKE then 10
      else if t = PRODUCT_SWEET then 80 else 0,
    sold_items := fun t =>
      if t = PRODUCT_BREAD then 4 else if t = PRODUCT_CAKE then 4
      else if t = PRODUCT_SWEET then 2 else 0 }

/-- A ledger in which the only oversupplied type has an oversupply of exactly
1: ten sweets produced and none sold, five cakes sold. -/
def ledger_full_oversupply : ProductionStatus :=
  { ledger_cake with
    produced_items := fun t => if t = PRODUCT_SWEET then 10 else 0,
    sold_items := fun t => if t = PRODUCT_CAKE then 5 else 0 }

/-- A ledger in which sandwiches and paste tie exactly for the largest shortage
(1/6 each) and sweets are oversupplied by 1/3: one sandwich, two sweets and
three units of paste produced, one sandwich and two units of paste sold. -/
def ledger_rounded_tie : ProductionStatus :=
  { ledger_cake with
    produced_items := fun t =>
      if t = PRODUCT_SANDWICH then 1 else if t = PRODUCT_SWEET then 2
      else if t = PRODUCT_PASTE then 3 else 0,
    sold_items := fun t =>
      if t = PRODUCT_SANDWICH then 1 else if t = PRODUCT_PASTE then 2 else 0 }

/-- A ledger in which sweets are oversupplied by exactly 0.05 and nothing else
is oversupplied: three sweets, five savory pastries and two units of paste
produced, one sweet and three savory pastries sold. -/
def ledger_rounded_floor : ProductionStatus :=
  { ledger_cake with
    produced_items := fun t =>
      if t = PRODUCT_SWEET then 3 else if t = PRODUCT_SAVORY_PATISSERIE then 5
      else if t = PRODUCT_PASTE then 2 else 0,
    sold_items := fun t =>
      if t = PRODUCT_SWEET then 1 else if t = PRODUCT_SAVORY_PATISSERIE then 3 else 0 }

/-- A ledger in which bread and savory pastries tie exactly for the largest
shortage (1/6 each) and cakes are oversupplied by 1/3: one bread, two cakes and
three savory pastries produced, one bread and two savory pastries sold. -/
def ledger_rounded_bread_tie : ProductionStatus :=
  { ledger_cake with
    produced_items := fun t =>
      if t = PRODUCT_BREAD then 1 else if t = PRODUCT_CAKE then 2
      else if t = PRODUCT_SAVORY_PATISSERIE then 3 else 0,
    sold_items := fun t =>
      if t = PRODUCT_BREAD then 1 else if t = PRODUCT_SAVORY_PATISSERIE then 2 else 0 }

/-- Shared state after termination: the stocked inventory and the cake ledger
with the active flag cleared. -/
def shared_stopped : Shared :=
  { inventory := inventory_stocked,
    status := { ledger_cake with simulation_active := false, total_profit := 100 } }

lemma pow2_eq_zpow (e : Int) : pow2 e = (2 : ℚ) ^ e := by
  unfold pow2
  split_ifs with h
  · conv_rhs => rw [← Int.toNat_of_nonneg h]
    rw [zpow_natCast]
  · have h' : 0 ≤ -e := by omega
    have : e = -((-e).toNat : Int) := by rw [Int.toNat_of_nonneg h']; ring
    conv_rhs => rw [this]
    rw [zpow_neg, zpow_natCast, one_div]

lemma pow2_pos (e : Int) : 0 < pow2 e := by
  rw [pow2_eq_zpow]
  positivity

lemma bit_length_aux_zero (fuel : Nat) : bit_length_aux fuel 0 = 0 := by
  cases fuel <;> simp [bit_length_aux]

lemma bit_length_aux_spec : ∀ (fuel n : Nat), 0 < n → n ≤ fuel →
    ∃ b, bit_length_aux fuel n = b + 1 ∧ 2 ^ b ≤ n ∧ n < 2 ^ (b + 1) := by
  intro fuel
  induction fuel with
  | zero => intro n h0 h1; omega
  | succ fuel ih =>
    intro n h0 h1
    have hn : n ≠ 0 := by omega
    simp only [bit_length_aux, if_neg hn]
    by_cases h2 : n / 2 = 0
    · refine ⟨0, ?_, ?_, ?_⟩
      · rw [h2, bit_length_aux_zero]
      · simpa using h0
      · have : n < 2 := by omega
        simpa using this
    · obtain ⟨b, hb, hlo, hhi⟩ := ih (n / 2) (by omega) (by omega)
      refine ⟨b + 1, by rw [hb], ?_, ?_⟩
      · rw [pow_succ]; omega
      · rw [pow_succ]; omega

lemma bit_length_spec (n : Nat) (h : 0 < n) :
    ∃ b, bit_length n = b + 1 ∧ 2 ^ b ≤ n ∧ n < 2 ^ (b + 1) :=
  bit_length_aux_spec n n h le_rfl

lemma binary_exponent_spec (a : ℚ) (ha : 0 < a) :
    (2 : ℚ) ^ binary_exponent a ≤ a ∧ a < (2 : ℚ) ^ (binary_exponent a + 1) := by
  have hnum : 0 < a.num := Rat.num_pos.mpr ha
  obtain ⟨b1, hb1, hlo1, hhi1⟩ := bit_length_spec a.num.natAbs (by omega)
  obtain ⟨b2, hb2, hlo2, hhi2⟩ := bit_length_spec a.den a.den_pos
  have hn : ((a.num.natAbs : ℕ) : ℚ) = (a.num : ℚ) := by
    have h1 : ((a.num.natAbs : ℕ) : ℤ) = a.num := Int.natAbs_of_nonneg hnum.le
    rw [← Int.cast_natCast, h1]
  have hq : a = (a.num.natAbs : ℚ) / (a.den : ℚ) := by
    rw [hn]; exact (Rat.num_div_den a).symm
  have hd : (0 : ℚ) < (a.den : ℚ) := by exact_mod_cast a.den_pos
  have hlo1' : (2 : ℚ) ^ b1 ≤ (a.num.natAbs : ℚ) := by exact_mod_cast hlo1
  have hhi1' : (a.num.natAbs : ℚ) < (2 : ℚ) ^ (b1 + 1) := by exact_mod_cast hhi1
  have hlo2' : (2 : ℚ) ^ b2 ≤ (a.den : ℚ) := by exact_mod_cast hlo2
  have hhi2' : (a.den : ℚ) < (2 : ℚ) ^ (b2 + 1) := by exact_mod_cast hhi2
  have hk : ((bit_length a.num.natAbs : Int) - (bit_length a.den : Int)) =
      (b1 : Int) - (b2 : Int) := by
    rw [hb1, hb2]; push_cast; ring
  -- bounds with k = b1 - b2
  have hlow : (2 : ℚ) ^ ((b1 : Int) - (b2 : Int) - 1) ≤ a := by
    have e1 : (2 : ℚ) ^ ((b1 : Int) - (b2 : Int) - 1) = (2 : ℚ) ^ b1 / (2 : ℚ) ^ (b2 + 1) := by
      rw [show ((b1 : Int) - (b2 : Int) - 1) = (b1 : Int) - ((b2 + 1 : ℕ) : Int) by push_cast; ring]
      rw [zpow_sub₀ (by norm_num : (2 : ℚ) ≠ 0), zpow_natCast, zpow_natCast]
    rw [e1, hq]
    have hp : (0 : ℚ) < (2 : ℚ) ^ (b2 + 1) := by positivity
    rw [div_le_div_iff₀ hp hd]
    have hp1 : (0 : ℚ) < (2 : ℚ) ^ b1 := by positivity
    nlinarith
  have hupp : a < (2 : ℚ) ^ ((b1 : Int) - (b2 : Int) + 1) := by
    have e1 : (2 : ℚ) ^ ((b1 : Int) - (b2 : Int) + 1) = (2 : ℚ) ^ (b1 + 1) / (2 : ℚ) ^ b2 := by
      rw [show ((b1 : Int) - (b2 : Int) + 1) = ((b1 + 1 : ℕ) : Int) - (b2 : Int) by push_cast; ring]
      rw [zpow_sub₀ (by norm_num : (2 : ℚ) ≠ 0), zpow_natCast, zpow_natCast]
    rw [e1]
    have hp : (0 : ℚ) < (2 : ℚ) ^ b2 := by positivity
    conv_lhs => rw [hq]
    rw [div_lt_div_iff₀ hd hp]
    have hp1 : (0 : ℚ) < (2 : ℚ) ^ (b1 + 1) := by positivity
    nlinarith
  unfold binary_exponent
  simp only [hk, pow2_eq_zpow]
  split_ifs with h
  · exact ⟨h, hupp⟩
  · refine ⟨hlow, ?_⟩
    rw [sub_add_cancel]
    exact not_le.mp h

lemma floor_eq_int_floor (z : ℚ) : z.floor = ⌊z⌋ := rfl

lemma round_half_even_ge (z : ℚ) (j : Int) (h : (j : ℚ) ≤ z) : j ≤ round_half_even z := by
  have hf : j ≤ z.floor := Rat.le_floor.mpr h
  unfold round_half_even
  simp only
  split_ifs <;> omega

lemma round_half_even_le (z : ℚ) (j : Int) (h : z ≤ (j : ℚ)) : round_half_even z ≤ j := by
  have hfl : (z.floor : ℚ) ≤ z := by
    rw [floor_eq_int_floor]
    exact Int.floor_le z
  have hfj : z.floor ≤ j := by
    have : (z.floor : ℚ) ≤ (j : ℚ) := le_trans hfl h
    exact_mod_cast this
  unfold round_half_even
  simp only
  by_cases hr : z - (z.floor : ℚ) < 1 / 2
  · rw [if_pos hr]
    exact hfj
  · have hne : z.floor ≠ j := by
      intro e
      rw [e] at hr hfl
      have : z = (j : ℚ) := le_antisymm h hfl
      rw [this] at hr
      norm_num at hr
    have hlt : z.floor + 1 ≤ j := by omega
    rw [if_neg hr]
    split_ifs <;> omega

lemma round_half_even_intCast (j : Int) : round_half_even (j : ℚ) = j :=
  le_antisymm (round_half_even_le _ j le_rfl) (round_half_even_ge _ j le_rfl)

lemma round_to_precision_of_pos (p : Nat) (x : ℚ) (hx : 0 < x) :
    round_to_precision p x = round_pos p x := by
  unfold round_to_precision round_pos
  have h0 : ¬ x = 0 := ne_of_gt hx
  have h1 : ¬ x < 0 := not_lt.mpr hx.le
  simp only [if_neg h0, if_neg h1, abs_of_pos hx, one_mul]

lemma round_to_precision_of_neg (p : Nat) (x : ℚ) (hx : x < 0) :
    round_to_precision p x = - round_pos p (-x) := by
  unfold round_to_precision round_pos
  have h0 : ¬ x = 0 := ne_of_lt hx
  simp only [if_neg h0, if_pos hx, abs_of_neg hx]
  ring

lemma round_to_precision_zero (p : Nat) : round_to_precision p 0 = 0 := by
  simp [round_to_precision]

lemma scaled_lower (p : Nat) (hp : 1 ≤ p) (a : ℚ) (ha : 0 < a) :
    (((2 : Int) ^ (p - 1) : Int) : ℚ) ≤ a / pow2 (binary_exponent a - ((p : Int) - 1)) := by
  rw [pow2_eq_zpow, le_div_iff₀ (by positivity)]
  have h := (binary_exponent_spec a ha).1
  have e1 : (((2 : Int) ^ (p - 1) : Int) : ℚ) = (2 : ℚ) ^ (((p - 1 : ℕ) : Int)) := by
    push_cast
    rw [zpow_natCast]
  rw [e1, ← zpow_add₀ (by norm_num : (2 : ℚ) ≠ 0)]
  have e2 : ((p - 1 : ℕ) : Int) + (binary_exponent a - ((p : Int) - 1)) = binary_exponent a := by
    have : ((p - 1 : ℕ) : Int) = (p : Int) - 1 := by omega
    rw [this]; ring
  rw [e2]
  exact h

lemma scaled_upper (p : Nat) (hp : 1 ≤ p) (a : ℚ) (ha : 0 < a) :
    a / pow2 (binary_exponent a - ((p : Int) - 1)) < (((2 : Int) ^ p : Int) : ℚ) := by
  rw [pow2_eq_zpow, div_lt_iff₀ (by positivity)]
  have h := (binary_exponent_spec a ha).2
  have e1 : (((2 : Int) ^ p : Int) : ℚ) = (2 : ℚ) ^ ((p : ℕ) : Int) := by
    push_cast
    rw [zpow_natCast]
  rw [e1, ← zpow_add₀ (by norm_num : (2 : ℚ) ≠ 0)]
  have e2 : ((p : ℕ) : Int) + (binary_exponent a - ((p : Int) - 1)) = binary_exponent a + 1 := by
    ring
  rw [e2]
  exact h

lemma round_pos_representable (p : Nat) (hp : 1 ≤ p) (a : ℚ) (ha : 0 < a) :
    representable p (round_pos p a) := by
  refine ⟨round_half_even (a / pow2 (binary_exponent a - ((p : Int) - 1))),
    binary_exponent a - ((p : Int) - 1), ?_, ?_, ?_⟩
  · have h := round_half_even_ge _ _ (scaled_lower p hp a ha)
    have : (0 : Int) < 2 ^ (p - 1) := by positivity
    omega
  · exact round_half_even_le _ _ (scaled_upper p hp a ha).le
  · rw [round_pos, pow2_eq_zpow]

lemma round_pos_pos (p : Nat) (hp : 1 ≤ p) (a : ℚ) (ha : 0 < a) : 0 < round_pos p a := by
  obtain ⟨m, e, hm, _, hs⟩ := round_pos_representable p hp a ha
  rw [hs]
  have : (0 : ℚ) < (m : ℚ) := by exact_mod_cast hm
  positivity

lemma round_half_even_error (z : ℚ) : |(round_half_even z : ℚ) - z| ≤ 1 / 2 := by
  have h1 : (z.floor : ℚ) ≤ z := by
    rw [floor_eq_int_floor]; exact Int.floor_le z
  have h2 : z < (z.floor : ℚ) + 1 := by
    rw [floor_eq_int_floor]; exact Int.lt_floor_add_one z
  unfold round_half_even
  simp only
  rw [abs_le]
  split_ifs with c1 c2 c3 <;> push_cast <;> constructor <;> linarith

/-- The rounded value of `a` is within half a unit of the last significand bit
of `a`: together with `round_pos_representable` it is a nearest value with a
significand of `p` bits. -/
lemma round_pos_error (p : Nat) (a : ℚ) :
    |round_pos p a - a| ≤ pow2 (binary_exponent a - ((p : Int) - 1)) / 2 := by
  have h2 := pow2_pos (binary_exponent a - ((p : Int) - 1))
  have h := round_half_even_error (a / pow2 (binary_exponent a - ((p : Int) - 1)))
  have e : round_pos p a - a =
      ((round_half_even (a / pow2 (binary_exponent a - ((p : Int) - 1))) : ℚ) -
        a / pow2 (binary_exponent a - ((p : Int) - 1))) *
        pow2 (binary_exponent a - ((p : Int) - 1)) := by
    unfold round_pos
    field_simp
  rw [e, abs_mul, abs_of_pos h2]
  calc _ ≤ 1 / 2 * pow2 (binary_exponent a - ((p : Int) - 1)) :=
        mul_le_mul_of_nonneg_right h h2.le
    _ = _ := by ring

lemma representable_scaled (p : Nat) (hp : 1 ≤ p) (s : ℚ) (hs : representable p s) (e : Int) :
    (∃ J : Int, s = (J : ℚ) * (2 : ℚ) ^ e) ∨ s ≤ (((2 : Int) ^ (p - 1) : Int) : ℚ) * (2 : ℚ) ^ e := by
  obtain ⟨m, es, hm0, hmp, hsm⟩ := hs
  by_cases hle : e ≤ es
  · left
    refine ⟨m * 2 ^ (es - e).toNat, ?_⟩
    have h1 : es = ((es - e).toNat : Int) + e := by
      rw [Int.toNat_of_nonneg (by omega)]; ring
    rw [hsm]
    conv_lhs => rw [h1]
    rw [zpow_add₀ (by norm_num : (2 : ℚ) ≠ 0), zpow_natCast]
    push_cast
    ring
  · right
    have hlt : es + 1 ≤ e := by omega
    have hm' : (m : ℚ) ≤ (2 : ℚ) ^ p := by exact_mod_cast hmp
    have h2 : (0 : ℚ) < (2 : ℚ) ^ es := by positivity
    have e1 : (((2 : Int) ^ (p - 1) : Int) : ℚ) * (2 : ℚ) ^ e = (2 : ℚ) ^ (((p - 1 : ℕ) : Int) + e) := by
      rw [zpow_add₀ (by norm_num : (2 : ℚ) ≠ 0), zpow_natCast]
      push_cast
      ring
    have e2 : (2 : ℚ) ^ p * (2 : ℚ) ^ es = (2 : ℚ) ^ ((p : Int) + es) := by
      rw [zpow_add₀ (by norm_num : (2 : ℚ) ≠ 0), zpow_natCast]
    rw [hsm, e1]
    calc (m : ℚ) * (2 : ℚ) ^ es ≤ (2 : ℚ) ^ p * (2 : ℚ) ^ es := by
          exact mul_le_mul_of_nonneg_right hm' h2.le
      _ = (2 : ℚ) ^ ((p : Int) + es) := e2
      _ ≤ (2 : ℚ) ^ (((p - 1 : ℕ) : Int) + e) := by
          apply zpow_le_zpow_right₀ (by norm_num)
          omega

/-- Rounding a positive value never falls below a representable value under it. -/
lemma round_pos_ge (p : Nat) (hp : 1 ≤ p) (s y : ℚ) (hs : representable p s) (hy : 0 < y)
    (hsy : s ≤ y) : s ≤ round_pos p y := by
  have h2 : (0 : ℚ) < (2 : ℚ) ^ (binary_exponent y - ((p : Int) - 1)) := by positivity
  have hlow := scaled_lower p hp y hy
  rw [pow2_eq_zpow] at hlow
  unfold round_pos
  rw [pow2_eq_zpow]
  rcases representable_scaled p hp s hs (binary_exponent y - ((p : Int) - 1)) with ⟨J, hJ⟩ | hsmall
  · have hJz : (J : ℚ) ≤ y / (2 : ℚ) ^ (binary_exponent y - ((p : Int) - 1)) := by
      rw [le_div_iff₀ h2, ← hJ]
      exact hsy
    have hJm := round_half_even_ge _ J hJz
    have hJm' : (J : ℚ) ≤ (round_half_even
        (y / (2 : ℚ) ^ (binary_exponent y - ((p : Int) - 1))) : ℚ) := by exact_mod_cast hJm
    rw [hJ]
    exact mul_le_mul_of_nonneg_right hJm' h2.le
  · have hm := round_half_even_ge _ _ hlow
    have hm' : (((2 : Int) ^ (p - 1) : Int) : ℚ) ≤ (round_half_even
        (y / (2 : ℚ) ^ (binary_exponent y - ((p : Int) - 1))) : ℚ) := by exact_mod_cast hm
    exact le_trans hsmall (mul_le_mul_of_nonneg_right hm' h2.le)

/-- Rounding a positive value never rises above a representable value over it. -/
lemma round_pos_le (p : Nat) (hp : 1 ≤ p) (s y : ℚ) (hs : representable p s) (hy : 0 < y)
    (hys : y ≤ s) : round_pos p y ≤ s := by
  have h2 : (0 : ℚ) < (2 : ℚ) ^ (binary_exponent y - ((p : Int) - 1)) := by positivity
  have hlow := scaled_lower p hp y hy
  rw [pow2_eq_zpow] at hlow
  unfold round_pos
  rw [pow2_eq_zpow]
  rcases representable_scaled p hp s hs (binary_exponent y - ((p : Int) - 1)) with ⟨J, hJ⟩ | hsmall
  · have hJz : y / (2 : ℚ) ^ (binary_exponent y - ((p : Int) - 1)) ≤ (J : ℚ) := by
      rw [div_le_iff₀ h2, ← hJ]
      exact hys
    have hJm := round_half_even_le _ J hJz
    have hJm' : (round_half_even
        (y / (2 : ℚ) ^ (binary_exponent y - ((p : Int) - 1))) : ℚ) ≤ (J : ℚ) := by
      exact_mod_cast hJm
    rw [hJ]
    exact mul_le_mul_of_nonneg_right hJm' h2.le
  · have hz : y / (2 : ℚ) ^ (binary_exponent y - ((p : Int) - 1)) ≤
        (((2 : Int) ^ (p - 1) : Int) : ℚ) := by
      rw [div_le_iff₀ h2]
      exact le_trans hys hsmall
    have hm := round_half_even_le _ _ hz
    have hm' : (round_half_even
        (y / (2 : ℚ) ^ (binary_exponent y - ((p : Int) - 1))) : ℚ) ≤
        (((2 : Int) ^ (p - 1) : Int) : ℚ) := by exact_mod_cast hm
    have hy' : (((2 : Int) ^ (p - 1) : Int) : ℚ) *
        (2 : ℚ) ^ (binary_exponent y - ((p : Int) - 1)) ≤ y := by
      rw [← le_div_iff₀ h2]
      exact hlow
    exact le_trans (mul_le_mul_of_nonneg_right hm' h2.le) (le_trans hy' hys)

/-- Rounding to nearest never crosses a rounded value: a rounded value that is
at most `y` is at most the rounding of `y`. -/
lemma round_to_precision_ge (p : Nat) (hp : 1 ≤ p) (x y : ℚ)
    (h : round_to_precision p x ≤ y) : round_to_precision p x ≤ round_to_precision p y := by
  rcases lt_trichotomy y 0 with hy | hy | hy
  · rw [round_to_precision_of_neg p y hy]
    rcases lt_trichotomy x 0 with hx | hx | hx
    · rw [round_to_precision_of_neg p x hx] at h ⊢
      have hrep := round_pos_representable p hp (-x) (by linarith)
      have := round_pos_le p hp (round_pos p (-x)) (-y) hrep (by linarith) (by linarith)
      linarith
    · rw [hx, round_to_precision_zero] at h
      linarith
    · rw [round_to_precision_of_pos p x hx] at h
      have := round_pos_pos p hp x hx
      linarith
  · rw [hy, round_to_precision_zero]
    rw [hy] at h
    exact h
  · rw [round_to_precision_of_pos p y hy]
    have hyp := round_pos_pos p hp y hy
    rcases lt_trichotomy x 0 with hx | hx | hx
    · rw [round_to_precision_of_neg p x hx]
      have := round_pos_pos p hp (-x) (by linarith)
      linarith
    · rw [hx, round_to_precision_zero]
      exact hyp.le
    · rw [round_to_precision_of_pos p x hx] at h ⊢
      exact round_pos_ge p hp _ y (round_pos_representable p hp x hx) hy h

lemma round_to_precision_nonneg (p : Nat) (hp : 1 ≤ p) (y : ℚ) (hy : 0 ≤ y) :
    0 ≤ round_to_precision p y := by
  have h := round_to_precision_ge p hp 0 y (by rw [round_to_precision_zero]; exact hy)
  rwa [round_to_precision_zero] at h

lemma round_to_precision_neg (p : Nat) (x : ℚ) :
    round_to_precision p (-x) = - round_to_precision p x := by
  unfold round_to_precision
  by_cases hx : x = 0
  · simp [hx]
  · have hnx : ¬ -x = 0 := fun h => hx (neg_eq_zero.mp h)
    simp only [if_neg hx, if_neg hnx, abs_neg]
    rcases lt_or_gt_of_ne hx with hlt | hgt
    · have h1 : ¬ -x < 0 := by linarith
      simp only [if_pos hlt, if_neg h1]
      ring
    · have h1 : -x < 0 := by linarith
      have h2 : ¬ x < 0 := by linarith
      simp only [if_pos h1, if_neg h2]
      ring

lemma round_to_precision_le (p : Nat) (hp : 1 ≤ p) (x y : ℚ)
    (h : y ≤ round_to_precision p x) : round_to_precision p y ≤ round_to_precision p x := by
  have h1 : round_to_precision p (-x) ≤ -y := by
    rw [round_to_precision_neg]
    linarith
  have h2 := round_to_precision_ge p hp (-x) (-y) h1
  rw [round_to_precision_neg, round_to_precision_neg] at h2
  linarith

/-- Rounding leaves a rounded value as it is. -/
lemma round_to_precision_idem (p : Nat) (hp : 1 ≤ p) (x : ℚ) :
    round_to_precision p (round_to_precision p x) = round_to_precision p x :=
  le_antisymm (round_to_precision_le p hp x _ le_rfl) (round_to_precision_ge p hp x _ le_rfl)

lemma Double.val_of_real (x : ℚ) : (Double.of_real x).val = round_double x := rfl

lemma Double.val_zero : (0 : Double).val = 0 := by
  show round_double ((0 : ℕ) : ℚ) = 0
  rw [Nat.cast_zero]
  exact round_to_precision_zero DBL_MANT_DIG

lemma Double.val_add (a b : Double) : (a + b).val = round_double (a.val + b.val) := rfl

lemma Double.val_mul (a b : Double) : (a * b).val = round_double (a.val * b.val) := rfl

lemma Double.le_def (a b : Double) : a ≤ b ↔ a.val ≤ b.val := Iff.rfl

/-- Reading a `double` and rounding it again gives the same value. -/
lemma Double.round_val (a : Double) : round_double a.val = a.val := by
  obtain ⟨x, hx⟩ := a.is_double
  rw [← hx]
  exact round_to_precision_idem DBL_MANT_DIG (by decide) x

lemma Double.of_int_nonneg (n : Int) (hn : 0 ≤ n) : (0 : Double) ≤ Double.of_int n := by
  rw [Double.le_def, Double.val_zero]
  exact round_to_precision_nonneg DBL_MANT_DIG (by decide) _ (by exact_mod_cast hn)

lemma Double.mul_nonneg (a b : Double) (ha : 0 ≤ a) (hb : 0 ≤ b) : (0 : Double) ≤ a * b := by
  rw [Double.le_def, Double.val_zero] at ha hb ⊢
  exact round_to_precision_nonneg DBL_MANT_DIG (by decide) _ (Left.mul_nonneg ha hb)

/-- Adding a non-negative `double` never lowers a `double`, rounding
included. -/
lemma Double.le_add_of_nonneg (a b : Double) (hb : 0 ≤ b) : a ≤ a + b := by
  rw [Double.le_def, Double.val_zero] at hb
  rw [Double.le_def, Double.val_add]
  obtain ⟨x, hx⟩ := a.is_double
  have h : round_double x ≤ a.val + b.val := by
    rw [hx]
    linarith
  have h2 : round_double x ≤ round_double (a.val + b.val) :=
    round_to_precision_ge DBL_MANT_DIG (by decide) x (a.val + b.val) h
  rw [hx] at h2
  exact h2


/-- C1: for every chef role and every inventory whose seven quantities are all
non-negative, if `check_dependencies` returns true then every material quantity
is still non-negative after `produce_item`. -/
theorem produce_item_keeps_inventory_nonneg (type : ChefType) (inventory : Inventory)
    (status : ProductionStatus) (hinv : inventory_nonneg inventory)
    (hdep : check_dependencies type inventory = true) :
    inventory_nonneg (produce_item type inventory status).1 := by
  intro m
  have hw := hinv ITEM_WHEAT
  have hy := hinv ITEM_YEAST
  have hb := hinv ITEM_BUTTER
  have hm := hinv ITEM_MILK
  have hs := hinv ITEM_SUGAR_SALT
  have hsw := hinv ITEM_SWEET_ITEMS
  have hc := hinv ITEM_CHEESE_SALAMI
  rcases type with _ | _ | _ | _ | _ | _ | n
  iterate 6
    simp only [check_dependencies, ite_eq_right_iff, not_or, not_lt, Bool.false_eq_true,
      imp_false] at hdep
    cases m <;> simp [produce_item, consume, setAt] <;> omega
  simp [check_dependencies] at hdep

/-- C1 at a concrete input: a Cake chef on the stocked inventory. -/
theorem produce_item_keeps_inventory_nonneg_witness :
    inventory_nonneg inventory_stocked ∧
    check_dependencies CHEF_CAKE inventory_stocked = true ∧
    inventory_nonneg (produce_item CHEF_CAKE inventory_stocked ledger_cake).1 :=
  ⟨by decide, by decide,
    produce_item_keeps_inventory_nonneg CHEF_CAKE inventory_stocked ledger_cake
      (by decide) (by decide)⟩

/-! ### Unfolding lemmas for the seller -/

lemma check_product_availability_le (type : ProductType) (subtype quantity : Int)
    (status : ProductionStatus)
    (h : check_product_availability type subtype quantity status = true) :
    quantity ≤ status.produced_items type - status.sold_items type := by
  unfold check_product_availability at h
  dsimp only at h
  split_ifs at h
  simpa using h

lemma handle_customer_request_of_rejected (request : CustomerMsg) (status : ProductionStatus)
    (config : BakeryConfig) (customers_served : Int)
    (h : check_product_availability request.product_type request.subtype request.quantity
      status = false) :
    handle_customer_request request status config customers_served =
      ({ request with fulfilled := false },
       { status with missing_items_requests := status.missing_items_requests + 1 },
       customers_served) := by
  simp [handle_customer_request, h]

lemma handle_customer_request_of_accepted (request : CustomerMsg) (status : ProductionStatus)
    (config : BakeryConfig) (customers_served : Int)
    (h : check_product_availability request.product_type request.subtype request.quantity
      status = true) :
    handle_customer_request request status config customers_served =
      ({ request with fulfilled := true },
       { status with
          sold_items := setAt status.sold_items request.product_type
            (status.sold_items request.product_type + request.quantity)
          total_profit := status.total_profit +
            config.product_prices request.product_type * Double.of_int request.quantity },
       customers_served + 1) := by
  simp [handle_customer_request, h]

/-- C2: `handle_customer_request` preserves `produced[t] >= sold[t]` for every
product type, for every request and every integer quantity (the function never
reads `is_complaint`, so this covers every non-complaint request). -/
theorem handle_customer_request_keeps_ledger_consistent (request : CustomerMsg)
    (status : ProductionStatus) (config : BakeryConfig) (customers_served : Int)
    (hinv : ledger_consistent status) :
    ledger_consistent (handle_customer_request request status config customers_served).2.1 := by
  intro t
  cases h : check_product_availability request.product_type request.subtype request.quantity
    status
  · rw [handle_customer_request_of_rejected _ _ _ _ h]
    exact hinv t
  · rw [handle_customer_request_of_accepted _ _ _ _ h]
    have hle := check_product_availability_le _ _ _ _ h
    have ht := hinv t
    by_cases e : t = request.product_type
    · subst e
      simp only [setAt, if_true]
      omega
    · simpa [setAt, e] using ht

/-- C2 at a concrete input: one cake sold from the ledger of scenario 3. -/
theorem handle_customer_request_keeps_ledger_consistent_witness :
    ledger_consistent ledger_cake ∧
    ledger_consistent (handle_customer_request (request_cake 1) ledger_cake config_sample 0).2.1 :=
  ⟨by decide,
    handle_customer_request_keeps_ledger_consistent (request_cake 1) ledger_cake config_sample 0
      (by decide)⟩

/-! ### Ledger invariant under the chef's updates -/

lemma incr_produced_consistent (status : ProductionStatus) (t : ProductType)
    (h : ledger_consistent status) : ledger_consistent (incr_produced status t) := by
  intro u
  have hu := h u
  by_cases e : u = t
  · subst e
    simp only [incr_produced, setAt, if_true]
    omega
  · simpa [incr_produced, setAt, e] using hu

lemma incr_sold_consistent (status : ProductionStatus) (t : ProductType)
    (h : ledger_consistent status)
    (hpos : 0 < status.produced_items t - status.sold_items t) :
    ledger_consistent (incr_sold status t) := by
  intro u
  have hu := h u
  by_cases e : u = t
  · subst e
    simp only [incr_sold, setAt, if_true]
    omega
  · simpa [incr_sold, setAt, e] using hu

lemma chef_iteration_consistent (type : ChefType) (inventory : Inventory)
    (status : ProductionStatus) (inv_lock_ok prod_lock_ok : Bool)
    (hinv : ledger_consistent status) :
    ledger_consistent (chef_iteration type inventory status inv_lock_ok prod_lock_ok).2 := by
  match type with
  | 0 =>
    simp only [chef_iteration, chef_product_type, produce_item]
    split_ifs <;> first | exact hinv | exact incr_produced_consistent _ _ hinv
  | 1 =>
    simp only [chef_iteration, chef_product_type, produce_item]
    split_ifs <;> first | exact hinv | exact incr_produced_consistent _ _ hinv
  | 2 =>
    simp only [chef_iteration, chef_product_type, produce_item]
    split_ifs <;> first | exact hinv | exact incr_produced_consistent _ _ hinv
  | 3 =>
    simp only [chef_iteration, chef_product_type, produce_item]
    split_ifs <;> first | exact hinv | exact incr_produced_consistent _ _ hinv
  | 4 =>
    simp only [chef_iteration, chef_product_type, produce_item]
    split_ifs <;> first
      | exact hinv
      | exact incr_produced_consistent _ _ (incr_sold_consistent _ _ hinv (by omega))
      | simp_all
  | 5 =>
    simp only [chef_iteration, chef_product_type, produce_item]
    split_ifs <;> first
      | exact hinv
      | exact incr_produced_consistent _ _ (incr_sold_consistent _ _ hinv (by omega))
      | simp_all
  | n + 6 =>
    simp only [chef_iteration, chef_product_type]
    exact hinv

/-- C3: one chef loop iteration (ingredient check, paste-balance check for the
two pastry roles, then `produce_item` only if every check passed) preserves
`produced[t] >= sold[t]` for every product type; in particular `sold[Paste]`
never rises above `produced[Paste]`. -/
theorem chef_iteration_keeps_ledger_consistent (type : ChefType) (inventory : Inventory)
    (status : ProductionStatus) (inv_lock_ok prod_lock_ok : Bool)
    (hinv : ledger_consistent status) :
    ledger_consistent (chef_iteration type inventory status inv_lock_ok prod_lock_ok).2 ∧
    (chef_iteration type inventory status inv_lock_ok prod_lock_ok).2.sold_items PRODUCT_PASTE ≤
      (chef_iteration type inventory status inv_lock_ok prod_lock_ok).2.produced_items
        PRODUCT_PASTE :=
  ⟨chef_iteration_consistent type inventory status inv_lock_ok prod_lock_ok hinv,
   chef_iteration_consistent type inventory status inv_lock_ok prod_lock_ok hinv PRODUCT_PASTE⟩

/-- C3 at a concrete input: a SweetPastry chef using the single unit of paste. -/
theorem chef_iteration_keeps_ledger_consistent_witness :
    ledger_consistent ledger_paste ∧
    ledger_consistent
      (chef_iteration CHEF_SWEET_PATISSERIE inventory_stocked ledger_paste true true).2 ∧
    (chef_iteration CHEF_SWEET_PATISSERIE inventory_stocked ledger_paste true true).2.sold_items
      PRODUCT_PASTE ≤
    (chef_iteration CHEF_SWEET_PATISSERIE inventory_stocked ledger_paste true true).2.produced_items
      PRODUCT_PASTE :=
  ⟨by decide,
    chef_iteration_keeps_ledger_consistent CHEF_SWEET_PATISSERIE inventory_stocked ledger_paste
      true true (by decide)⟩

/-- C4: for every quantity `>= 1`, `check_product_availability` returns true
exactly when the reservation policy of the specification holds of
`available = produced[type] - sold[type]`: `available - quantity >= 3` for cake
and sweet pastry, `available >= 2 * quantity` for sandwich, and
`available >= quantity` for bread, sweet, savory pastry and paste. -/
theorem check_product_availability_iff_policy (type : ProductType) (subtype quantity : Int)
    (status : ProductionStatus) (hq : 1 ≤ quantity) :
    check_product_availability type subtype quantity status = true ↔
      reservation_policy type (status.produced_items type - status.sold_items type)
        quantity := by
  cases type <;>
    simp [check_product_availability, reservation_policy] <;> omega

/-- C4 at a concrete input: one cake out of five available keeps the reserve. -/
theorem check_product_availability_iff_policy_witness :
    check_product_availability PRODUCT_CAKE 0 1 ledger_cake = true ↔
      reservation_policy PRODUCT_CAKE
        (ledger_cake.produced_items PRODUCT_CAKE - ledger_cake.sold_items PRODUCT_CAKE) 1 :=
  check_product_availability_iff_policy PRODUCT_CAKE 0 1 ledger_cake (by decide)

/-- C5: a request that `check_product_availability` rejects gets
`fulfilled = false`, `missing_items_requests` grows by exactly 1, and every sold
counter, every produced counter, `total_profit`, `frustrated_customers` and
`complained_customers` keep their values. -/
theorem handle_customer_request_rejected (request : CustomerMsg) (status : ProductionStatus)
    (config : BakeryConfig) (customers_served : Int)
    (hrej : check_product_availability request.product_type request.subtype request.quantity
      status = false) :
    (handle_customer_request request status config customers_served).1.fulfilled = false ∧
    (handle_customer_request request status config customers_served).2.1.missing_items_requests
      = status.missing_items_requests + 1 ∧
    (handle_customer_request request status config customers_served).2.1.sold_items
      = status.sold_items ∧
    (handle_customer_request request status config customers_served).2.1.produced_items
      = status.produced_items ∧
    (handle_customer_request request status config customers_served).2.1.total_profit
      = status.total_profit ∧
    (handle_customer_request request status config customers_served).2.1.frustrated_customers
      = status.frustrated_customers ∧
    (handle_customer_request request status config customers_served).2.1.complained_customers
      = status.complained_customers := by
  rw [handle_customer_request_of_rejected _ _ _ _ hrej]
  exact ⟨rfl, rfl, rfl, rfl, rfl, rfl, rfl⟩

/-- C5 at the input of scenario 2: `produced[Cake] = 10`, `sold[Cake] = 5`, a
request for 3 cakes is rejected, `missing_items_requests` becomes 1 and
`sold[Cake]` stays 5. -/
theorem handle_customer_request_rejected_witness :
    check_product_availability PRODUCT_CAKE 0 3 ledger_cake = false ∧
    (handle_customer_request (request_cake 3) ledger_cake config_sample 0).1.fulfilled = false ∧
    (handle_customer_request (request_cake 3) ledger_cake config_sample
      0).2.1.missing_items_requests = 1 ∧
    (handle_customer_request (request_cake 3) ledger_cake config_sample 0).2.1.sold_items
      PRODUCT_CAKE = 5 := by
  have h := handle_customer_request_rejected (request_cake 3) ledger_cake config_sample 0
    (by decide)
  refine ⟨by decide, h.1, ?_, ?_⟩
  · rw [h.2.1]; decide
  · rw [h.2.2.1]; decide

/-- C6: a request that `check_product_availability` accepts gets
`fulfilled = true`, `sold[product_type]` grows by exactly `quantity`, and the
sold counters of all other types, every produced counter,
`missing_items_requests`, `frustrated_customers` and `complained_customers` keep
their values. -/
theorem handle_customer_request_accepted (request : CustomerMsg) (status : ProductionStatus)
    (config : BakeryConfig) (customers_served : Int)
    (hacc : check_product_availability request.product_type request.subtype request.quantity
      status = true) :
    (handle_customer_request request status config customers_served).1.fulfilled = true ∧
    (handle_customer_request request status config customers_served).2.1.sold_items
      request.product_type = status.sold_items request.product_type + request.quantity ∧
    (∀ t, t ≠ request.product_type →
      (handle_customer_request request status config customers_served).2.1.sold_items t
        = status.sold_items t) ∧
    (handle_customer_request request status config customers_served).2.1.produced_items
      = status.produced_items ∧
    (handle_customer_request request status config customers_served).2.1.missing_items_requests
      = status.missing_items_requests ∧
    (handle_customer_request request status config customers_served).2.1.frustrated_customers
      = status.frustrated_customers ∧
    (handle_customer_request request status config customers_served).2.1.complained_customers
      = status.complained_customers := by
  rw [handle_customer_request_of_accepted _ _ _ _ hacc]
  refine ⟨rfl, ?_, ?_, rfl, rfl, rfl, rfl⟩
  · simp [setAt]
  · intro t ht
    simp [setAt, ht]

/-- C6 at the input of scenario 3: `produced[Cake] = 10`, `sold[Cake] = 5`, a
request for 1 cake is accepted and `sold[Cake]` becomes 6. -/
theorem handle_customer_request_accepted_witness :
    check_product_availability PRODUCT_CAKE 0 1 ledger_cake = true ∧
    (handle_customer_request (request_cake 1) ledger_cake config_sample 0).1.fulfilled = true ∧
    (handle_customer_request (request_cake 1) ledger_cake config_sample 0).2.1.sold_items
      PRODUCT_CAKE = 6 := by
  have h := handle_customer_request_accepted (request_cake 1) ledger_cake config_sample 0
    (by decide)
  exact ⟨by decide, h.1, h.2.1.trans (by decide)⟩

/-- C7 fails as stated on ordinary prices.  One cake at price 0.1 is sold from
the cake ledger with a profit of 0.2: the request is accepted and the stored
profit becomes 0.3000000000000000444 (significand 5404319552844596, exponent
`-54`), so the change is not the price times the quantity. -/
theorem handle_customer_request_rounds_profit :
    check_product_availability PRODUCT_CAKE 0 1 ledger_cake_profit = true ∧
    (handle_customer_request (request_cake 1) ledger_cake_profit config_dime
      0).2.1.total_profit.val = 5404319552844596 / 2 ^ 54 ∧
    (handle_customer_request (request_cake 1) ledger_cake_profit config_dime
      0).2.1.total_profit.val - ledger_cake_profit.total_profit.val ≠
      (config_dime.product_prices PRODUCT_CAKE).val * 1 := by
  decide!

/-- C7 (amended): `handle_customer_request` leaves `total_profit` as it is when
the request is rejected; when the request is accepted the new `total_profit` is
the `double` nearest to the old one plus `s`, where `s` is the `double` nearest
to `product_prices[product_type] * quantity`; and the change is exactly
`product_prices[product_type] * quantity` whenever the quantity, that product
and the sum are values of type `double`. -/
theorem handle_customer_request_profit (request : CustomerMsg) (status : ProductionStatus)
    (config : BakeryConfig) (customers_served : Int) :
    (check_product_availability request.product_type request.subtype request.quantity
        status = false →
      (handle_customer_request request status config customers_served).2.1.total_profit =
        status.total_profit) ∧
    (check_product_availability request.product_type request.subtype request.quantity
        status = true →
      (handle_customer_request request status config customers_served).2.1.total_profit.val =
        round_double (status.total_profit.val +
          round_double ((config.product_prices request.product_type).val *
            round_double (request.quantity : ℚ)))) ∧
    (check_product_availability request.product_type request.subtype request.quantity
        status = true →
      round_double (request.quantity : ℚ) = (request.quantity : ℚ) →
      round_double ((config.product_prices request.product_type).val *
        (request.quantity : ℚ)) =
        (config.product_prices request.product_type).val * (request.quantity : ℚ) →
      round_double (status.total_profit.val +
        (config.product_prices request.product_type).val * (request.quantity : ℚ)) =
        status.total_profit.val +
          (config.product_prices request.product_type).val * (request.quantity : ℚ) →
      (handle_customer_request request status config customers_served).2.1.total_profit.val -
        status.total_profit.val =
        (config.product_prices request.product_type).val * (request.quantity : ℚ)) := by
  have hacc : check_product_availability request.product_type request.subtype
      request.quantity status = true →
      (handle_customer_request request status config customers_served).2.1.total_profit.val =
        round_double (status.total_profit.val +
          round_double ((config.product_prices request.product_type).val *
            round_double (request.quantity : ℚ))) := by
    intro h
    rw [handle_customer_request_of_accepted _ _ _ _ h]
    rfl
  refine ⟨?_, hacc, ?_⟩
  · intro h
    rw [handle_customer_request_of_rejected _ _ _ _ h]
  · intro h hq hprod hsum
    rw [hacc h, hq, hprod, hsum]
    ring

/-- C7 (amended) at the input of scenario 3: one cake at price 4 sold from the
cake ledger raises the profit by exactly 4. -/
theorem handle_customer_request_profit_witness :
    (handle_customer_request (request_cake 1) ledger_cake config_sample
      0).2.1.total_profit.val - ledger_cake.total_profit.val = 4 := by
  have h := (handle_customer_request_profit (request_cake 1) ledger_cake config_sample 0).2.2
    (by decide) (by decide!) (by decide!) (by decide!)
  rw [h]
  decide!

/-! ### Team sizes after a reallocation -/

lemma reallocate_chefs_invalid (teams : Nat → ChefTeam) (from_team to_team : ChefType)
    (num_to_move : Int)
    (h : from_team ≥ CHEF_TYPE_COUNT ∨ to_team ≥ CHEF_TYPE_COUNT ∨ from_team = to_team) :
    reallocate_chefs teams from_team to_team num_to_move = teams := by
  simp only [reallocate_chefs, if_pos h]

lemma reallocate_chefs_team_size (teams : Nat → ChefTeam) (from_team to_team : ChefType)
    (num_to_move : Int)
    (h : ¬ (from_team ≥ CHEF_TYPE_COUNT ∨ to_team ≥ CHEF_TYPE_COUNT ∨ from_team = to_team))
    (i : Nat) :
    (reallocate_chefs teams from_team to_team num_to_move i).team_size =
      if i = to_team then
        (teams to_team).team_size + moved_count (teams from_team).team_size num_to_move
      else if i = from_team then
        (teams from_team).team_size - moved_count (teams from_team).team_size num_to_move
      else (teams i).team_size := by
  have hne : ¬ to_team = from_team := fun e => h (Or.inr (Or.inr e.symm))
  simp only [reallocate_chefs, if_neg h, moved_count]
  by_cases h1 : (teams from_team).team_size < num_to_move + 1
  · by_cases h2 : (teams from_team).team_size - 1 ≤ 0
    · simp only [if_pos h1, if_pos h2]
      split_ifs with e1 e2
      · rw [e1]; simp
      · rw [e2]; simp
      · rfl
    · simp only [if_pos h1, if_neg h2, set_team_size]
      split_ifs with e1 e2 <;> simp_all
  · simp only [if_neg h1, set_team_size]
    split_ifs with e1 e2 <;> simp_all

lemma reallocate_chefs_other (teams : Nat → ChefTeam) (from_team to_team : ChefType)
    (num_to_move : Int) (i : Nat) (hf : i ≠ from_team) (ht : i ≠ to_team) :
    reallocate_chefs teams from_team to_team num_to_move i = teams i := by
  simp only [reallocate_chefs]
  split_ifs
  · rfl
  · rfl
  · simp [set_team_size, hf, ht]
  · simp [set_team_size, hf, ht]

/-- C8 fails as stated: with the negative count `-1` the call moves a worker
the other way, out of the target team, and a roster of one-member teams ends
with an empty Sweet team. -/
theorem reallocate_chefs_negative_count_empties_target :
    teams_staffed (roster fun _ => 1) ∧
    (reallocate_chefs (roster fun _ => 1) CHEF_CAKE CHEF_SWEET (-1) CHEF_SWEET).team_size = 0 ∧
    ¬ teams_staffed (reallocate_chefs (roster fun _ => 1) CHEF_CAKE CHEF_SWEET (-1)) := by
  decide

/-- C8 (amended): for every roster in which every team has `team_size >= 1`,
every donor role, every target role and every requested count `>= 0`,
`reallocate_chefs` returns a roster in which every team still has
`team_size >= 1`. -/
theorem reallocate_chefs_keeps_teams_staffed (teams : Nat → ChefTeam)
    (from_team to_team : ChefType) (num_to_move : Int) (hn : 0 ≤ num_to_move)
    (h : teams_staffed teams) :
    teams_staffed (reallocate_chefs teams from_team to_team num_to_move) := by
  intro i hi
  by_cases hv : from_team ≥ CHEF_TYPE_COUNT ∨ to_team ≥ CHEF_TYPE_COUNT ∨ from_team = to_team
  · rw [reallocate_chefs_invalid _ _ _ _ hv]
    exact h i hi
  · rw [reallocate_chefs_team_size _ _ _ _ hv]
    have hv2 := hv
    simp only [ge_iff_le, not_or, not_le] at hv2
    have hf := h from_team hv2.1
    have ht := h to_team hv2.2.1
    have hi1 := h i hi
    unfold moved_count
    split_ifs <;> omega

/-- C8 (amended) at a concrete input: two workers asked of a team of two. -/
theorem reallocate_chefs_keeps_teams_staffed_witness :
    teams_staffed (roster fun _ => 2) ∧
    teams_staffed (reallocate_chefs (roster fun _ => 2) CHEF_CAKE CHEF_SWEET 2) :=
  ⟨by decide,
    reallocate_chefs_keeps_teams_staffed (roster fun _ => 2) CHEF_CAKE CHEF_SWEET 2
      (by decide) (by decide)⟩

/-- C9: for distinct in-range roles and a count `n >= 1`, with `s` the donor's
`team_size`: when `s >= 2` exactly `min n (s - 1)` workers move (the donor
shrinks and the target grows by that number, every other team is unchanged);
when `s <= 1` no team changes; and for `n = 1` the donor loses exactly 1 and the
target gains exactly 1 if and only if `s >= 2`. -/
theorem reallocate_chefs_moves_min (teams : Nat → ChefTeam) (from_team to_team : ChefType)
    (n : Int) (hfrom : from_team < CHEF_TYPE_COUNT) (hto : to_team < CHEF_TYPE_COUNT)
    (hne : from_team ≠ to_team) (hn : 1 ≤ n) :
    (2 ≤ (teams from_team).team_size →
      (reallocate_chefs teams from_team to_team n from_team).team_size =
        (teams from_team).team_size - min n ((teams from_team).team_size - 1) ∧
      (reallocate_chefs teams from_team to_team n to_team).team_size =
        (teams to_team).team_size + min n ((teams from_team).team_size - 1) ∧
      ∀ i, i ≠ from_team → i ≠ to_team →
        reallocate_chefs teams from_team to_team n i = teams i) ∧
    ((teams from_team).team_size ≤ 1 →
      reallocate_chefs teams from_team to_team n = teams) ∧
    (((reallocate_chefs teams from_team to_team 1 from_team).team_size =
        (teams from_team).team_size - 1 ∧
      (reallocate_chefs teams from_team to_team 1 to_team).team_size =
        (teams to_team).team_size + 1) ↔ 2 ≤ (teams from_team).team_size) := by
  have hv : ¬ (from_team ≥ CHEF_TYPE_COUNT ∨ to_team ≥ CHEF_TYPE_COUNT ∨ from_team = to_team) := by
    simp only [ge_iff_le, not_or, not_le]
    exact ⟨hfrom, hto, hne⟩
  refine ⟨fun hs => ⟨?_, ?_, ?_⟩, fun hs => ?_, ?_⟩
  · rw [reallocate_chefs_team_size _ _ _ _ hv, if_neg hne, if_pos rfl]
    unfold moved_count
    split_ifs <;> omega
  · rw [reallocate_chefs_team_size _ _ _ _ hv, if_pos rfl]
    unfold moved_count
    split_ifs <;> omega
  · intro i hif hit
    exact reallocate_chefs_other _ _ _ _ _ hif hit
  · have h1 : (teams from_team).team_size < n + 1 := by omega
    have h2 : (teams from_team).team_size - 1 ≤ 0 := by omega
    simp only [reallocate_chefs, if_neg hv, if_pos h1, if_pos h2]
  · rw [reallocate_chefs_team_size _ _ _ _ hv, reallocate_chefs_team_size _ _ _ _ hv,
      if_neg hne, if_pos rfl, if_pos rfl]
    unfold moved_count
    split_ifs <;> omega

/-- C9 at a concrete input: five workers asked of a Cake team of three moves
two of them to the Sweet team. -/
theorem reallocate_chefs_moves_min_witness :
    (reallocate_chefs (roster fun i => if i = 1 then 3 else 1) CHEF_CAKE CHEF_SWEET 5
      CHEF_CAKE).team_size = 1 ∧
    (reallocate_chefs (roster fun i => if i = 1 then 3 else 1) CHEF_CAKE CHEF_SWEET 5
      CHEF_SWEET).team_size = 3 := by
  have h := (reallocate_chefs_moves_min (roster fun i => if i = 1 then 3 else 1)
    CHEF_CAKE CHEF_SWEET 5 (by decide) (by decide) (by decide) (by decide)).1 (by decide)
  exact ⟨h.1.trans (by decide), h.2.1.trans (by decide)⟩

/-- C10: `check_end_conditions` reports true exactly when
`frustrated_customers >= thresholds[0]`, or
`complained_customers >= thresholds[1]`, or
`missing_items_requests >= thresholds[2]`, or `total_profit >= thresholds[3]`,
or the truncated quotient `(now - start_time) / 60` is at least
`max_simulation_time`; in particular `total_profit >= thresholds[3]` alone
forces true. -/
theorem check_end_conditions_iff (status : ProductionStatus) (config : BakeryConfig)
    (now : Int) :
    (check_end_conditions status config now = true ↔
      (status.frustrated_customers ≥ config.thresholds 0 ∨
       status.complained_customers ≥ config.thresholds 1 ∨
       status.missing_items_requests ≥ config.thresholds 2 ∨
       status.total_profit ≥ (config.thresholds 3 : ℚ) ∨
       Int.tdiv (now - status.start_time) 60 ≥ config.max_simulation_time)) ∧
    (status.total_profit ≥ (config.thresholds 3 : ℚ) →
      check_end_conditions status config now = true) := by
  have key : check_end_conditions status config now = true ↔
      (status.frustrated_customers ≥ config.thresholds 0 ∨
       status.complained_customers ≥ config.thresholds 1 ∨
       status.missing_items_requests ≥ config.thresholds 2 ∨
       status.total_profit ≥ (config.thresholds 3 : ℚ) ∨
       Int.tdiv (now - status.start_time) 60 ≥ config.max_simulation_time) := by
    unfold check_end_conditions
    split_ifs <;> simp_all
  exact ⟨key, fun h => key.2 (Or.inr (Or.inr (Or.inr (Or.inl h))))⟩

/-- C10 at a concrete input: a profit of 100 against a profit threshold of 100
ends the run although no other limit is reached. -/
theorem check_end_conditions_iff_witness :
    check_end_conditions { ledger_cake with total_profit := 100 } config_sample 0 = true :=
  (check_end_conditions_iff { ledger_cake with total_profit := 100 } config_sample 0).2
    (by decide!)

/-! ### Chef iteration: refusals and recipes -/

lemma chef_iteration_of_no_ingredients (type : ChefType) (inventory : Inventory)
    (status : ProductionStatus) (inv_lock_ok prod_lock_ok : Bool)
    (h : check_dependencies type inventory = false) :
    chef_iteration type inventory status inv_lock_ok prod_lock_ok = (inventory, status) := by
  unfold chef_iteration
  cases chef_product_type type with
  | none => rfl
  | some p => simp [h]

lemma chef_iteration_of_no_paste (type : ChefType) (inventory : Inventory)
    (status : ProductionStatus) (inv_lock_ok prod_lock_ok : Bool)
    (hrole : type = CHEF_SWEET_PATISSERIE ∨ type = CHEF_SAVORY_PATISSERIE)
    (h : status.produced_items PRODUCT_PASTE - status.sold_items PRODUCT_PASTE ≤ 0) :
    chef_iteration type inventory status inv_lock_ok prod_lock_ok = (inventory, status) := by
  unfold chef_iteration
  cases chef_product_type type with
  | none => rfl
  | some p =>
    simp only [hrole, h, true_and, if_true]
    split_ifs <;> first | rfl | simp_all

/-- C15: if `check_dependencies` returns false, or the role is SweetPastry or
SavoryPastry and `produced[Paste] - sold[Paste] <= 0`, one chef loop iteration
leaves the whole inventory and the whole ledger unchanged. -/
theorem chef_iteration_refused_changes_nothing (type : ChefType) (inventory : Inventory)
    (status : ProductionStatus) (inv_lock_ok prod_lock_ok : Bool)
    (h : check_dependencies type inventory = false ∨
      ((type = CHEF_SWEET_PATISSERIE ∨ type = CHEF_SAVORY_PATISSERIE) ∧
        status.produced_items PRODUCT_PASTE - status.sold_items PRODUCT_PASTE ≤ 0)) :
    chef_iteration type inventory status inv_lock_ok prod_lock_ok = (inventory, status) := by
  rcases h with h | ⟨hrole, h⟩
  · exact chef_iteration_of_no_ingredients type inventory status inv_lock_ok prod_lock_ok h
  · exact chef_iteration_of_no_paste type inventory status inv_lock_ok prod_lock_ok hrole h

/-- C15 at the input of scenario 1: with `wheat = 1` the Paste chef leaves
`produced[Paste]` at 0 and the wheat at 1. -/
theorem chef_iteration_refused_changes_nothing_witness :
    check_dependencies CHEF_PASTE inventory_low_wheat = false ∧
    (chef_iteration CHEF_PASTE inventory_low_wheat ledger_empty true true).2.produced_items
      PRODUCT_PASTE = 0 ∧
    (chef_iteration CHEF_PASTE inventory_low_wheat ledger_empty true true).1.quantities
      ITEM_WHEAT = 1 := by
  have h := chef_iteration_refused_changes_nothing CHEF_PASTE inventory_low_wheat ledger_empty
    true true (Or.inl (by decide))
  refine ⟨by decide, ?_, ?_⟩
  · rw [h]; decide
  · rw [h]; decide

lemma check_dependencies_iff_recipe (type : ChefType) (inventory : Inventory)
    (hrole : type < CHEF_TYPE_COUNT) :
    check_dependencies type inventory = true ↔
      ∀ m, 0 < recipe type m → recipe type m ≤ inventory.quantities m := by
  have key : ∀ P : RawMaterialType → Prop,
      (∀ m, P m) ↔ (P ITEM_WHEAT ∧ P ITEM_YEAST ∧ P ITEM_BUTTER ∧ P ITEM_MILK ∧
        P ITEM_SUGAR_SALT ∧ P ITEM_SWEET_ITEMS ∧ P ITEM_CHEESE_SALAMI) := by
    intro P
    constructor
    · intro h
      exact ⟨h _, h _, h _, h _, h _, h _, h _⟩
    · rintro ⟨h1, h2, h3, h4, h5, h6, h7⟩ m
      cases m <;> assumption
  rw [key]
  match type, hrole with
  | 0, _ => simp [check_dependencies, recipe]
  | 1, _ => simp [check_dependencies, recipe]
  | 2, _ => simp [check_dependencies, recipe]
  | 3, _ => simp [check_dependencies, recipe]
  | 4, _ => simp [check_dependencies, recipe]; omega
  | 5, _ => simp [check_dependencies, recipe]; omega

/-- C16: for each of the six chef roles, `produce_item` decreases each
material by the recipe amount, which is exactly the amount `check_dependencies`
requires of it, leaves the other materials unchanged (recipe amount 0),
increases `produced` of the role's own product type by exactly 1 and no other
produced counter, and increases `sold[Paste]` by exactly 1 for the two pastry
roles while changing no other sold counter and no sold counter at all for the
other roles. -/
theorem produce_item_follows_recipe (type : ChefType) (p : ProductType)
    (inventory : Inventory) (status : ProductionStatus)
    (hp : chef_product_type type = some p) :
    (∀ m, (produce_item type inventory status).1.quantities m =
      inventory.quantities m - recipe type m) ∧
    (check_dependencies type inventory = true ↔
      ∀ m, 0 < recipe type m → recipe type m ≤ inventory.quantities m) ∧
    (produce_item type inventory status).2.produced_items p = status.produced_items p + 1 ∧
    (∀ t, t ≠ p →
      (produce_item type inventory status).2.produced_items t = status.produced_items t) ∧
    (produce_item type inventory status).2.sold_items PRODUCT_PASTE =
      status.sold_items PRODUCT_PASTE +
        (if type = CHEF_SWEET_PATISSERIE ∨ type = CHEF_SAVORY_PATISSERIE then 1 else 0) ∧
    (∀ t, t ≠ PRODUCT_PASTE →
      (produce_item type inventory status).2.sold_items t = status.sold_items t) := by
  have hrole : type < CHEF_TYPE_COUNT := by
    match type, hp with
    | 0, _ => decide
    | 1, _ => decide
    | 2, _ => decide
    | 3, _ => decide
    | 4, _ => decide
    | 5, _ => decide
  refine ⟨?_, check_dependencies_iff_recipe type inventory hrole, ?_⟩
  · intro m
    match type, hp with
    | 0, _ => cases m <;> simp [produce_item, consume, setAt, recipe]
    | 1, _ => cases m <;> simp [produce_item, consume, setAt, recipe]
    | 2, _ => cases m <;> simp [produce_item, consume, setAt, recipe]
    | 3, _ => cases m <;> simp [produce_item, consume, setAt, recipe]
    | 4, _ => cases m <;> simp [produce_item, consume, setAt, recipe]
    | 5, _ => cases m <;> simp [produce_item, consume, setAt, recipe]
  · match type, hp with
    | 0, hp =>
      simp only [chef_product_type, Option.some.injEq] at hp
      subst hp
      simp [produce_item, incr_produced, incr_sold, setAt]
      tauto
    | 1, hp =>
      simp only [chef_product_type, Option.some.injEq] at hp
      subst hp
      simp [produce_item, incr_produced, incr_sold, setAt]
      tauto
    | 2, hp =>
      simp only [chef_product_type, Option.some.injEq] at hp
      subst hp
      simp [produce_item, incr_produced, incr_sold, setAt]
      tauto
    | 3, hp =>
      simp only [chef_product_type, Option.some.injEq] at hp
      subst hp
      simp [produce_item, incr_produced, incr_sold, setAt]
      tauto
    | 4, hp =>
      simp only [chef_product_type, Option.some.injEq] at hp
      subst hp
      simp [produce_item, incr_produced, incr_sold, setAt]
      tauto
    | 5, hp =>
      simp only [chef_product_type, Option.some.injEq] at hp
      subst hp
      simp [produce_item, incr_produced, incr_sold, setAt]
      tauto

/-- C16 at a concrete input: a Cake chef on the stocked inventory takes three
units of wheat and counts one cake. -/
theorem produce_item_follows_recipe_witness :
    (produce_item CHEF_CAKE inventory_stocked ledger_cake).1.quantities ITEM_WHEAT = 2 ∧
    (produce_item CHEF_CAKE inventory_stocked ledger_cake).2.produced_items PRODUCT_CAKE = 11 ∧
    (produce_item CHEF_CAKE inventory_stocked ledger_cake).2.sold_items PRODUCT_PASTE = 0 := by
  have h := produce_item_follows_recipe CHEF_CAKE PRODUCT_CAKE inventory_stocked ledger_cake
    (by decide)
  exact ⟨(h.1 ITEM_WHEAT).trans (by decide), h.2.2.1.trans (by decide),
    h.2.2.2.2.1.trans (by decide)⟩

/-! ### Bakers -/

lemma forall_product_iff (P : ProductType → Prop) :
    (∀ t, P t) ↔ (P PRODUCT_BREAD ∧ P PRODUCT_SANDWICH ∧ P PRODUCT_CAKE ∧ P PRODUCT_SWEET ∧
      P PRODUCT_SWEET_PATISSERIE ∧ P PRODUCT_SAVORY_PATISSERIE ∧ P PRODUCT_PASTE) := by
  constructor
  · intro h
    exact ⟨h _, h _, h _, h _, h _, h _, h _⟩
  · rintro ⟨h1, h2, h3, h4, h5, h6, h7⟩ t
    cases t <;> assumption

/-- C17: `bake_products` keeps every produced counter that was at or below its
cap `max_items_per_type` at or below it, and a counter changed by the call
grows by exactly 1. -/
theorem bake_products_respects_caps (type : BakerType) (status : ProductionStatus)
    (config : BakeryConfig) :
    (∀ t, status.produced_items t ≤ config.max_items_per_type t →
      (bake_products type status config).2.produced_items t ≤ config.max_items_per_type t) ∧
    (∀ t, (bake_products type status config).2.produced_items t = status.produced_items t ∨
      (bake_products type status config).2.produced_items t = status.produced_items t + 1) := by
  match type with
  | 0 =>
    simp only [bake_products]
    split_ifs
    all_goals
      refine ⟨fun t ht => ?_, fun t => ?_⟩
      all_goals
        cases t
        all_goals
          try simp [incr_produced, setAt] at *
          try omega
  | 1 =>
    simp only [bake_products]
    split_ifs
    all_goals
      refine ⟨fun t ht => ?_, fun t => ?_⟩
      all_goals
        cases t
        all_goals
          try simp [incr_produced, setAt] at *
          try omega
  | 2 =>
    simp only [bake_products]
    split_ifs
    all_goals
      refine ⟨fun t ht => ?_, fun t => ?_⟩
      all_goals
        cases t
        all_goals
          try simp [incr_produced, setAt] at *
          try omega
  | n + 3 =>
    simp [bake_products]

/-- C17 at a concrete input: a CakeSweet baker on the ledger with ten cakes and
a cap of fifty. -/
theorem bake_products_respects_caps_witness :
    ledger_cake.produced_items PRODUCT_CAKE ≤ config_sample.max_items_per_type PRODUCT_CAKE ∧
    (bake_products BAKER_CAKE_SWEET ledger_cake config_sample).2.produced_items PRODUCT_CAKE ≤
      config_sample.max_items_per_type PRODUCT_CAKE :=
  ⟨by decide,
    (bake_products_respects_caps BAKER_CAKE_SWEET ledger_cake config_sample).1 PRODUCT_CAKE
      (by decide)⟩

/-- C18: `bake_products` returns false exactly when every product type the
role owns has `produced >= max_items_per_type`, and then the ledger is
unchanged. -/
theorem bake_products_false_iff (type : BakerType) (status : ProductionStatus)
    (config : BakeryConfig) :
    ((bake_products type status config).1 = false ↔
      ∀ t, baker_owns type t = true →
        config.max_items_per_type t ≤ status.produced_items t) ∧
    ((bake_products type status config).1 = false →
      (bake_products type status config).2 = status) := by
  rw [forall_product_iff]
  match type with
  | 0 =>
    simp only [bake_products, baker_owns]
    split_ifs <;> simp <;> omega
  | 1 =>
    simp only [bake_products, baker_owns]
    split_ifs <;> simp <;> omega
  | 2 =>
    simp only [bake_products, baker_owns]
    split_ifs <;> simp [incr_produced, setAt] at * <;> omega
  | n + 3 =>
    simp [bake_products, baker_owns]

/-- C18 at a concrete input: with every cap at fifty and fifty cakes and sweets
produced, the CakeSweet baker bakes nothing and leaves the ledger as it is. -/
theorem bake_products_false_iff_witness :
    (bake_products BAKER_CAKE_SWEET { ledger_cake with produced_items := fun _ => 50 }
      config_sample).2 = { ledger_cake with produced_items := fun _ => 50 } :=
  (bake_products_false_iff BAKER_CAKE_SWEET { ledger_cake with produced_items := fun _ => 50 }
    config_sample).2 (by decide)

/-! ### Supply scan -/

lemma supply_scan_step_thresholds (config : BakeryConfig) (rand : Nat → Int) (s : SupplyScan)
    (a : RawMaterialType) :
    (supply_scan_step config rand s a).inventory.min_thresholds = s.inventory.min_thresholds := by
  unfold supply_scan_step
  split_ifs <;> rfl

lemma supply_scan_step_other (config : BakeryConfig) (rand : Nat → Int) (s : SupplyScan)
    (a i : RawMaterialType) (h : i ≠ a) :
    (supply_scan_step config rand s a).inventory.quantities i = s.inventory.quantities i := by
  unfold supply_scan_step
  split_ifs
  · simp [setAt, h]
  · rfl

lemma supply_scan_step_low (config : BakeryConfig) (rand : Nat → Int) (s : SupplyScan)
    (a : RawMaterialType) (h : s.inventory.quantities a < s.inventory.min_thresholds a) :
    (supply_scan_step config rand s a).inventory.quantities a =
      s.inventory.quantities a + (config.min_purchases a +
        Int.tmod (rand s.draws) (config.max_purchases a - config.min_purchases a + 1)) := by
  unfold supply_scan_step
  rw [if_pos h]
  simp [setAt]

lemma supply_scan_step_high (config : BakeryConfig) (rand : Nat → Int) (s : SupplyScan)
    (a : RawMaterialType) (h : s.inventory.min_thresholds a ≤ s.inventory.quantities a) :
    supply_scan_step config rand s a = s := by
  unfold supply_scan_step
  rw [if_neg (not_lt.mpr h)]

lemma supply_scan_fold (config : BakeryConfig) (rand : Nat → Int) :
    ∀ (l : List RawMaterialType), l.Nodup → ∀ (s : SupplyScan),
      (l.foldl (supply_scan_step config rand) s).inventory.min_thresholds =
        s.inventory.min_thresholds ∧
      ∀ i,
        (i ∉ l → (l.foldl (supply_scan_step config rand) s).inventory.quantities i =
          s.inventory.quantities i) ∧
        (i ∈ l →
          (s.inventory.quantities i < s.inventory.min_thresholds i →
            ∃ k, (l.foldl (supply_scan_step config rand) s).inventory.quantities i =
              s.inventory.quantities i + (config.min_purchases i +
                Int.tmod (rand k) (config.max_purchases i - config.min_purchases i + 1))) ∧
          (s.inventory.min_thresholds i ≤ s.inventory.quantities i →
            (l.foldl (supply_scan_step config rand) s).inventory.quantities i =
              s.inventory.quantities i)) := by
  intro l
  induction l with
  | nil =>
    intro _ s
    simp
  | cons a l ih =>
    intro hl s
    have hnd := List.nodup_cons.mp hl
    obtain ⟨ihT, ihQ⟩ := ih hnd.2 (supply_scan_step config rand s a)
    rw [List.foldl_cons]
    refine ⟨ihT.trans (supply_scan_step_thresholds config rand s a), fun i => ⟨?_, ?_⟩⟩
    · intro hi
      have hia : i ≠ a := fun e => hi (e ▸ List.mem_cons_self _ _)
      have hil : i ∉ l := fun e => hi (List.mem_cons_of_mem _ e)
      rw [(ihQ i).1 hil, supply_scan_step_other config rand s a i hia]
    · intro hi
      by_cases hia : i = a
      · subst hia
        rw [(ihQ i).1 hnd.1]
        refine ⟨fun hlow => ⟨s.draws, supply_scan_step_low config rand s i hlow⟩, fun hhigh => ?_⟩
        rw [supply_scan_step_high config rand s i hhigh]
      · have hil : i ∈ l := by
          rcases List.mem_cons.mp hi with e | e
          · exact absurd e hia
          · exact e
        have hq := supply_scan_step_other config rand s a i hia
        have ht := congrFun (supply_scan_step_thresholds config rand s a) i
        have h2 := (ihQ i).2 hil
        rw [hq, ht] at h2
        exact h2

lemma mem_all_materials (i : RawMaterialType) : i ∈ all_materials := by
  cases i <;> simp [all_materials]

/-- C19: when `min_purchases[i] <= max_purchases[i]` for every kind and every
value of `rand()` is non-negative, one supply scan adds to each kind below its
threshold an amount between `min_purchases[i]` and `max_purchases[i]`, and
leaves every kind at or above its threshold and every threshold unchanged. -/
theorem supply_scan_restocks_within_bounds (inventory : Inventory) (config : BakeryConfig)
    (rand : Nat → Int)
    (hcfg : ∀ i, config.min_purchases i ≤ config.max_purchases i)
    (hrand : ∀ k, 0 ≤ rand k) :
    ∀ i,
      (inventory.quantities i < inventory.min_thresholds i →
        config.min_purchases i ≤
          (supply_scan inventory config rand).inventory.quantities i - inventory.quantities i ∧
        (supply_scan inventory config rand).inventory.quantities i - inventory.quantities i ≤
          config.max_purchases i) ∧
      (inventory.min_thresholds i ≤ inventory.quantities i →
        (supply_scan inventory config rand).inventory.quantities i = inventory.quantities i) ∧
      (supply_scan inventory config rand).inventory.min_thresholds i =
        inventory.min_thresholds i := by
  intro i
  have hfold := supply_scan_fold config rand all_materials (by decide)
    { inventory := inventory, draws := 0, reordered := false }
  have hq := (hfold.2 i).2 (mem_all_materials i)
  dsimp only at hq hfold
  refine ⟨fun hlow => ?_, fun hhigh => hq.2 hhigh, congrFun hfold.1 i⟩
  obtain ⟨k, hk⟩ := hq.1 hlow
  have hpos : 0 < config.max_purchases i - config.min_purchases i + 1 := by
    have := hcfg i
    omega
  have h0 := Int.tmod_nonneg (config.max_purchases i - config.min_purchases i + 1) (hrand k)
  have h1 := Int.tmod_lt_of_pos (rand k) hpos
  unfold supply_scan
  rw [hk]
  constructor <;> omega

/-- C19 at a concrete input: with wheat at 2 under a threshold of 5, purchases
between 10 and 20 and every draw equal to 7, the scan brings wheat to 19 and
leaves yeast at 8. -/
theorem supply_scan_restocks_within_bounds_witness :
    (supply_scan inventory_wheat_short config_sample (fun _ => 7)).inventory.quantities
      ITEM_WHEAT = 19 ∧
    10 ≤ (supply_scan inventory_wheat_short config_sample (fun _ => 7)).inventory.quantities
      ITEM_WHEAT - inventory_wheat_short.quantities ITEM_WHEAT ∧
    (supply_scan inventory_wheat_short config_sample (fun _ => 7)).inventory.quantities
      ITEM_YEAST = 8 := by
  have h := supply_scan_restocks_within_bounds inventory_wheat_short config_sample (fun _ => 7)
    (by decide) (fun _ => (by decide : (0 : Int) ≤ 7))
  exact ⟨by decide, ((h ITEM_WHEAT).1 (by decide)).1, (h ITEM_YEAST).2.1 (by decide)⟩

/-! ### Customers -/

lemma item_request_product_type (request_msg : CustomerMsg) (config : BakeryConfig)
    (item : CustomerItem) :
    (item_request request_msg config item).product_type = requested_type item := by
  simp only [item_request, requested_type, product_of_index]
  generalize Int.tmod item.type_draw 7 = n
  match n with
  | 0 => rfl
  | 1 => rfl
  | 2 => rfl
  | 3 => rfl
  | 4 => rfl
  | 5 => rfl
  | Int.ofNat (k + 6) =>
    have h0 : (Int.ofNat (k + 6) : Int) ≠ 0 := by simp; omega
    have h1 : (Int.ofNat (k + 6) : Int) ≠ 1 := by simp; omega
    have h2 : (Int.ofNat (k + 6) : Int) ≠ 2 := by simp; omega
    have h3 : (Int.ofNat (k + 6) : Int) ≠ 3 := by simp; omega
    have h4 : (Int.ofNat (k + 6) : Int) ≠ 4 := by simp; omega
    have h5 : (Int.ofNat (k + 6) : Int) ≠ 5 := by simp; omega
    simp only [if_neg h0, if_neg h1, if_neg h2, if_neg h3, if_neg h4, if_neg h5]
  | Int.negSucc k =>
    have h0 : Int.negSucc k ≠ 0 := by simp
    have h1 : Int.negSucc k ≠ 1 := by simp
    have h2 : Int.negSucc k ≠ 2 := by simp
    have h3 : Int.negSucc k ≠ 3 := by simp
    have h4 : Int.negSucc k ≠ 4 := by simp
    have h5 : Int.negSucc k ≠ 5 := by simp
    simp only [if_neg h0, if_neg h1, if_neg h2, if_neg h3, if_neg h4, if_neg h5]

lemma item_request_subtype (request_msg : CustomerMsg) (config : BakeryConfig)
    (item : CustomerItem) :
    (item_request request_msg config item).subtype = requested_subtype config item := by
  have ht := item_request_product_type request_msg config item
  simp only [item_request] at ht
  simp only [item_request, requested_subtype, ht, gt_iff_lt]

/-- The polling loop returns the `fulfilled` flag of the first received message
that matches the request, and nothing when no received message matches. -/
lemma wait_for_response_eq_find (request_msg : CustomerMsg)
    (polls : List (Option CustomerMsg)) :
    wait_for_response request_msg polls =
      ((polls.filterMap (fun poll => poll)).find? (fun response =>
        decide (response.product_type = request_msg.product_type ∧
          response.subtype = request_msg.subtype))).map (fun response => response.fulfilled) := by
  induction polls with
  | nil => rfl
  | cons poll polls ih =>
    cases poll with
    | none => simpa [wait_for_response] using ih
    | some response =>
      by_cases hm : response.product_type = request_msg.product_type ∧
          response.subtype = request_msg.subtype
      · simp [wait_for_response, hm, List.find?]
      · have hd : decide (response.product_type = request_msg.product_type ∧
            response.subtype = request_msg.subtype) = false := decide_eq_false hm
        simp only [wait_for_response, if_neg hm, ih, List.filterMap_cons_some, List.find?, hd]

lemma customer_requests_flag (config : BakeryConfig) :
    ∀ (items : List CustomerItem) (state : CustomerMsg × Bool),
      (customer_requests config items state).2 =
        (state.2 && items.all
          (fun item => decide (item_outcome config item = ItemOutcome.fulfilled))) := by
  intro items
  induction items with
  | nil =>
    intro state
    simp [customer_requests]
  | cons item items ih =>
    intro state
    have hw := wait_for_response_eq_find (item_request state.1 config item) item.polls
    rw [item_request_product_type, item_request_subtype] at hw
    cases hs : item.send_ok
    · simp [customer_requests, item_outcome, hs]
    · simp only [customer_requests, hs, Bool.not_true, Bool.false_eq_true, if_false, ih,
        List.all_cons, item_outcome, received_messages, hw]
      cases hr : (item.polls.filterMap (fun poll => poll)).find? (fun response =>
          decide (response.product_type = requested_type item ∧
            response.subtype = requested_subtype config item)) with
      | none => simp
      | some response => cases hf : response.fulfilled <;> simp [hf]

/-- Runs of customer 7 evaluated on the embedding of the code: the flag
`all_requests_fulfilled` after three timeouts, after two fulfilled answers, after
a fulfilled and a refused answer, and after a failed send. -/
lemma customer_requests_samples :
    (customer_requests config_sample [item_unanswered, item_unanswered, item_unanswered]
      (customer_request_buffer 7, true)).2 = false ∧
    (customer_requests config_sample [item_answered true, item_answered_late true]
      (customer_request_buffer 7, true)).2 = true ∧
    (customer_requests config_sample [item_answered true, item_answered false]
      (customer_request_buffer 7, true)).2 = false ∧
    (customer_requests config_sample [item_answered true, item_unsent]
      (customer_request_buffer 7, true)).2 = false := by
  decide

/-- C20 fails as stated for a run whose locking `semop` fails: three items that
all time out, and `frustrated_customers` is not raised, because the process
exits before the update. -/
theorem customer_process_failed_lock_counts_nothing :
    item_outcome config_sample item_unanswered = ItemOutcome.timed_out ∧
    (customer_process 7 [item_unanswered, item_unanswered, item_unanswered] ledger_cake
      config_sample false 1 true).1.frustrated_customers = ledger_cake.frustrated_customers ∧
    (customer_process 7 [item_unanswered, item_unanswered, item_unanswered] ledger_cake
      config_sample false 1 true).1 = ledger_cake := by
  refine ⟨by decide, by decide, rfl⟩

/-- C20 (amended): a customer that obtains the ledger lock adds exactly 1 to
`frustrated_customers` if at least one item was not fulfilled (unfulfilled
response, timeout or failed send), adds nothing if every item was fulfilled, and
changes no other ledger field, whatever the number of items; a customer whose
locking `semop` fails leaves the ledger as it is. -/
theorem customer_process_frustration (id : Int) (items : List CustomerItem)
    (status : ProductionStatus) (config : BakeryConfig) (lock_ok : Bool)
    (complaint_draw : ℚ) (complaint_send_ok : Bool) :
    (customer_process id items status config lock_ok complaint_draw complaint_send_ok).1 =
      if lock_ok then
        { status with frustrated_customers := status.frustrated_customers +
            (if ∀ item ∈ items, item_outcome config item = ItemOutcome.fulfilled
              then 0 else 1) }
      else status := by
  cases lock_ok with
  | false => simp [customer_process]
  | true =>
    have hflag := customer_requests_flag config items (customer_request_buffer id, true)
    simp only [Bool.true_and] at hflag
    by_cases hall : ∀ item ∈ items, item_outcome config item = ItemOutcome.fulfilled
    · have hb : (customer_requests config items (customer_request_buffer id, true)).2 =
          true := by
        rw [hflag, List.all_eq_true]
        intro item hitem
        exact decide_eq_true (hall item hitem)
      rw [if_pos rfl, if_pos hall]
      simp [customer_process, customer_final_update, hb]
    · have hb : (customer_requests config items (customer_request_buffer id, true)).2 =
          false := by
        rw [hflag, Bool.eq_false_iff]
        intro hc
        rw [List.all_eq_true] at hc
        exact hall (fun item hitem => of_decide_eq_true (hc item hitem))
      simp only [customer_process, customer_final_update, hb, if_neg hall]
      split_ifs <;> simp_all

/-- C20 (amended) at concrete runs of customer 7 that obtain the lock: three
items that all time out add 1, not more (scenario 4); two items that are both
answered `fulfilled`, one of them after a stale message about another product,
add nothing; a fulfilled item followed by a refused one adds 1; a fulfilled item
followed by a failed send adds 1. -/
theorem customer_process_frustration_witness :
    (customer_process 7 [item_unanswered, item_unanswered, item_unanswered] ledger_cake
      config_sample true 1 true).1.frustrated_customers =
      ledger_cake.frustrated_customers + 1 ∧
    (customer_process 7 [item_answered true, item_answered_late true] ledger_cake
      config_sample true 1 true).1.frustrated_customers =
      ledger_cake.frustrated_customers ∧
    (customer_process 7 [item_answered true, item_answered false] ledger_cake
      config_sample true 1 true).1.frustrated_customers =
      ledger_cake.frustrated_customers + 1 ∧
    (customer_process 7 [item_answered true, item_unsent] ledger_cake
      config_sample true 1 true).1.frustrated_customers =
      ledger_cake.frustrated_customers + 1 := by
  refine ⟨?_, ?_, ?_, ?_⟩ <;> rw [customer_process_frustration] <;> decide

/-! ### The two search loops of the staffing analysis -/

/-- The arrays of `analyze_production_needs` hold the single-precision
shares. -/
lemma production_ratios_eq (status : ProductionStatus) (i : ProductType) :
    production_ratios status i = float_ratio status.produced_items i := rfl

lemma sales_ratios_eq (status : ProductionStatus) (i : ProductType) :
    sales_ratios status i = float_ratio status.sold_items i := rfl

lemma max_scan_unchanged (status : ProductionStatus) :
    ∀ (l : List ProductType) (acc : ℚ × Option ProductType),
      (∀ t ∈ l, sales_imbalance status t ≤ acc.1) →
      l.foldl (max_imbalance_step status) acc = acc := by
  intro l
  induction l with
  | nil => intro acc _; rfl
  | cons a l ih =>
    intro acc h
    have ha : ¬ round_float (sales_ratios status a - production_ratios status a) > acc.1 :=
      not_lt.mpr (h a (List.mem_cons_self _ _))
    rw [List.foldl_cons]
    have hstep : max_imbalance_step status acc a = acc := by
      simp only [max_imbalance_step, if_neg ha]
    rw [hstep]
    exact ih acc (fun t ht => h t (List.mem_cons_of_mem _ ht))

lemma max_scan_bound (status : ProductionStatus) (b : ℚ) :
    ∀ (l : List ProductType) (acc : ℚ × Option ProductType),
      acc.1 ≤ b → (∀ t ∈ l, sales_imbalance status t ≤ b) →
      (l.foldl (max_imbalance_step status) acc).1 ≤ b := by
  intro l
  induction l with
  | nil => intro acc h _; exact h
  | cons a l ih =>
    intro acc hacc h
    rw [List.foldl_cons]
    apply ih
    · simp only [max_imbalance_step]
      split_ifs
      · exact h a (List.mem_cons_self _ _)
      · exact hacc
    · exact fun t ht => h t (List.mem_cons_of_mem _ ht)

lemma max_scan_lt (status : ProductionStatus) (v : ℚ) :
    ∀ (l : List ProductType) (acc : ℚ × Option ProductType),
      acc.1 < v → (∀ t ∈ l, sales_imbalance status t < v) →
      (l.foldl (max_imbalance_step status) acc).1 < v := by
  intro l
  induction l with
  | nil => intro acc h _; exact h
  | cons a l ih =>
    intro acc hacc h
    rw [List.foldl_cons]
    apply ih
    · simp only [max_imbalance_step]
      split_ifs
      · exact h a (List.mem_cons_self _ _)
      · exact hacc
    · exact fun t ht => h t (List.mem_cons_of_mem _ ht)

lemma max_scan_first (status : ProductionStatus) (l1 l2 : List ProductType) (T : ProductType)
    (acc : ℚ × Option ProductType)
    (h1 : ∀ t ∈ l1, sales_imbalance status t < sales_imbalance status T)
    (h2 : ∀ t ∈ l2, sales_imbalance status t ≤ sales_imbalance status T)
    (hacc : acc.1 < sales_imbalance status T) :
    (l1 ++ T :: l2).foldl (max_imbalance_step status) acc =
      (sales_imbalance status T, some T) := by
  rw [List.foldl_append, List.foldl_cons]
  have hlt := max_scan_lt status (sales_imbalance status T) l1 acc hacc h1
  have hstep : max_imbalance_step status (l1.foldl (max_imbalance_step status) acc) T =
      (sales_imbalance status T, some T) := by
    have hlt2 : round_float (sales_ratios status T - production_ratios status T) >
        (l1.foldl (max_imbalance_step status) acc).1 := hlt
    simp only [max_imbalance_step, if_pos hlt2]
    rfl
  rw [hstep]
  exact max_scan_unchanged status l2 _ h2

lemma max_scan_all_products (status : ProductionStatus) (T : ProductType)
    (hfirst : ∀ t, product_index t < product_index T →
      sales_imbalance status t < sales_imbalance status T)
    (hmax : ∀ t, sales_imbalance status t ≤ sales_imbalance status T)
    (hgt : -1 < sales_imbalance status T) :
    all_products.foldl (max_imbalance_step status) (-1, none) =
      (sales_imbalance status T, some T) := by
  cases T
  · exact max_scan_first status [] _ PRODUCT_BREAD _
      (fun t ht => by simp at ht) (fun t _ => hmax t) hgt
  · exact max_scan_first status [PRODUCT_BREAD] _ PRODUCT_SANDWICH _
      (fun t ht => hfirst t (by cases t <;> simp [product_index] at ht ⊢))
      (fun t _ => hmax t) hgt
  · exact max_scan_first status [PRODUCT_BREAD, PRODUCT_SANDWICH] _ PRODUCT_CAKE _
      (fun t ht => hfirst t (by cases t <;> simp [product_index] at ht ⊢))
      (fun t _ => hmax t) hgt
  · exact max_scan_first status [PRODUCT_BREAD, PRODUCT_SANDWICH, PRODUCT_CAKE] _
      PRODUCT_SWEET _
      (fun t ht => hfirst t (by cases t <;> simp [product_index] at ht ⊢))
      (fun t _ => hmax t) hgt
  · exact max_scan_first status [PRODUCT_BREAD, PRODUCT_SANDWICH, PRODUCT_CAKE, PRODUCT_SWEET]
      _ PRODUCT_SWEET_PATISSERIE _
      (fun t ht => hfirst t (by cases t <;> simp [product_index] at ht ⊢))
      (fun t _ => hmax t) hgt
  · exact max_scan_first status
      [PRODUCT_BREAD, PRODUCT_SANDWICH, PRODUCT_CAKE, PRODUCT_SWEET, PRODUCT_SWEET_PATISSERIE]
      _ PRODUCT_SAVORY_PATISSERIE _
      (fun t ht => hfirst t (by cases t <;> simp [product_index] at ht ⊢))
      (fun t _ => hmax t) hgt
  · exact max_scan_first status
      [PRODUCT_BREAD, PRODUCT_SANDWICH, PRODUCT_CAKE, PRODUCT_SWEET, PRODUCT_SWEET_PATISSERIE,
        PRODUCT_SAVORY_PATISSERIE] [] PRODUCT_PASTE _
      (fun t ht => hfirst t (by cases t <;> simp [product_index] at ht ⊢))
      (fun t _ => hmax t) hgt

lemma min_scan_spec (status : ProductionStatus) :
    ∀ (l : List ProductType) (acc : ℚ × Option ProductType),
      (l.foldl (min_imbalance_step status) acc).1 ≤ acc.1 ∧
      (∀ t ∈ l, t ≠ PRODUCT_PASTE → round_float (1 / 20) < oversupply status t →
        (l.foldl (min_imbalance_step status) acc).1 ≤ oversupply status t) ∧
      (l.foldl (min_imbalance_step status) acc = acc ∨
        ∃ D ∈ l, D ≠ PRODUCT_PASTE ∧ round_float (1 / 20) < oversupply status D ∧
          oversupply status D < acc.1 ∧
          l.foldl (min_imbalance_step status) acc = (oversupply status D, some D)) := by
  intro l
  induction l with
  | nil =>
    intro acc
    simp
  | cons a l ih =>
    intro acc
    rw [List.foldl_cons]
    obtain ⟨ih1, ih2, ih3⟩ := ih (min_imbalance_step status acc a)
    by_cases hq : a ≠ PRODUCT_PASTE ∧ round_float (1 / 20) < oversupply status a ∧ oversupply status a < acc.1
    · have hstep : min_imbalance_step status acc a = (oversupply status a, some a) := by
        have hc : round_float (production_ratios status a - sales_ratios status a) >
              round_float (1 / 20) ∧
            round_float (production_ratios status a - sales_ratios status a) < acc.1 :=
          ⟨hq.2.1, hq.2.2⟩
        simp only [min_imbalance_step, if_neg hq.1, if_pos hc]
        rfl
      rw [hstep] at ih1 ih2 ih3 ⊢
      refine ⟨le_trans ih1 (le_of_lt hq.2.2), ?_, ?_⟩
      · intro t ht hp hover
        rcases List.mem_cons.mp ht with e | e
        · rw [e]
          exact ih1
        · exact ih2 t e hp hover
      · right
        rcases ih3 with h | ⟨D, hD, hp, h20, hlt, heq⟩
        · exact ⟨a, List.mem_cons_self _ _, hq.1, hq.2.1, hq.2.2, h⟩
        · exact ⟨D, List.mem_cons_of_mem _ hD, hp, h20, lt_trans hlt hq.2.2, heq⟩
    · have hstep : min_imbalance_step status acc a = acc := by
        simp only [min_imbalance_step]
        split_ifs with h1 h2
        · rfl
        · exact absurd ⟨h1, h2.1, h2.2⟩ hq
        · rfl
      rw [hstep] at ih1 ih2 ih3 ⊢
      refine ⟨ih1, ?_, ?_⟩
      · intro t ht hp hover
        rcases List.mem_cons.mp ht with e | e
        · rw [e] at hp hover ⊢
          have hge : acc.1 ≤ oversupply status a := by
            by_contra hc
            exact hq ⟨hp, hover, not_le.mp hc⟩
          exact le_trans ih1 hge
        · exact ih2 t e hp hover
      · rcases ih3 with h | ⟨D, hD, hp, h20, hlt, heq⟩
        · exact Or.inl h
        · exact Or.inr ⟨D, List.mem_cons_of_mem _ hD, hp, h20, hlt, heq⟩

lemma mem_all_products (t : ProductType) : t ∈ all_products := by
  cases t <;> simp [all_products]

lemma team_of_product_produces (t : ProductType) (team : ChefType)
    (h : team_of_product t = some team) : chef_product_type team = some t := by
  cases t <;> simp [team_of_product] at h <;> subst h <;> rfl

/-! ### Unfolding lemmas for the staffing analysis -/

lemma analyze_of_found (status : ProductionStatus) (teams : Nat → ChefTeam)
    (v w : ℚ) (T D : ProductType) (team_to team_from : ChefType)
    (hmax : all_products.foldl (max_imbalance_step status) (-1, none) = (v, some T))
    (hv : v > round_float (1 / 10)) (hto : team_of_product T = some team_to)
    (hmin : all_products.foldl (min_imbalance_step status) (1, none) = (w, some D))
    (hfrom : team_of_product D = some team_from) :
    analyze_production_needs status teams =
      { msg_type := MSG_MANAGEMENT_DECISION, chef_type_from := team_from,
        chef_type_to := team_to, num_chefs_to_move := 1 } := by
  unfold analyze_production_needs
  generalize all_products.foldl (max_imbalance_step status) (-1, none) = fm at hmax
  generalize all_products.foldl (min_imbalance_step status) (1, none) = fn at hmin
  subst hmax
  subst hmin
  simp only [if_pos hv, hto, hfrom]

lemma analyze_of_small_max (status : ProductionStatus) (teams : Nat → ChefTeam)
    (h : ¬ (all_products.foldl (max_imbalance_step status) (-1, none)).1 > round_float (1 / 10)) :
    (analyze_production_needs status teams).num_chefs_to_move = 0 := by
  unfold analyze_production_needs
  generalize all_products.foldl (max_imbalance_step status) (-1, none) = fm at h
  generalize all_products.foldl (min_imbalance_step status) (1, none) = fn
  obtain ⟨v, oT⟩ := fm
  cases oT with
  | none => simp only
  | some t => simp only [if_neg h]

lemma analyze_of_max_bread (status : ProductionStatus) (teams : Nat → ChefTeam) (v : ℚ)
    (h : all_products.foldl (max_imbalance_step status) (-1, none) = (v, some PRODUCT_BREAD)) :
    (analyze_production_needs status teams).num_chefs_to_move = 0 := by
  unfold analyze_production_needs
  generalize all_products.foldl (max_imbalance_step status) (-1, none) = fm at h
  generalize all_products.foldl (min_imbalance_step status) (1, none) = fn
  subst h
  simp only [team_of_product]
  split_ifs <;> simp only

lemma analyze_of_no_donor (status : ProductionStatus) (teams : Nat → ChefTeam)
    (h : (all_products.foldl (min_imbalance_step status) (1, none)).2 = none) :
    (analyze_production_needs status teams).num_chefs_to_move = 0 := by
  unfold analyze_production_needs
  generalize all_products.foldl (max_imbalance_step status) (-1, none) = fm
  generalize all_products.foldl (min_imbalance_step status) (1, none) = fn at h
  obtain ⟨v, oT⟩ := fm
  obtain ⟨w, oD⟩ := fn
  simp only at h
  subst h
  cases oT with
  | none => simp only
  | some t =>
    simp only
    split_ifs
    · cases team_of_product t with
      | none => simp only
      | some team_to => simp only
    · simp only

lemma analyze_move_inv (status : ProductionStatus) (teams : Nat → ChefTeam)
    (h : (analyze_production_needs status teams).num_chefs_to_move > 0) :
    ∃ D, (all_products.foldl (min_imbalance_step status) (1, none)).2 = some D ∧
      team_of_product D = some (analyze_production_needs status teams).chef_type_from ∧
      (analyze_production_needs status teams).num_chefs_to_move = 1 := by
  unfold analyze_production_needs at h ⊢
  generalize all_products.foldl (max_imbalance_step status) (-1, none) = fm at h ⊢
  generalize all_products.foldl (min_imbalance_step status) (1, none) = fn at h ⊢
  obtain ⟨v, oT⟩ := fm
  obtain ⟨w, oD⟩ := fn
  cases oT with
  | none => simp at h
  | some t =>
    simp only at h ⊢
    split_ifs at h ⊢ with hv
    · cases hto : team_of_product t with
      | none => simp [hto] at h
      | some team_to =>
        simp only [hto] at h ⊢
        cases oD with
        | none => simp at h
        | some D =>
          simp only at h ⊢
          cases hfrom : team_of_product D with
          | none => simp [hfrom] at h
          | some team_from => exact ⟨D, rfl, by simp [hfrom], by simp⟩
    · simp at h

/-! ### Single-precision rounding -/

lemma round_float_neg (x : ℚ) : round_float (-x) = - round_float x :=
  round_to_precision_neg FLT_MANT_DIG x

/-- The `float` literal `0.1f`: its significand is 13421773 and its exponent
`-27`. -/
lemma round_float_tenth : round_float (1 / 10) = 13421773 / 134217728 := by
  decide!

/-- The `float` literal `0.05f`: same significand, exponent `-28`. -/
lemma round_float_twentieth : round_float (1 / 20) = 13421773 / 268435456 := by
  decide!

lemma oversupply_eq_neg (status : ProductionStatus) (t : ProductType) :
    oversupply status t = - sales_imbalance status t := by
  simp only [oversupply, sales_imbalance]
  rw [← round_float_neg]
  congr 1
  ring

/-! ### Staffing decisions -/

lemma analyze_donor_search (status : ProductionStatus) (D : ProductType)
    (hD : D ≠ PRODUCT_PASTE) (hD20 : round_float (1 / 20) < oversupply status D)
    (hD1 : oversupply status D < 1)
    (hbread : round_float (1 / 20) < oversupply status PRODUCT_BREAD →
      oversupply status D < oversupply status PRODUCT_BREAD) :
    ∃ (D' : ProductType) (w : ℚ) (team_from : ChefType),
      all_products.foldl (min_imbalance_step status) (1, none) = (w, some D') ∧
      team_of_product D' = some team_from := by
  obtain ⟨_, hle, hcases⟩ := min_scan_spec status all_products (1, none)
  have hleD := hle D (mem_all_products D) hD hD20
  rcases hcases with hsame | ⟨D', _, hD'p, hD'20, _, hfound_min⟩
  · rw [hsame] at hleD
    exact absurd hleD (not_le.mpr hD1)
  · rw [hfound_min] at hleD
    have hD'b : D' ≠ PRODUCT_BREAD := by
      intro e
      rw [e] at hD'20 hleD
      exact absurd hleD (not_le.mpr (hbread hD'20))
    obtain ⟨team_from, hfrom⟩ : ∃ team_from, team_of_product D' = some team_from := by
      cases D' <;> simp [team_of_product] at hD'b hD'p ⊢
    exact ⟨D', _, team_from, hfound_min, hfrom⟩

/-- The decision on the ledger of scenario 5: one worker from the Cake chefs to
the Sweet chefs. -/
lemma scenario5_decision :
    analyze_production_needs ledger_scenario5 (roster fun _ => 2) =
      { msg_type := MSG_MANAGEMENT_DECISION, chef_type_from := CHEF_CAKE,
        chef_type_to := CHEF_SWEET, num_chefs_to_move := 1 } := by
  have h : (analyze_production_needs ledger_scenario5 (roster fun _ => 2)).msg_type =
        MSG_MANAGEMENT_DECISION ∧
      (analyze_production_needs ledger_scenario5 (roster fun _ => 2)).chef_type_from =
        CHEF_CAKE ∧
      (analyze_production_needs ledger_scenario5 (roster fun _ => 2)).chef_type_to =
        CHEF_SWEET ∧
      (analyze_production_needs ledger_scenario5 (roster fun _ => 2)).num_chefs_to_move =
        1 := by
    decide!
  obtain ⟨h1, h2, h3, h4⟩ := h
  generalize analyze_production_needs ledger_scenario5 (roster fun _ => 2) = m at h1 h2 h3 h4
  cases m
  simp only at h1 h2 h3 h4
  subst h1 h2 h3 h4
  rfl

lemma management_iteration_teams (status : ProductionStatus) (teams : Nat → ChefTeam)
    (mgmt_data : ManagementData) (config : BakeryConfig) (current_time now : Int)
    (lock_ok unlock_ok : Bool)
    (h : (analyze_production_needs status teams).num_chefs_to_move = 0) :
    (management_iteration status teams mgmt_data config current_time now lock_ok
      unlock_ok).teams = teams := by
  unfold management_iteration
  generalize analyze_production_needs status teams = decision at h
  simp only [h, lt_self_iff_false, if_false, gt_iff_lt]
  split_ifs <;> rfl

/-- C12 fails as stated, at four ledgers; in each the largest exact shortage
`sold/total_sold - produced/total_produced` is positive and attained by a type
that is neither bread nor paste, the non-paste type with the smallest exact
oversupply above 0.05 exists and is not bread, and no worker is moved.
(1) Sweets short by 0.08, cakes oversupplied by 0.08: the shortage is not above
the bar `0.1f` of the code.  (2) Bread and cake tie for the largest shortage 0.3
in exact and in `float` arithmetic: the search keeps bread, the first type of
the tie.  (3) Cakes short by 1 and sweets oversupplied by exactly 1: the donor
search only accepts values below `1.0f`.  (4) Sandwiches and paste tie exactly
for the largest shortage 1/6, sweets are oversupplied by 1/3: in `float`
arithmetic the shortage of paste, `2/3 - 1/2`, rounds to a larger value than
that of sandwiches, `1/3 - 1/6`, and the search ends on paste. -/
theorem analyze_ignores_small_tied_or_full_imbalance :
    ((∀ t, exact_sales_imbalance ledger_mild_imbalance t ≤
        exact_sales_imbalance ledger_mild_imbalance PRODUCT_SWEET) ∧
      0 < exact_sales_imbalance ledger_mild_imbalance PRODUCT_SWEET ∧
      1 / 20 < exact_oversupply ledger_mild_imbalance PRODUCT_CAKE ∧
      (∀ t, t ≠ PRODUCT_PASTE → 1 / 20 < exact_oversupply ledger_mild_imbalance t →
        exact_oversupply ledger_mild_imbalance PRODUCT_CAKE ≤
          exact_oversupply ledger_mild_imbalance t) ∧
      (analyze_production_needs ledger_mild_imbalance (roster fun _ => 2)).num_chefs_to_move
        = 0) ∧
    ((∀ t, exact_sales_imbalance ledger_bread_tie t ≤
        exact_sales_imbalance ledger_bread_tie PRODUCT_CAKE) ∧
      0 < exact_sales_imbalance ledger_bread_tie PRODUCT_CAKE ∧
      1 / 20 < exact_oversupply ledger_bread_tie PRODUCT_SWEET ∧
      (∀ t, t ≠ PRODUCT_PASTE → 1 / 20 < exact_oversupply ledger_bread_tie t →
        exact_oversupply ledger_bread_tie PRODUCT_SWEET ≤
          exact_oversupply ledger_bread_tie t) ∧
      (analyze_production_needs ledger_bread_tie (roster fun _ => 2)).num_chefs_to_move = 0) ∧
    ((∀ t, exact_sales_imbalance ledger_full_oversupply t ≤
        exact_sales_imbalance ledger_full_oversupply PRODUCT_CAKE) ∧
      0 < exact_sales_imbalance ledger_full_oversupply PRODUCT_CAKE ∧
      1 / 20 < exact_oversupply ledger_full_oversupply PRODUCT_SWEET ∧
      (∀ t, t ≠ PRODUCT_PASTE → 1 / 20 < exact_oversupply ledger_full_oversupply t →
        exact_oversupply ledger_full_oversupply PRODUCT_SWEET ≤
          exact_oversupply ledger_full_oversupply t) ∧
      (analyze_production_needs ledger_full_oversupply (roster fun _ => 2)).num_chefs_to_move
        = 0) ∧
    ((∀ t, exact_sales_imbalance ledger_rounded_tie t ≤
        exact_sales_imbalance ledger_rounded_tie PRODUCT_SANDWICH) ∧
      0 < exact_sales_imbalance ledger_rounded_tie PRODUCT_SANDWICH ∧
      1 / 20 < exact_oversupply ledger_rounded_tie PRODUCT_SWEET ∧
      (∀ t, t ≠ PRODUCT_PASTE → 1 / 20 < exact_oversupply ledger_rounded_tie t →
        exact_oversupply ledger_rounded_tie PRODUCT_SWEET ≤
          exact_oversupply ledger_rounded_tie t) ∧
      sales_imbalance ledger_rounded_tie PRODUCT_SANDWICH <
        sales_imbalance ledger_rounded_tie PRODUCT_PASTE ∧
      (analyze_production_needs ledger_rounded_tie (roster fun _ => 2)).num_chefs_to_move
        = 0) := by
  refine ⟨?_, ?_, ?_, ?_⟩ <;> decide!

/-- C12 (amended): with the ratios, their differences and the two bars taken as
the code computes them in `float` arithmetic: when the largest value of
`sales_ratio - production_ratio` is above `0.1f` and `T`, neither bread nor
paste, is the first type in enum order that attains it, and some non-paste type
`D` has an oversupply `production_ratio - sales_ratio` strictly between `0.05f`
and 1 that bread, if it is above `0.05f` itself, neither undercuts nor ties,
`analyze_production_needs` decides to move exactly one worker to the chef role
that produces `T`. -/
theorem analyze_moves_to_first_largest_shortage (status : ProductionStatus)
    (teams : Nat → ChefTeam) (T D : ProductType)
    (hmax : ∀ t, sales_imbalance status t ≤ sales_imbalance status T)
    (hfirst : ∀ t, product_index t < product_index T →
      sales_imbalance status t < sales_imbalance status T)
    (hbig : round_float (1 / 10) < sales_imbalance status T)
    (hTb : T ≠ PRODUCT_BREAD) (hTp : T ≠ PRODUCT_PASTE)
    (hD : D ≠ PRODUCT_PASTE) (hD20 : round_float (1 / 20) < oversupply status D)
    (hD1 : oversupply status D < 1)
    (hbread : round_float (1 / 20) < oversupply status PRODUCT_BREAD →
      oversupply status D < oversupply status PRODUCT_BREAD) :
    (analyze_production_needs status teams).num_chefs_to_move = 1 ∧
    chef_product_type (analyze_production_needs status teams).chef_type_to = some T := by
  have h10 : (0 : ℚ) < round_float (1 / 10) := by
    rw [round_float_tenth]
    norm_num
  have hfound_max := max_scan_all_products status T hfirst hmax (by linarith)
  obtain ⟨team_to, hto⟩ : ∃ team_to, team_of_product T = some team_to := by
    cases T <;> simp [team_of_product] at hTb hTp ⊢
  obtain ⟨D', w, team_from, hfound_min, hfrom⟩ :=
    analyze_donor_search status D hD hD20 hD1 hbread
  rw [analyze_of_found status teams _ w T D' team_to team_from hfound_max hbig hto
    hfound_min hfrom]
  exact ⟨rfl, team_of_product_produces T team_to hto⟩

/-- C12 (amended) at the input of scenario 5: sweets short by 0.2, cakes
oversupplied by 0.08; one worker is sent to the Sweet chefs. -/
theorem analyze_moves_to_first_largest_shortage_witness :
    (analyze_production_needs ledger_scenario5 (roster fun _ => 2)).num_chefs_to_move = 1 ∧
    chef_product_type
      (analyze_production_needs ledger_scenario5 (roster fun _ => 2)).chef_type_to =
        some PRODUCT_SWEET :=
  analyze_moves_to_first_largest_shortage ledger_scenario5 (roster fun _ => 2)
    PRODUCT_SWEET PRODUCT_CAKE (by decide!) (by decide!) (by decide!)
    (by decide) (by decide) (by decide) (by decide!) (by decide!) (by decide!)

/-- C13 fails as stated.  With three sweets, five savory pastries and two units
of paste produced, one sweet and three savory pastries sold, no non-paste type
has an exact oversupply above 0.05 (that of sweets is exactly 0.05), but in
`float` arithmetic `0.3f - 0.25f` is above `0.05f`: a worker is moved from the
Sweet chefs to the Savory-pastry chefs. -/
theorem analyze_takes_donor_at_exact_floor :
    (∀ t, t ≠ PRODUCT_PASTE → ¬ 1 / 20 < exact_oversupply ledger_rounded_floor t) ∧
    exact_oversupply ledger_rounded_floor PRODUCT_SWEET = 1 / 20 ∧
    round_float (1 / 20) < oversupply ledger_rounded_floor PRODUCT_SWEET ∧
    (analyze_production_needs ledger_rounded_floor (roster fun _ => 2)).num_chefs_to_move
      = 1 ∧
    (analyze_production_needs ledger_rounded_floor (roster fun _ => 2)).chef_type_from
      = CHEF_SWEET ∧
    (analyze_production_needs ledger_rounded_floor (roster fun _ => 2)).chef_type_to
      = CHEF_SAVORY_PATISSERIE := by
  decide!

/-- C13 (amended): with the ratios, their difference and the floor taken as the
code computes them in `float` arithmetic: whenever `analyze_production_needs`
decides to move a worker, the donor `chef_type_from` is the chef role that
produces a non-paste type whose `production_ratio - sales_ratio` is above
`0.05f` and smallest among all non-paste types above `0.05f`; and when no
non-paste type is above `0.05f`, no worker is moved. -/
theorem analyze_donor_has_smallest_oversupply (status : ProductionStatus)
    (teams : Nat → ChefTeam) :
    ((analyze_production_needs status teams).num_chefs_to_move > 0 →
      ∃ D, D ≠ PRODUCT_PASTE ∧ round_float (1 / 20) < oversupply status D ∧
        (∀ t, t ≠ PRODUCT_PASTE → round_float (1 / 20) < oversupply status t →
          oversupply status D ≤ oversupply status t) ∧
        chef_product_type (analyze_production_needs status teams).chef_type_from = some D) ∧
    ((∀ t, t ≠ PRODUCT_PASTE → ¬ round_float (1 / 20) < oversupply status t) →
      (analyze_production_needs status teams).num_chefs_to_move = 0) := by
  obtain ⟨_, hle, hcases⟩ := min_scan_spec status all_products (1, none)
  constructor
  · intro hmove
    obtain ⟨D, hD, hteam, _⟩ := analyze_move_inv status teams hmove
    rcases hcases with hsame | ⟨D', _, hD'p, hD'20, _, hfound⟩
    · rw [hsame] at hD
      exact absurd hD (by simp)
    · rw [hfound] at hD hle
      have hDD : D' = D := by simpa using hD
      subst hDD
      exact ⟨D', hD'p, hD'20, fun t htp ht20 => hle t (mem_all_products t) htp ht20,
        team_of_product_produces D' _ hteam⟩
  · intro hnone
    apply analyze_of_no_donor
    rcases hcases with hsame | ⟨D', _, hD'p, hD'20, _, _⟩
    · rw [hsame]
    · exact absurd hD'20 (hnone D' hD'p)

/-- C13 (amended) at the input of scenario 5: the worker is taken from the Cake
chefs, whose product has the smallest oversupply above `0.05f` (0.08 against
0.12 for sandwiches). -/
theorem analyze_donor_has_smallest_oversupply_witness :
    ∃ D, D ≠ PRODUCT_PASTE ∧ round_float (1 / 20) < oversupply ledger_scenario5 D ∧
      (∀ t, t ≠ PRODUCT_PASTE → round_float (1 / 20) < oversupply ledger_scenario5 t →
        oversupply ledger_scenario5 D ≤ oversupply ledger_scenario5 t) ∧
      chef_product_type
        (analyze_production_needs ledger_scenario5 (roster fun _ => 2)).chef_type_from =
          some D := by
  refine (analyze_donor_has_smallest_oversupply ledger_scenario5 (roster fun _ => 2)).1 ?_
  rw [scenario5_decision]
  decide

/-- C14 fails as stated.  With one bread, two cakes and three savory pastries
produced, one bread and two savory pastries sold, bread attains the largest
exact shortage (1/6, tied with savory pastries), but in `float` arithmetic the
shortage of savory pastries, `2/3 - 1/2`, rounds to a larger value than that of
bread, `1/3 - 1/6`: a worker is moved from the Cake chefs to the Savory-pastry
chefs, and the management cycle changes two team sizes. -/
theorem analyze_moves_on_exact_tie_with_bread :
    (∀ t, exact_sales_imbalance ledger_rounded_bread_tie t ≤
      exact_sales_imbalance ledger_rounded_bread_tie PRODUCT_BREAD) ∧
    sales_imbalance ledger_rounded_bread_tie PRODUCT_BREAD <
      sales_imbalance ledger_rounded_bread_tie PRODUCT_SAVORY_PATISSERIE ∧
    (analyze_production_needs ledger_rounded_bread_tie (roster fun _ => 2)).num_chefs_to_move
      = 1 ∧
    (analyze_production_needs ledger_rounded_bread_tie (roster fun _ => 2)).chef_type_from
      = CHEF_CAKE ∧
    (analyze_production_needs ledger_rounded_bread_tie (roster fun _ => 2)).chef_type_to
      = CHEF_SAVORY_PATISSERIE ∧
    ((management_iteration ledger_rounded_bread_tie (roster fun _ => 2)
      { last_decision_time := 0, decision_count := 0 } config_sample 60 60 true
      true).teams CHEF_CAKE).team_size = 1 ∧
    ((management_iteration ledger_rounded_bread_tie (roster fun _ => 2)
      { last_decision_time := 0, decision_count := 0 } config_sample 60 60 true
      true).teams CHEF_SAVORY_PATISSERIE).team_size = 3 := by
  decide!

/-- C14 (amended): with the ratios and their difference taken as the code
computes them in `float` arithmetic: when bread attains the largest
`sales_ratio - production_ratio`, or when no product type has a positive one (as
in the all-zero ledger), `analyze_production_needs` moves no worker and the
management cycle leaves the roster as it is. -/
theorem analyze_moves_nobody_for_bread_or_no_shortage (status : ProductionStatus)
    (teams : Nat → ChefTeam)
    (h : (∀ t, sales_imbalance status t ≤ sales_imbalance status PRODUCT_BREAD) ∨
      (∀ t, ¬ 0 < sales_imbalance status t)) :
    (analyze_production_needs status teams).num_chefs_to_move = 0 ∧
    ∀ (mgmt_data : ManagementData) (config : BakeryConfig) (current_time now : Int)
      (lock_ok unlock_ok : Bool),
      (management_iteration status teams mgmt_data config current_time now lock_ok
        unlock_ok).teams = teams := by
  have h10 : (0 : ℚ) < round_float (1 / 10) := by
    rw [round_float_tenth]
    norm_num
  have hzero : (analyze_production_needs status teams).num_chefs_to_move = 0 := by
    rcases h with hbread | hnone
    · by_cases hgt : -1 < sales_imbalance status PRODUCT_BREAD
      · exact analyze_of_max_bread status teams _
          (max_scan_all_products status PRODUCT_BREAD
            (fun t ht => by cases t <;> simp [product_index] at ht) hbread hgt)
      · apply analyze_of_small_max
        rw [max_scan_unchanged status all_products (-1, none)
          (fun t _ => le_trans (hbread t) (not_lt.mp hgt))]
        apply not_lt.mpr
        show (-1 : ℚ) ≤ round_float (1 / 10)
        linarith
    · apply analyze_of_small_max
      apply not_lt.mpr
      have hb := max_scan_bound status 0 all_products (-1, none) (by norm_num)
        (fun t _ => not_lt.mp (hnone t))
      linarith
  exact ⟨hzero, fun mgmt_data config current_time now lock_ok unlock_ok =>
    management_iteration_teams status teams mgmt_data config current_time now lock_ok
      unlock_ok hzero⟩

/-- C14 (amended) at a concrete input: on the all-zero ledger no type has a
positive shortage and no worker is moved. -/
theorem analyze_moves_nobody_for_bread_or_no_shortage_witness :
    (analyze_production_needs ledger_empty (roster fun _ => 2)).num_chefs_to_move = 0 :=
  (analyze_moves_nobody_for_bread_or_no_shortage ledger_empty (roster fun _ => 2)
    (Or.inr (by decide!))).1

/-! ### The active flag -/

lemma produce_item_active (type : ChefType) (inventory : Inventory)
    (status : ProductionStatus) :
    (produce_item type inventory status).2.simulation_active = status.simulation_active := by
  match type with
  | 0 => rfl
  | 1 => rfl
  | 2 => rfl
  | 3 => rfl
  | 4 => rfl
  | 5 => rfl
  | n + 6 => rfl

lemma chef_iteration_active (type : ChefType) (inventory : Inventory)
    (status : ProductionStatus) (inv_lock_ok prod_lock_ok : Bool) :
    (chef_iteration type inventory status inv_lock_ok prod_lock_ok).2.simulation_active =
      status.simulation_active := by
  unfold chef_iteration
  cases chef_product_type type with
  | none => rfl
  | some p =>
    dsimp only
    split_ifs <;> first | rfl | exact produce_item_active type inventory status

lemma bake_products_active (type : BakerType) (status : ProductionStatus)
    (config : BakeryConfig) :
    (bake_products type status config).2.simulation_active = status.simulation_active := by
  match type with
  | 0 => simp only [bake_products]; split_ifs <;> rfl
  | 1 => simp only [bake_products]; split_ifs <;> rfl
  | 2 => simp only [bake_products]; split_ifs <;> rfl
  | n + 3 => rfl

lemma handle_customer_request_active (request : CustomerMsg) (status : ProductionStatus)
    (config : BakeryConfig) (customers_served : Int) :
    (handle_customer_request request status config customers_served).2.1.simulation_active =
      status.simulation_active := by
  cases h : check_product_availability request.product_type request.subtype request.quantity
    status
  · rw [handle_customer_request_of_rejected _ _ _ _ h]
  · rw [handle_customer_request_of_accepted _ _ _ _ h]

lemma customer_process_active (id : Int) (items : List CustomerItem)
    (status : ProductionStatus) (config : BakeryConfig) (lock_ok : Bool) (complaint_draw : ℚ)
    (complaint_send_ok : Bool) :
    (customer_process id items status config lock_ok complaint_draw
      complaint_send_ok).1.simulation_active = status.simulation_active := by
  simp only [customer_process, customer_final_update]
  split_ifs <;> rfl

lemma management_iteration_active (status : ProductionStatus) (teams : Nat → ChefTeam)
    (mgmt_data : ManagementData) (config : BakeryConfig) (current_time now : Int)
    (lock_ok unlock_ok : Bool) :
    (management_iteration status teams mgmt_data config current_time now lock_ok
      unlock_ok).status.simulation_active =
      if current_time - mgmt_data.last_decision_time ≥ 60 ∧ lock_ok = true ∧
          unlock_ok = true ∧ check_end_conditions status config now = true
      then false else status.simulation_active := by
  unfold management_iteration
  generalize analyze_production_needs status teams = decision
  cases lock_ok <;> cases unlock_ok <;>
    cases check_end_conditions status config now <;>
    by_cases h : current_time - mgmt_data.last_decision_time ≥ 60 <;> simp [h]

/-- C11: the active flag never goes from false to true: every step of a core
operation that starts with `simulation_active = false` ends with it false; and
a management loop iteration changes the flag only when `check_end_conditions`
reported true in that iteration, and then to false. -/
theorem active_flag_never_rises :
    (∀ w w', core_step w w' → w.status.simulation_active = false →
      w'.status.simulation_active = false) ∧
    (∀ (status : ProductionStatus) (teams : Nat → ChefTeam) (mgmt_data : ManagementData)
      (config : BakeryConfig) (current_time now : Int) (lock_ok unlock_ok : Bool),
      (management_iteration status teams mgmt_data config current_time now lock_ok
        unlock_ok).status.simulation_active ≠ status.simulation_active →
      check_end_conditions status config now = true ∧
      (management_iteration status teams mgmt_data config current_time now lock_ok
        unlock_ok).status.simulation_active = false) := by
  constructor
  · intro w w' hstep hoff
    cases hstep with
    | chef type inv_lock_ok prod_lock_ok =>
      exact (chef_iteration_active type w.inventory w.status inv_lock_ok prod_lock_ok).trans hoff
    | produce type => exact (produce_item_active type w.inventory w.status).trans hoff
    | bake type config => exact (bake_products_active type w.status config).trans hoff
    | sell request config customers_served =>
      exact (handle_customer_request_active request w.status config customers_served).trans hoff
    | complain complaint => exact hoff
    | customer id items config lock_ok complaint_draw complaint_send_ok =>
      exact (customer_process_active id items w.status config lock_ok complaint_draw
        complaint_send_ok).trans hoff
    | supply config rand => exact hoff
    | manage teams mgmt_data config current_time now lock_ok unlock_ok =>
      show (management_iteration w.status teams mgmt_data config current_time now lock_ok
        unlock_ok).status.simulation_active = false
      rw [management_iteration_active]
      split_ifs
      · rfl
      · exact hoff
    | signal => rfl
  · intro status teams mgmt_data config current_time now lock_ok unlock_ok hchange
    rw [management_iteration_active] at hchange ⊢
    split_ifs at hchange ⊢ with hc
    · exact ⟨hc.2.2.2, rfl⟩
    · exact absurd rfl hchange

/-- C11 at a concrete input: a management iteration that finds the profit
threshold reached, run on a ledger whose flag is already false, leaves it
false. -/
theorem active_flag_never_rises_witness :
    (management_iteration shared_stopped.status (roster fun _ => 2)
      { last_decision_time := 0, decision_count := 0 } config_sample 60 60 true
      true).status.simulation_active = false :=
  active_flag_never_rises.1 shared_stopped _
    (core_step.manage shared_stopped (roster fun _ => 2)
      { last_decision_time := 0, decision_count := 0 } config_sample 60 60 true true)
    (by decide)

/-! ### Frame and monotonicity of the ledger counters -/

/-- C22: `handle_customer_complaint` adds exactly 1 to `complained_customers`
and leaves every other ledger field (produced, sold, `frustrated_customers`,
`missing_items_requests`, `total_profit`, `start_time`, `simulation_active`)
unchanged. -/
theorem handle_customer_complaint_frame (complaint : CustomerMsg)
    (status : ProductionStatus) :
    (handle_customer_complaint complaint status).complained_customers =
      status.complained_customers + 1 ∧
    (handle_customer_complaint complaint status).produced_items = status.produced_items ∧
    (handle_customer_complaint complaint status).sold_items = status.sold_items ∧
    (handle_customer_complaint complaint status).frustrated_customers =
      status.frustrated_customers ∧
    (handle_customer_complaint complaint status).missing_items_requests =
      status.missing_items_requests ∧
    (handle_customer_complaint complaint status).total_profit = status.total_profit ∧
    (handle_customer_complaint complaint status).start_time = status.start_time ∧
    (handle_customer_complaint complaint status).simulation_active =
      status.simulation_active := by
  unfold handle_customer_complaint
  exact ⟨rfl, rfl, rfl, rfl, rfl, rfl, rfl, rfl⟩

lemma counters_monotone_refl (s : ProductionStatus) : counters_monotone s s :=
  ⟨le_refl _, le_refl _, le_refl _, le_refl _⟩

lemma produce_item_counters (type : ChefType) (inventory : Inventory)
    (status : ProductionStatus) :
    counters_monotone status (produce_item type inventory status).2 := by
  match type with
  | 0 => exact counters_monotone_refl status
  | 1 => exact counters_monotone_refl status
  | 2 => exact counters_monotone_refl status
  | 3 => exact counters_monotone_refl status
  | 4 => exact counters_monotone_refl status
  | 5 => exact counters_monotone_refl status
  | n + 6 => exact counters_monotone_refl status

lemma bake_products_counters (type : BakerType) (status : ProductionStatus)
    (config : BakeryConfig) :
    counters_monotone status (bake_products type status config).2 := by
  match type with
  | 0 => simp only [bake_products]; split_ifs <;> exact counters_monotone_refl status
  | 1 => simp only [bake_products]; split_ifs <;> exact counters_monotone_refl status
  | 2 => simp only [bake_products]; split_ifs <;> exact counters_monotone_refl status
  | n + 3 => exact counters_monotone_refl status

/-- C23: with non-negative product prices, `produce_item`, `bake_products`,
`handle_customer_request` (for a request with `quantity >= 0`),
`handle_customer_complaint` and the customer's final update each leave
`frustrated_customers`, `complained_customers`, `missing_items_requests` and
`total_profit` at or above their value before the operation. -/
theorem ledger_counters_never_decrease (config : BakeryConfig)
    (hprice : ∀ t, 0 ≤ config.product_prices t) :
    (∀ (type : ChefType) (inventory : Inventory) (status : ProductionStatus),
      counters_monotone status (produce_item type inventory status).2) ∧
    (∀ (type : BakerType) (status : ProductionStatus),
      counters_monotone status (bake_products type status config).2) ∧
    (∀ (request : CustomerMsg) (status : ProductionStatus) (customers_served : Int),
      0 ≤ request.quantity →
      counters_monotone status
        (handle_customer_request request status config customers_served).2.1) ∧
    (∀ (complaint : CustomerMsg) (status : ProductionStatus),
      counters_monotone status (handle_customer_complaint complaint status)) ∧
    (∀ (all_requests_fulfilled : Bool) (status : ProductionStatus),
      counters_monotone status (customer_final_update all_requests_fulfilled status)) := by
  refine ⟨produce_item_counters, fun type status => bake_products_counters type status config,
    ?_, ?_, ?_⟩
  · intro request status customers_served hq
    cases h : check_product_availability request.product_type request.subtype
      request.quantity status
    · rw [handle_customer_request_of_rejected _ _ _ _ h]
      exact ⟨le_refl _, le_refl _, by simp, le_refl _⟩
    · rw [handle_customer_request_of_accepted _ _ _ _ h]
      refine ⟨le_refl _, le_refl _, le_refl _, ?_⟩
      exact Double.le_add_of_nonneg _ _
        (Double.mul_nonneg _ _ (hprice request.product_type) (Double.of_int_nonneg _ hq))
  · intro complaint status
    exact ⟨le_refl _, by simp [handle_customer_complaint], le_refl _, le_refl _⟩
  · intro all_requests_fulfilled status
    cases all_requests_fulfilled
    · exact ⟨by simp [customer_final_update], le_refl _, le_refl _, le_refl _⟩
    · exact counters_monotone_refl status

/-- C23 at a concrete input: selling one cake at price 4 from the cake ledger
leaves the four counters at or above their old values. -/
theorem ledger_counters_never_decrease_witness :
    counters_monotone ledger_cake
      (handle_customer_request (request_cake 1) ledger_cake config_sample 0).2.1 :=
  (ledger_counters_never_decrease config_sample
    (fun _ => (by decide! : (0 : Double) ≤ 4))).2.2.1
    (request_cake 1) ledger_cake 0 (by decide)

/-! ### What one baking attempt bakes -/

/-- C25 fails as stated: on the ledger with ten cakes and no sweets, both below
the cap of fifty, a CakeSweet baker bakes a cake and leaves the sweets at 0. -/
theorem bake_products_skips_second_type :
    ledger_cake.produced_items PRODUCT_CAKE < config_sample.max_items_per_type PRODUCT_CAKE ∧
    ledger_cake.produced_items PRODUCT_SWEET < config_sample.max_items_per_type PRODUCT_SWEET ∧
    (bake_products BAKER_CAKE_SWEET ledger_cake config_sample).2.produced_items PRODUCT_CAKE
      = 11 ∧
    (bake_products BAKER_CAKE_SWEET ledger_cake config_sample).2.produced_items PRODUCT_SWEET
      = 0 := by
  decide

/-- C25 (amended): one call of `bake_products` raises by exactly 1 the produced
counter of the first type of a CakeSweet or Pastry baker when it is below its
cap, otherwise of the second type when that one is below its cap, and of each
of bread and sandwich below its cap for a Bread baker; every other produced
counter keeps its value. -/
theorem bake_products_bakes (type : BakerType) (status : ProductionStatus)
    (config : BakeryConfig) (t : ProductType) :
    (bake_products type status config).2.produced_items t =
      status.produced_items t + (if baker_bakes type status config t = true then 1 else 0) := by
  match type with
  | 0 =>
    cases t
    all_goals
      simp only [bake_products, baker_bakes]
      split_ifs
      all_goals
        try simp_all [incr_produced, setAt]
        try omega
  | 1 =>
    cases t
    all_goals
      simp only [bake_products, baker_bakes]
      split_ifs
      all_goals
        try simp_all [incr_produced, setAt]
        try omega
  | 2 =>
    cases t
    all_goals
      simp only [bake_products, baker_bakes]
      split_ifs
      all_goals
        try simp_all [incr_produced, setAt]
        try omega
  | n + 3 =>
    simp [bake_products, baker_bakes]

/-! ### The sandwich chef and bread -/

/-- C26 on the code: with five units of cheese/salami and no bread at all, a
Sandwich chef iteration still produces a sandwich, and `sold[Bread]` stays 0. -/
theorem sandwich_chef_ignores_bread :
    ledger_empty.produced_items PRODUCT_BREAD - ledger_empty.sold_items PRODUCT_BREAD ≤ 0 ∧
    (chef_iteration CHEF_SANDWICH inventory_stocked ledger_empty true true).2.produced_items
      PRODUCT_SANDWICH = 1 ∧
    (chef_iteration CHEF_SANDWICH inventory_stocked ledger_empty true true).2.sold_items
      PRODUCT_BREAD = 0 := by
  decide

/-! ### Reallocation: conservation and rejected requests -/

/-- C27: `reallocate_chefs` preserves the sum of `team_size` over the six chef
teams, for valid and invalid roles and for every count. -/
theorem reallocate_chefs_preserves_total (teams : Nat → ChefTeam)
    (from_team to_team : ChefType) (num_to_move : Int) :
    total_team_size (reallocate_chefs teams from_team to_team num_to_move) =
      total_team_size teams := by
  by_cases hv : from_team ≥ CHEF_TYPE_COUNT ∨ to_team ≥ CHEF_TYPE_COUNT ∨ from_team = to_team
  · rw [reallocate_chefs_invalid _ _ _ _ hv]
  · have hv2 := hv
    simp only [ge_iff_le, not_or, not_le] at hv2
    obtain ⟨hf, ht, hne⟩ := hv2
    have h0 := reallocate_chefs_team_size teams from_team to_team num_to_move hv 0
    have h1 := reallocate_chefs_team_size teams from_team to_team num_to_move hv 1
    have h2 := reallocate_chefs_team_size teams from_team to_team num_to_move hv 2
    have h3 := reallocate_chefs_team_size teams from_team to_team num_to_move hv 3
    have h4 := reallocate_chefs_team_size teams from_team to_team num_to_move hv 4
    have h5 := reallocate_chefs_team_size teams from_team to_team num_to_move hv 5
    simp only [total_team_size, CHEF_TYPE_COUNT, List.range, List.range.loop, List.map_cons,
      List.map_nil, List.sum_cons, List.sum_nil, h0, h1, h2, h3, h4, h5]
    generalize moved_count (teams from_team).team_size num_to_move = k
    have hf' : from_team < 6 := hf
    have ht' : to_team < 6 := ht
    interval_cases from_team <;> interval_cases to_team <;> simp at hne ⊢ <;> omega

/-- C29: a call of `reallocate_chefs` whose donor role equals its target role,
or whose donor or target role is not one of the six chef roles, leaves every
team's `team_size` unchanged, whatever the count. -/
theorem reallocate_chefs_rejects_invalid (teams : Nat → ChefTeam)
    (from_team to_team : ChefType) (num_to_move : Int)
    (h : from_team = to_team ∨ from_team ≥ CHEF_TYPE_COUNT ∨ to_team ≥ CHEF_TYPE_COUNT) :
    ∀ i, (reallocate_chefs teams from_team to_team num_to_move i).team_size =
      (teams i).team_size := by
  intro i
  have hv : from_team ≥ CHEF_TYPE_COUNT ∨ to_team ≥ CHEF_TYPE_COUNT ∨ from_team = to_team := by
    rcases h with h | h | h
    · exact Or.inr (Or.inr h)
    · exact Or.inl h
    · exact Or.inr (Or.inl h)
  rw [reallocate_chefs_invalid _ _ _ _ hv]

/-- C29 at a concrete input: moving three workers from the Cake team to itself,
or from role 9, changes no team of the roster of pairs. -/
theorem reallocate_chefs_rejects_invalid_witness :
    (reallocate_chefs (roster fun _ => 2) CHEF_CAKE CHEF_CAKE 3 CHEF_CAKE).team_size = 2 ∧
    (reallocate_chefs (roster fun _ => 2) 9 CHEF_CAKE 3 CHEF_CAKE).team_size = 2 :=
  ⟨reallocate_chefs_rejects_invalid (roster fun _ => 2) CHEF_CAKE CHEF_CAKE 3
      (Or.inl rfl) CHEF_CAKE,
    reallocate_chefs_rejects_invalid (roster fun _ => 2) 9 CHEF_CAKE 3
      (Or.inr (Or.inl (by decide))) CHEF_CAKE⟩

/-! ### The seller's response -/

/-- C21 fails as stated: when the locking `semop` fails, the request has been
taken from the queue and the pass is abandoned without a response. -/
theorem seller_iteration_drops_request_on_failed_lock :
    (request_cake 1).is_complaint = false ∧
    (seller_iteration (some (request_cake 1)) ledger_cake config_sample 0 false).sent = none :=
  ⟨rfl, rfl⟩

/-- C21 (amended): for every non-complaint request received by a seller that
obtains the ledger lock, the pass hands exactly one response to `msgsnd`,
fulfilled or not: its tag is `customer_id + MSG_CUSTOMER_RESPONSE_BASE`, the
tag the customer polls for; customer id, product type, subtype and quantity are
the request's; and `fulfilled` is the result of `check_product_availability` on
the ledger before the update. -/
theorem seller_iteration_responds (customer_msg : CustomerMsg) (status : ProductionStatus)
    (config : BakeryConfig) (customers_served : Int)
    (hreq : customer_msg.is_complaint = false) :
    ∃ response,
      (seller_iteration (some customer_msg) status config customers_served true).sent =
        some response ∧
      response.msg_type = customer_poll_tag customer_msg.customer_id ∧
      response.msg_type = customer_msg.customer_id + 100 ∧
      response.customer_id = customer_msg.customer_id ∧
      response.product_type = customer_msg.product_type ∧
      response.subtype = customer_msg.subtype ∧
      response.quantity = customer_msg.quantity ∧
      response.fulfilled = check_product_availability customer_msg.product_type
        customer_msg.subtype customer_msg.quantity status := by
  cases h : check_product_availability customer_msg.product_type customer_msg.subtype
    customer_msg.quantity status
  · refine ⟨{ customer_msg with
        fulfilled := false,
        msg_type := customer_msg.customer_id + MSG_CUSTOMER_RESPONSE_BASE },
      ?_, rfl, rfl, rfl, rfl, rfl, rfl, rfl⟩
    simp [seller_iteration, hreq, handle_customer_request_of_rejected _ _ _ _ h]
  · refine ⟨{ customer_msg with
        fulfilled := true,
        msg_type := customer_msg.customer_id + MSG_CUSTOMER_RESPONSE_BASE },
      ?_, rfl, rfl, rfl, rfl, rfl, rfl, rfl⟩
    simp [seller_iteration, hreq, handle_customer_request_of_accepted _ _ _ _ h]

/-- C21 (amended) at a concrete input: the request of customer 1 for three
cakes, rejected on the cake ledger, is answered with tag 101 and
`fulfilled = false`. -/
theorem seller_iteration_responds_witness :
    ∃ response,
      (seller_iteration (some (request_cake 3)) ledger_cake config_sample 0 true).sent =
        some response ∧
      response.msg_type = 101 ∧ response.fulfilled = false := by
  obtain ⟨response, hsent, _, htag, _, _, _, _, hful⟩ :=
    seller_iteration_responds (request_cake 3) ledger_cake config_sample 0 (by decide)
  exact ⟨response, hsent, htag.trans (by decide), hful.trans (by decide)⟩

/-! ### Donor and target of a staffing decision -/

lemma max_scan_spec (status : ProductionStatus) :
    ∀ (l : List ProductType) (acc : ℚ × Option ProductType),
      l.foldl (max_imbalance_step status) acc = acc ∨
      ∃ T, l.foldl (max_imbalance_step status) acc = (sales_imbalance status T, some T) := by
  intro l
  induction l with
  | nil => intro acc; exact Or.inl rfl
  | cons a l ih =>
    intro acc
    rw [List.foldl_cons]
    by_cases ha : round_float (sales_ratios status a - production_ratios status a) > acc.1
    · have hstep : max_imbalance_step status acc a = (sales_imbalance status a, some a) := by
        simp only [max_imbalance_step, if_pos ha]
        rfl
      rw [hstep]
      rcases ih (sales_imbalance status a, some a) with h | ⟨T, h⟩
      · exact Or.inr ⟨a, h⟩
      · exact Or.inr ⟨T, h⟩
    · have hstep : max_imbalance_step status acc a = acc := by
        simp only [max_imbalance_step, if_neg ha]
      rw [hstep]
      exact ih acc

lemma team_of_product_injective (t u : ProductType) (team : ChefType)
    (ht : team_of_product t = some team) (hu : team_of_product u = some team) : t = u := by
  cases t <;> cases u <;> simp [team_of_product] at ht hu ⊢
  all_goals
    rw [← ht] at hu
    exact absurd hu (by decide)

lemma team_of_product_ne_paste (t : ProductType) (team : ChefType)
    (ht : team_of_product t = some team) : team ≠ CHEF_PASTE := by
  cases t <;> simp [team_of_product] at ht
  all_goals
    rw [← ht]
    decide

lemma analyze_move_inv_both (status : ProductionStatus) (teams : Nat → ChefTeam)
    (h : (analyze_production_needs status teams).num_chefs_to_move > 0) :
    ∃ (T D : ProductType) (v w : ℚ),
      all_products.foldl (max_imbalance_step status) (-1, none) = (v, some T) ∧
      v > round_float (1 / 10) ∧
      team_of_product T = some (analyze_production_needs status teams).chef_type_to ∧
      all_products.foldl (min_imbalance_step status) (1, none) = (w, some D) ∧
      team_of_product D = some (analyze_production_needs status teams).chef_type_from ∧
      (analyze_production_needs status teams).num_chefs_to_move = 1 := by
  unfold analyze_production_needs at h ⊢
  generalize all_products.foldl (max_imbalance_step status) (-1, none) = fm at h ⊢
  generalize all_products.foldl (min_imbalance_step status) (1, none) = fn at h ⊢
  obtain ⟨v, oT⟩ := fm
  obtain ⟨w, oD⟩ := fn
  cases oT with
  | none => simp at h
  | some t =>
    simp only at h ⊢
    split_ifs at h ⊢ with hv
    · cases hto : team_of_product t with
      | none => simp [hto] at h
      | some team_to =>
        simp only [hto] at h ⊢
        cases oD with
        | none => simp at h
        | some D =>
          simp only at h ⊢
          cases hfrom : team_of_product D with
          | none => simp [hfrom] at h
          | some team_from =>
            exact ⟨t, D, v, w, rfl, hv, by simp [hto], rfl, by simp [hfrom], by simp⟩
    · simp at h

lemma analyze_move_roles (status : ProductionStatus) (teams : Nat → ChefTeam)
    (h : (analyze_production_needs status teams).num_chefs_to_move > 0) :
    (analyze_production_needs status teams).num_chefs_to_move = 1 ∧
    (analyze_production_needs status teams).chef_type_from ≠
      (analyze_production_needs status teams).chef_type_to ∧
    (analyze_production_needs status teams).chef_type_from ≠ CHEF_PASTE ∧
    (analyze_production_needs status teams).chef_type_to ≠ CHEF_PASTE := by
  obtain ⟨T, D, v, w, hmax, hv, hto, hmin, hfrom, hone⟩ :=
    analyze_move_inv_both status teams h
  refine ⟨hone, ?_, team_of_product_ne_paste D _ hfrom, team_of_product_ne_paste T _ hto⟩
  intro heq
  rw [heq] at hfrom
  have hDT : D = T := team_of_product_injective D T _ hfrom hto
  have hvT : v = sales_imbalance status T := by
    rcases max_scan_spec status all_products (-1, none) with hsame | ⟨T', hT'⟩
    · rw [hsame] at hmax
      simp at hmax
    · rw [hT'] at hmax
      simp only [Prod.mk.injEq, Option.some.injEq] at hmax
      rw [← hmax.2, hmax.1]
  obtain ⟨_, _, hcases⟩ := min_scan_spec status all_products (1, none)
  rcases hcases with hsame | ⟨D', _, _, hD'20, _, hD'⟩
  · rw [hsame] at hmin
    simp at hmin
  · rw [hD'] at hmin
    simp only [Prod.mk.injEq, Option.some.injEq] at hmin
    rw [hmin.2, hDT, oversupply_eq_neg] at hD'20
    rw [hvT] at hv
    rw [round_float_tenth] at hv
    rw [round_float_twentieth] at hD'20
    linarith

/-- C28: whenever `analyze_production_needs` decides to move workers, the
count is exactly 1, donor and target role differ, and neither is the Paste chef
role; hence one management loop iteration never changes the size of the Paste
team. -/
theorem analyze_never_moves_paste_or_self (status : ProductionStatus)
    (teams : Nat → ChefTeam) :
    ((analyze_production_needs status teams).num_chefs_to_move > 0 →
      (analyze_production_needs status teams).num_chefs_to_move = 1 ∧
      (analyze_production_needs status teams).chef_type_from ≠
        (analyze_production_needs status teams).chef_type_to ∧
      (analyze_production_needs status teams).chef_type_from ≠ CHEF_PASTE ∧
      (analyze_production_needs status teams).chef_type_to ≠ CHEF_PASTE) ∧
    (∀ (mgmt_data : ManagementData) (config : BakeryConfig) (current_time now : Int)
      (lock_ok unlock_ok : Bool),
      (management_iteration status teams mgmt_data config current_time now lock_ok
        unlock_ok).teams CHEF_PASTE = teams CHEF_PASTE) := by
  refine ⟨analyze_move_roles status teams, ?_⟩
  intro mgmt_data config current_time now lock_ok unlock_ok
  by_cases hmove : (analyze_production_needs status teams).num_chefs_to_move > 0
  · obtain ⟨_, _, hfrom, hto⟩ := analyze_move_roles status teams hmove
    have hkeep : reassign_chefs teams (analyze_production_needs status teams) CHEF_PASTE =
        teams CHEF_PASTE :=
      reallocate_chefs_other teams _ _ _ CHEF_PASTE (Ne.symm hfrom) (Ne.symm hto)
    unfold management_iteration
    generalize analyze_production_needs status teams = decision at hmove hkeep
    simp only [hmove, if_true]
    split_ifs <;> first | rfl | exact hkeep
  · have hzero : ¬ (analyze_production_needs status teams).num_chefs_to_move > 0 := hmove
    unfold management_iteration
    generalize analyze_production_needs status teams = decision at hzero
    simp only [hzero, if_false]
    split_ifs <;> rfl

/-- C28 at the input of scenario 5: the decision moves one worker between two
different teams, neither of them the Paste team. -/
theorem analyze_never_moves_paste_or_self_witness :
    (analyze_production_needs ledger_scenario5 (roster fun _ => 2)).chef_type_from ≠
      (analyze_production_needs ledger_scenario5 (roster fun _ => 2)).chef_type_to ∧
    (analyze_production_needs ledger_scenario5 (roster fun _ => 2)).chef_type_from ≠
      CHEF_PASTE :=
  have h := (analyze_never_moves_paste_or_self ledger_scenario5 (roster fun _ => 2)).1
    (by rw [scenario5_decision]; decide)
  ⟨h.2.1, h.2.2.1⟩

/-! ### Thresholds after seeding and after a supply scan -/

lemma writes_guarded_unlock_tail (guard target : Region) (r : Region) (ok held : Bool) :
    writes_guarded guard target held (unlock_events r ok) = true := by
  cases ok <;> simp [unlock_events, writes_guarded]

lemma writes_guarded_append_writes (guard target r : Region) (ok : Bool) :
    ∀ (events : List Event), (∀ e ∈ events, ∃ x, e = Event.write x) →
      writes_guarded guard target true (events ++ unlock_events r ok) = true := by
  intro events
  induction events with
  | nil =>
    intro _
    exact writes_guarded_unlock_tail guard target r ok true
  | cons e events ih =>
    intro h
    obtain ⟨x, hx⟩ := h e (List.mem_cons_self _ _)
    subst hx
    have := ih (fun e he => h e (List.mem_cons_of_mem _ he))
    simp [writes_guarded, this]

lemma bake_products_events_writes (type : BakerType) (status : ProductionStatus)
    (config : BakeryConfig) :
    ∀ e ∈ bake_products_events type status config, ∃ x, e = Event.write x := by
  match type with
  | 0 => simp only [bake_products_events]; split_ifs <;> simp
  | 1 => simp only [bake_products_events]; split_ifs <;> simp
  | 2 => simp only [bake_products_events]; split_ifs <;> simp
  | n + 3 => simp [bake_products_events]

lemma produce_item_events_writes (type : ChefType) :
    ∀ e ∈ produce_item_events type, ∃ x, e = Event.write x := by
  match type with
  | 0 => simp [produce_item_events]
  | 1 => simp [produce_item_events]
  | 2 => simp [produce_item_events]
  | 3 => simp [produce_item_events]
  | 4 => simp [produce_item_events]
  | 5 => simp [produce_item_events]
  | n + 6 => simp [produce_item_events]

lemma chef_ledger_write_unlocked (type : ChefType) (inventory : Inventory)
    (status : ProductionStatus) (inv_lock_ok prod_lock_ok inv_unlock_ok : Bool)
    (h : Event.write Region.ledger ∈
      chef_events type inventory status inv_lock_ok prod_lock_ok true inv_unlock_ok) :
    writes_guarded Region.ledger Region.ledger false
      (chef_events type inventory status inv_lock_ok prod_lock_ok true inv_unlock_ok) =
        false := by
  match type with
  | 0 =>
    revert h
    cases inv_lock_ok <;> cases inv_unlock_ok <;>
      cases hd : check_dependencies 0 inventory <;>
      simp [chef_events, chef_product_type, produce_item_events, writes_guarded, unlock_events, hd]
  | 1 =>
    revert h
    cases inv_lock_ok <;> cases inv_unlock_ok <;>
      cases hd : check_dependencies 1 inventory <;>
      simp [chef_events, chef_product_type, produce_item_events, writes_guarded, unlock_events, hd]
  | 2 =>
    revert h
    cases inv_lock_ok <;> cases inv_unlock_ok <;>
      cases hd : check_dependencies 2 inventory <;>
      simp [chef_events, chef_product_type, produce_item_events, writes_guarded, unlock_events, hd]
  | 3 =>
    revert h
    cases inv_lock_ok <;> cases inv_unlock_ok <;>
      cases hd : check_dependencies 3 inventory <;>
      simp [chef_events, chef_product_type, produce_item_events, writes_guarded, unlock_events, hd]
  | 4 =>
    revert h
    cases inv_lock_ok <;> cases inv_unlock_ok <;> cases prod_lock_ok <;>
      cases hd : check_dependencies 4 inventory <;>
      by_cases hp : status.produced_items PRODUCT_PASTE - status.sold_items PRODUCT_PASTE ≤ 0 <;>
      simp [chef_events, chef_product_type, produce_item_events, writes_guarded, unlock_events, hd, hp]
  | 5 =>
    revert h
    cases inv_lock_ok <;> cases inv_unlock_ok <;> cases prod_lock_ok <;>
      cases hd : check_dependencies 5 inventory <;>
      by_cases hp : status.produced_items PRODUCT_PASTE - status.sold_items PRODUCT_PASTE ≤ 0 <;>
      simp [chef_events, chef_product_type, produce_item_events, writes_guarded, unlock_events, hd, hp]
  | n + 6 =>
    simp [chef_events, chef_product_type] at h

/-- C24 fails as stated: a Cake chef, which is not a pastry role, stores
`produced_items[PRODUCT_CAKE]` while holding only the inventory lock; and the
management stores `simulation_active` after it has released the ledger lock. -/
theorem ledger_written_without_ledger_lock :
    chef_events CHEF_CAKE inventory_stocked ledger_cake true true true true =
      [Event.lock Region.inventory, Event.write Region.inventory,
       Event.write Region.inventory, Event.write Region.inventory,
       Event.write Region.inventory, Event.write Region.inventory,
       Event.write Region.ledger, Event.unlock Region.inventory] ∧
    writes_guarded Region.ledger Region.ledger false
      (chef_events CHEF_CAKE inventory_stocked ledger_cake true true true true) = false ∧
    management_events ledger_cake { last_decision_time := 0, decision_count := 0 }
      { config_sample with thresholds := fun _ => 0 } 60 60 true true =
      [Event.lock Region.ledger, Event.unlock Region.ledger, Event.write Region.ledger] ∧
    writes_guarded Region.ledger Region.ledger false
      (management_events ledger_cake { last_decision_time := 0, decision_count := 0 }
        { config_sample with thresholds := fun _ => 0 } 60 60 true true) = false := by
  refine ⟨by decide, by decide, ?_, ?_⟩
  · simp [management_events, check_end_conditions, ledger_cake]
  · simp [management_events, check_end_conditions, ledger_cake, writes_guarded]

/-- C24 (amended): in every baker, seller and customer iteration every store
to a ledger field happens while the actor holds the ledger lock; in a chef
iteration of any role every store to the ledger, made by `produce_item`,
happens while the chef holds the inventory lock, and not the ledger lock
(a pastry chef has released it by then, the other roles never take it); and a
management iteration stores to the ledger outside the ledger lock exactly when
it ends the simulation (both `semop` calls succeeded and `check_end_conditions`
reported true). -/
theorem ledger_writes_lock_discipline :
    (∀ (type : BakerType) (status : ProductionStatus) (config : BakeryConfig)
      (lock_ok unlock_ok : Bool),
      writes_guarded Region.ledger Region.ledger false
        (baker_events type status config lock_ok unlock_ok) = true) ∧
    (∀ (received : Option CustomerMsg) (status : ProductionStatus) (lock_ok unlock_ok : Bool),
      writes_guarded Region.ledger Region.ledger false
        (seller_events received status lock_ok unlock_ok) = true) ∧
    (∀ (id : Int) (items : List CustomerItem) (config : BakeryConfig)
      (lock_ok unlock_ok : Bool),
      writes_guarded Region.ledger Region.ledger false
        (customer_events id items config lock_ok unlock_ok) = true) ∧
    (∀ (type : ChefType) (inventory : Inventory) (status : ProductionStatus)
      (inv_lock_ok prod_lock_ok prod_unlock_ok inv_unlock_ok : Bool),
      writes_guarded Region.inventory Region.ledger false
        (chef_events type inventory status inv_lock_ok prod_lock_ok prod_unlock_ok
          inv_unlock_ok) = true) ∧
    (∀ (type : ChefType) (inventory : Inventory) (status : ProductionStatus)
      (inv_lock_ok prod_lock_ok inv_unlock_ok : Bool),
      Event.write Region.ledger ∈
        chef_events type inventory status inv_lock_ok prod_lock_ok true inv_unlock_ok →
      writes_guarded Region.ledger Region.ledger false
        (chef_events type inventory status inv_lock_ok prod_lock_ok true inv_unlock_ok) =
          false) ∧
    (∀ (status : ProductionStatus) (mgmt_data : ManagementData) (config : BakeryConfig)
      (current_time now : Int) (lock_ok unlock_ok : Bool),
      writes_guarded Region.ledger Region.ledger false
        (management_events status mgmt_data config current_time now lock_ok unlock_ok) = false ↔
      (current_time - mgmt_data.last_decision_time ≥ 60 ∧ lock_ok = true ∧ unlock_ok = true ∧
        check_end_conditions status config now = true)) := by
  refine ⟨?_, ?_, ?_, ?_, chef_ledger_write_unlocked, ?_⟩
  · intro type status config lock_ok unlock_ok
    cases lock_ok
    · simp [baker_events, writes_guarded]
    · simp only [baker_events, Bool.not_true, Bool.false_eq_true, if_false, writes_guarded,
        if_true]
      exact writes_guarded_append_writes _ _ _ _ _ (bake_products_events_writes type status config)
  · intro received status lock_ok unlock_ok
    cases received with
    | none => simp [seller_events, writes_guarded]
    | some customer_msg =>
      cases lock_ok
      · simp [seller_events, writes_guarded]
      · cases unlock_ok <;> cases hc : customer_msg.is_complaint <;>
          cases ha : check_product_availability customer_msg.product_type
            customer_msg.subtype customer_msg.quantity status <;>
          simp [seller_events, writes_guarded, unlock_events, hc, ha]
  · intro id items config lock_ok unlock_ok
    cases lock_ok <;> cases unlock_ok <;>
      cases hs : (customer_requests config items (customer_request_buffer id, true)).2 <;>
      simp [customer_events, writes_guarded, unlock_events, hs]
  · intro type inventory status inv_lock_ok prod_lock_ok prod_unlock_ok inv_unlock_ok
    unfold chef_events
    cases chef_product_type type with
    | none => simp [writes_guarded]
    | some p =>
      cases inv_lock_ok
      · simp [writes_guarded]
      · simp only [Bool.not_true, Bool.false_eq_true, if_false, writes_guarded, if_true]
        have hprod := writes_guarded_append_writes Region.inventory Region.ledger
          Region.inventory inv_unlock_ok (produce_item_events type)
          (produce_item_events_writes type)
        have htail := writes_guarded_unlock_tail Region.inventory Region.ledger
          Region.inventory inv_unlock_ok true
        split_ifs <;> cases prod_unlock_ok <;>
          simp [writes_guarded, unlock_events, hprod, htail] <;>
          first | exact htail | exact hprod
  · intro status mgmt_data config current_time now lock_ok unlock_ok
    by_cases hdue : current_time - mgmt_data.last_decision_time ≥ 60 <;>
      cases lock_ok <;> cases unlock_ok <;>
      cases he : check_end_conditions status config now <;>
      simp [management_events, writes_guarded, hdue, he]

/-- C24 (amended) at a concrete input: a SweetPastry chef that uses the single
unit of paste stores to the ledger after releasing the ledger lock. -/
theorem ledger_writes_lock_discipline_witness :
    writes_guarded Region.ledger Region.ledger false
      (chef_events CHEF_SWEET_PATISSERIE inventory_stocked ledger_paste true true true true) =
        false :=
  ledger_writes_lock_discipline.2.2.2.2.1 CHEF_SWEET_PATISSERIE inventory_stocked ledger_paste
    true true true (by decide)

end Bakery
